import Mathlib

/-!
MiniDexed main-screen controller (src/uimain.cpp, src/uimain.h)

A shallow embedding of `CUIMain`: the page table, the per-item handler tables,
the event dispatcher `EventHandler` and the parameter handlers, followed by the
properties proved about them.

Conventions of the embedding

* `unsigned` values are `Nat` and every `++`/`-` on them is reduced modulo
  `2^32` where the C++ arithmetic can wrap; `int` values are `Int`.
* A function pointer is the name of the function it points to
  (`TMainHandler`, `TMainScreen`); the null pointer is `none`.
* A sentinel-terminated C array is the list of its initialisers, sentinel
  included; reading past its end, reading through a null table pointer and
  calling a null function pointer have no defined result and are `none`.
* The collaborators that are not part of uimain.cpp (`CMiniDexed`,
  `CSysExFileLoader`, `CUserInterface`, `CTimer`, `CConfig`) are small explicit
  state records.
-/

namespace MiniDexed

/-! ## Types of uimain.h -/

/-- Events of the main screen (`CUIMain::TMainEvent`). -/
inductive TMainEvent where
  | MainEventUpdate
  | MainEventNextScreen
  | MainEventSelect
  | MainEventStepDown
  | MainEventStepUp
  | MainEventPressAndStepDown
  | MainEventPressAndStepUp
  | MainEventVolumeDown
  | MainEventVolumeUp
  | MainEventUnknown
  deriving DecidableEq, Repr

/-- Identity of a `TMainHandler` function (the target of a handler pointer). -/
inductive TMainHandler where
  | NextBankVoiceMainItem
  | ChangeMasterVol
  | ChangeBank
  | ChangeVoice
  | ChangeTG
  | LoadPerf
  | SelectPerf
  | MuteUnmuteTG
  | SelectTG
  | EditGroup
  deriving DecidableEq, Repr

/-- Identity of a `TMainScreen` function (the target of a screen pointer). -/
inductive TMainScreen where
  | ViewBankVoice
  | ViewPerformance
  | ViewTGGroupMute
  | ViewMasterVol
  deriving DecidableEq, Repr

/-- One row of a handler table (`CUIMain::TMainItem`); `none` is the null pointer. -/
structure TMainItem where
  ShortPressHandler : Option TMainHandler
  EncoderHandler : Option TMainHandler
  PressAndTurnHandler : Option TMainHandler
  deriving DecidableEq, Repr

/-- One row of the page table (`CUIMain::TMainPage`). `FuncItem` is the array the
pointer refers to; the null pointer of the sentinel row is the empty list, from
which nothing can be read. -/
structure TMainPage where
  ScreenHandler : Option TMainScreen
  FuncItem : List TMainItem
  deriving DecidableEq, Repr

/-! ## Collaborators -/

/-- The tone-generator parameters this unit reads and writes
(`CMiniDexed::TGParameterVoiceBank`, ...). -/
inductive TTGParameter where
  | TGParameterVoiceBank
  | TGParameterProgram
  | TGParameterTGEnable
  | TGParameterTGGrouping
  deriving DecidableEq, Repr

/-- Modelled from the spec: `CConfig` (config.h) is not among the sources; its two
constants used here are parameters of the model. -/
structure CConfig where
  ToneGenerators : Nat
  LCDColumns : Nat
  deriving DecidableEq, Repr

/-- A state-changing call received by the parameter subsystem. -/
inductive TSetCall where
  | SetTGParameter (Parameter : TTGParameter) (nValue : Int) (nTG : Nat)
  | setMasterVolume (nPercent : Int)
  | SetNewPerformance (nID : Nat)
  deriving DecidableEq, Repr

/-- Modelled from the spec: `CSysExFileLoader` (sysexfileloader.h) is not among the
sources. The bank catalog is its two ordering functions, its bank names and
the constant `VoicesPerBank`; the ordering and the names are the catalog's own
business and are left arbitrary. A `std::string` is the list of its
characters. -/
structure CSysExFileLoader where
  VoicesPerBank : Nat
  GetNextBankDown : Int → Int
  GetNextBankUp : Int → Int
  GetBankName : Int → List Char

/-- Modelled from the spec: `CMiniDexed` (minidexed.h) is not among the sources.
Following section 6 of the specification it is a plain get/set store: one `int`
per parameter kind and tone generator, the master volume, the active
performance slot, the last performance slot and the select-then-confirm flag.
The master volume, a float in `[0,1]` in the program, is held as the integer
percentage that `(int)roundf(getMasterVolume()*100)` reads and that
`setMasterVolume((float32_t)nValue/100)` stores. `Calls` lists the setter calls
received so far, oldest first. `GetVoiceName` and `GetPerformanceName` are the
names the subsystem reports for a tone generator's voice and for a
performance slot. -/
structure CMiniDexed where
  TGParameter : TTGParameter → Nat → Int
  MasterVolumePercent : Int
  ActualPerformanceID : Nat
  LastPerformance : Nat
  PerformanceSelectToLoad : Bool
  SysExFileLoader : CSysExFileLoader
  Calls : List TSetCall
  GetVoiceName : Nat → List Char
  GetPerformanceName : Nat → List Char

/-- Modelled from the spec: `CUserInterface` (userinterface.h) is not among the
sources. The display sink is the list of the `DisplayWriteMain` calls it has
received, oldest first, each recorded as the renderer that made it. -/
structure CUserInterface where
  Written : List TMainScreen
  deriving DecidableEq, Repr

/-- Modelled from the spec: the kernel timer facility (`CTimer` of the Circle
library). `Ticks` is the current time in units of `1/HZ` seconds,
`KernelTimers` the outstanding timers as (handle, expiry) pairs,
`LastHandle` the handle issued last and `Cancelled` the handles
`CancelKernelTimer` has been called with, oldest first; handles are never
zero. -/
structure CTimer where
  Ticks : Nat
  KernelTimers : List (Nat × Nat)
  LastHandle : Nat
  Cancelled : List Nat
  deriving DecidableEq, Repr

/-- The dispatcher `CUIMain` together with the collaborators it refers to. -/
structure CUIMain where
  m_pUI : CUserInterface
  m_pMiniDexed : CMiniDexed
  m_nCurrentMainScreen : Nat
  m_nCurrentSelection : Nat
  m_nCurrentTG : Nat
  m_nSelectedTG : Nat
  m_nSelectedPerformanceID : Nat
  m_TimerHandle : Nat
  Timer : CTimer

/-! ## Machine arithmetic -/

/-- Number of values of a 32-bit `unsigned`. -/
def UINT_RANGE : Nat := 4294967296

/-- The largest value of a 32-bit `int`. -/
def INT_MAX : Int := 2147483647

/-- The smallest value of a 32-bit `int`. -/
def INT_MIN : Int := -2147483648

/-- Conversion `int` to `unsigned`. -/
def toUnsigned (v : Int) : Nat := (v % 4294967296).toNat

/-- Conversion `unsigned` to `int`. -/
def toInt (u : Nat) : Int := if u < 2147483648 then (u : Int) else (u : Int) - 4294967296

/-! ## Calls into the collaborators -/

/-- The call `GetTGParameter (Parameter, nTG)`. -/
def CMiniDexed.GetTGParameter (m : CMiniDexed) (Parameter : TTGParameter) (nTG : Nat) : Int :=
  m.TGParameter Parameter nTG

/-- The call `SetTGParameter (Parameter, nValue, nTG)`: stores the value for that
parameter of that tone generator and leaves every other value as it was. -/
def CMiniDexed.SetTGParameter (m : CMiniDexed) (Parameter : TTGParameter) (nValue : Int)
    (nTG : Nat) : CMiniDexed :=
  { m with
    TGParameter := fun P n => if P = Parameter ∧ n = nTG then nValue else m.TGParameter P n
    Calls := m.Calls ++ [TSetCall.SetTGParameter Parameter nValue nTG] }

/-- The value of `(int)roundf(getMasterVolume()*100)`. -/
def CMiniDexed.getMasterVolumePercent (m : CMiniDexed) : Int := m.MasterVolumePercent

/-- The call `setMasterVolume((float32_t)nValue / 100)`. -/
def CMiniDexed.setMasterVolumePercent (m : CMiniDexed) (nValue : Int) : CMiniDexed :=
  { m with
    MasterVolumePercent := nValue
    Calls := m.Calls ++ [TSetCall.setMasterVolume nValue] }

/-- The call `SetNewPerformance (nID)`: makes `nID` the active performance slot. -/
def CMiniDexed.SetNewPerformance (m : CMiniDexed) (nID : Nat) : CMiniDexed :=
  { m with
    ActualPerformanceID := nID
    Calls := m.Calls ++ [TSetCall.SetNewPerformance nID] }

/-- The call `DisplayWriteMain` issued by the renderer `Screen`. -/
def CUserInterface.DisplayWriteMain (ui : CUserInterface) (Screen : TMainScreen) :
    CUserInterface :=
  { ui with Written := ui.Written ++ [Screen] }

/-- Timer ticks per second (`HZ` of the Circle library). -/
def HZ : Nat := 100

/-- The conversion `MSEC2HZ` from milliseconds to timer ticks. -/
def MSEC2HZ (msec : Nat) : Nat := msec * HZ / 1000

/-- The call `StartKernelTimer (nDelay, ...)`: registers a timer expiring `nDelay`
ticks from now and returns its fresh, non-zero handle. -/
def CTimer.StartKernelTimer (t : CTimer) (nDelay : Nat) : Nat × CTimer :=
  (t.LastHandle + 1,
   { t with
     KernelTimers := t.KernelTimers ++ [(t.LastHandle + 1, t.Ticks + nDelay)]
     LastHandle := t.LastHandle + 1 })

/-- The call `CancelKernelTimer (hTimer)`: removes the timer with that handle, if
it is still outstanding. -/
def CTimer.CancelKernelTimer (t : CTimer) (hTimer : Nat) : CTimer :=
  { t with
    KernelTimers := t.KernelTimers.filter (fun e => e.1 ≠ hTimer)
    Cancelled := t.Cancelled ++ [hTimer] }

/-! ## uimain.cpp: the tables -/

/-- The table `CUIMain::s_BankVoiceFunctions`. -/
def s_BankVoiceFunctions : List TMainItem :=
  [ ⟨some .NextBankVoiceMainItem, some .ChangeTG, some .ChangeMasterVol⟩,
    ⟨some .NextBankVoiceMainItem, some .ChangeBank, some .ChangeMasterVol⟩,
    ⟨some .NextBankVoiceMainItem, some .ChangeVoice, some .ChangeMasterVol⟩,
    ⟨none, none, none⟩ ]

/-- The table `CUIMain::s_PerformanceFunctions`. -/
def s_PerformanceFunctions : List TMainItem :=
  [ ⟨some .LoadPerf, some .SelectPerf, some .ChangeMasterVol⟩,
    ⟨none, none, none⟩ ]

/-- The table `CUIMain::s_GroupsMuteFunctions`. -/
def s_GroupsMuteFunctions : List TMainItem :=
  [ ⟨some .MuteUnmuteTG, some .SelectTG, some .EditGroup⟩,
    ⟨none, none, none⟩ ]

/-- The table `CUIMain::s_MainScreens`. -/
def s_MainScreens : List TMainPage :=
  [ ⟨some .ViewBankVoice, s_BankVoiceFunctions⟩,
    ⟨some .ViewPerformance, s_PerformanceFunctions⟩,
    ⟨some .ViewTGGroupMute, s_GroupsMuteFunctions⟩,
    ⟨none, []⟩ ]

/-- The initial state built by the constructor `CUIMain::CUIMain` and the member
initialisers of uimain.h, for given collaborators. -/
def CUIMain.init (pUI : CUserInterface) (pMiniDexed : CMiniDexed) (Timer : CTimer) : CUIMain :=
  { m_pUI := pUI
    m_pMiniDexed := pMiniDexed
    m_nCurrentMainScreen := 0
    m_nCurrentSelection := 0
    m_nCurrentTG := 0
    m_nSelectedTG := 0
    m_nSelectedPerformanceID := 0
    m_TimerHandle := 0
    Timer := Timer }

/-! ## uimain.cpp: the text of the renderers

A `std::string` is the list of its characters. The functions below give the four
strings a renderer builds and whose `c_str()` it hands to `DisplayWriteMain`;
the result is `none` when the renderer does not get as far as that call:
`PadString` fails with `std::length_error`, or an array is read or written
outside its bounds. -/

/-- The item `s_MainScreens[m_nCurrentMainScreen].FuncItem[m_nCurrentSelection]`. -/
def currentItem (pUIMain : CUIMain) : Option TMainItem := do
  let Page ← s_MainScreens[pUIMain.m_nCurrentMainScreen]?
  Page.FuncItem[pUIMain.m_nCurrentSelection]?

/-- The terminating character of a C string. -/
def NUL : Char := Char.ofNat 0

/-- The escape character, written `\E` in the source. -/
def ESC : Char := Char.ofNat 27

/-- The characters a `const char *` to the buffer of a string denotes: those before
the first NUL. -/
def c_str (s : List Char) : List Char := s.takeWhile (fun c => c ≠ NUL)

/-- The function `std::to_string` on an integer. -/
def to_string (nValue : Int) : List Char :=
  if nValue < 0 then '-' :: Nat.toDigits 10 nValue.natAbs else Nat.toDigits 10 nValue.toNat

/-- The function `CUIMain::PadString`. The padding is built by
`string Padding(nLength - strlen(pSource), PadChar)`; the count is a `size_t`,
so when the source is longer than `nLength` the difference wraps to a number
no string can hold, the constructor fails with `std::length_error` and the
function produces no string. -/
def PadString (pSource : List Char) (nLength : Int) (PadChar : Char)
    (bPrependPadding : Bool) : Option (List Char) :=
  let nSource : Int := (c_str pSource).length
  if nLength - nSource < 0 then none
  else
    let Padding := List.replicate (nLength - nSource).toNat PadChar
    let Padded0 := if !bPrependPadding then c_str pSource else []
    let Padded1 := Padded0 ++ Padding
    let Padded2 := if bPrependPadding then Padded1 ++ c_str pSource else Padded1
    some Padded2

/-- The first part of `CUIMain::ViewBankVoice`, "prepare selection brackets": the
four bracket strings (bank open, bank close, voice open, voice close), chosen
by the encoder handler of the current item. -/
def ViewBankVoiceBrackets (pUIMain : CUIMain) :
    Option (List Char × List Char × List Char × List Char) := do
  let Item ← currentItem pUIMain
  let pEncoderFunc := Item.EncoderHandler
  let Bank := if pEncoderFunc = some .ChangeBank then (['['], [']']) else ([' '], [' '])
  let Voice := if pEncoderFunc = some .ChangeVoice then (['['], [']']) else ([' '], [' '])
  pure (Bank.1, Bank.2, Voice.1, Voice.2)

/-- The strings `Bank`, `TG`, `Voice` and `Midi` built by `CUIMain::ViewBankVoice`. -/
def ViewBankVoiceText (pUIMain : CUIMain) :
    Option (List Char × List Char × List Char × List Char) := do
  let nTG := pUIMain.m_nCurrentTG
  let Brackets ← ViewBankVoiceBrackets pUIMain
  let nBankValue := pUIMain.m_pMiniDexed.GetTGParameter .TGParameterVoiceBank nTG
  let BankValuePadded ← PadString (to_string (nBankValue + 1)) 3 '0' true
  let BankName := pUIMain.m_pMiniDexed.SysExFileLoader.GetBankName nBankValue
  let BankNamePadded ← PadString BankName 10 ' ' false
  let Bank := BankValuePadded ++ Brackets.1 ++ BankNamePadded ++ Brackets.2.1
  let nVoiceValue := pUIMain.m_pMiniDexed.GetTGParameter .TGParameterProgram nTG
  let VoiceValue ← PadString (to_string (nVoiceValue + 1)) 2 '0' true
  let VoiceValuePadded := [' '] ++ VoiceValue
  let VoiceName := pUIMain.m_pMiniDexed.GetVoiceName nTG
  let VoiceNamePadded ← PadString VoiceName 10 ' ' false
  let Voice := VoiceValuePadded ++ Brackets.2.2.1 ++ VoiceNamePadded ++ Brackets.2.2.2
  let TG := to_string (((nTG + 1) % UINT_RANGE : Nat) : Int)
  let Midi := [' ']
  pure (Bank, TG, Voice, Midi)

/-- The strings `ValuePadded`, `nPSelected`, `Name` and `empty` built by
`CUIMain::ViewPerformance`. -/
def ViewPerformanceText (pUIMain : CUIMain) :
    Option (List Char × List Char × List Char × List Char) := do
  let nValue := pUIMain.m_nSelectedPerformanceID
  let Value ← PadString (to_string (nValue : Int)) 4 '0' true
  let ValuePadded := ['P', 'E', 'R', 'F', ' '] ++ Value
  let Name := pUIMain.m_pMiniDexed.GetPerformanceName nValue
  let nPSelected :=
    if nValue = pUIMain.m_pMiniDexed.ActualPerformanceID then ['(', 'L', ')'] else []
  pure (ValuePadded, nPSelected, Name, [])

/-- The member `m_GroupText` of uimain.h. -/
def m_GroupText : List Char := ['.', 'A', 'B', 'C', 'D']

/-- The read `m_GroupText[nGroup]`: a character of the string, the terminating NUL
at the index equal to its size, and no defined result at any other index (a
negative `int` converts to an index far past the end). -/
def GroupTextAt (nGroup : Int) : Option Char :=
  if 0 ≤ nGroup then (m_GroupText ++ [NUL])[nGroup.toNat]? else none

/-- The strings `Groups`, `empty`, `TGs` and `escCursor` built by
`CUIMain::ViewTGGroupMute`. The loop over the tone generators is the left fold
over `0 .. ToneGenerators-1`, appending to both lines. -/
def ViewTGGroupMuteText (cfg : CConfig) (pUIMain : CUIMain) :
    Option (List Char × List Char × List Char × List Char) := do
  let Lines ← (List.range cfg.ToneGenerators).foldlM
    (fun (Lines : List Char × List Char) n => do
      let Group ← GroupTextAt (pUIMain.m_pMiniDexed.GetTGParameter .TGParameterTGGrouping n)
      let Groups := Lines.1 ++ [Group]
      let TGs := Lines.2 ++
        (if pUIMain.m_pMiniDexed.GetTGParameter .TGParameterTGEnable n ≠ 0 then
          to_string (((n + 1) % UINT_RANGE : Nat) : Int)
         else ['-'])
      pure (Groups, TGs))
    (['G', 'r', 'o', 'u', 'p', ' '], ['T', 'G', ' ', ' ', ' ', ' '])
  let escCursor := [ESC, '[', '?', '2', '5', 'h', ESC, '[', '2', ';'] ++
    to_string (((pUIMain.m_nSelectedTG + 7) % UINT_RANGE : Nat) : Int) ++ ['H']
  pure (Lines.1, [], Lines.2, escCursor)

/-! ### The volume bar -/

/-- The block character, the byte 0xFF. -/
def BLOCK : Char := Char.ofNat 255

/-- Number of values of a `size_t` on the 32-bit targets. On the 64-bit targets the
range is `2^64`; a product that stays below the range here stays below it
there. -/
def SIZE_RANGE : Nat := 4294967296

/-- Conversion `int` to `size_t`. -/
def toSize (v : Int) : Nat := (v % (SIZE_RANGE : Int)).toNat

/-- The constant `MaxChars` of `CUIMain::ToVolume`: `CConfig::LCDColumns-6`, computed
on `unsigned`, that is modulo `2^32`. -/
def ToVolume.MaxChars (cfg : CConfig) : Nat := toUnsigned ((cfg.LCDColumns : Int) - 6)

/-- The index `nValue * MaxChars / 100` at which `CUIMain::ToVolume` writes the NUL,
a `size_t` expression. -/
def ToVolume.nIndex (cfg : CConfig) (nValue : Int) : Nat :=
  (toSize nValue * ToVolume.MaxChars cfg) % SIZE_RANGE / 100

/-- The function `CUIMain::ToVolume`. The array `VolumeBar` has `MaxChars+1` elements,
all set to the block character by `memset`; one NUL is written at index
`nValue * MaxChars / 100`, and a write outside the array has no defined
result. The array is then padded with spaces as a C string. -/
def ToVolume (cfg : CConfig) (nValue : Int) : Option (List Char) :=
  let MaxChars : Nat := ToVolume.MaxChars cfg
  let VolumeBar : List Char := List.replicate (MaxChars + 1) BLOCK
  let nIndex : Nat := ToVolume.nIndex cfg nValue
  if nIndex < MaxChars + 1 then
    PadString (VolumeBar.set nIndex NUL) (toInt MaxChars) ' ' false
  else none

/-- The four strings built by `CUIMain::ViewMasterVol`: the title, `empty`,
`VolumeBar` and the number. The percentage is what
`(unsigned)roundf(getMasterVolume()*100)` reads. -/
def ViewMasterVolText (cfg : CConfig) (pUIMain : CUIMain) :
    Option (List Char × List Char × List Char × List Char) := do
  let nValue : Nat := toUnsigned pUIMain.m_pMiniDexed.getMasterVolumePercent
  let Bar ← ToVolume cfg (toInt nValue)
  let VolumeBar := ['['] ++ Bar ++ [']']
  pure (['M', 'a', 's', 't', 'e', 'r', ' ', 'V', 'o', 'l', 'u', 'm', 'e'], [], VolumeBar,
    to_string (nValue : Int))

/-! ## uimain.cpp: the renderers

Each renderer reads the dispatcher and the subsystem, builds its four text
fields and ends in one `DisplayWriteMain`; it changes neither the dispatcher
nor the subsystem. When the text cannot be built the renderer does not get as
far as `DisplayWriteMain` and it does not return to its caller either: the
display receives nothing, and the object stays as it is at that point. -/

/-- The renderer `CUIMain::ViewBankVoice`. -/
def ViewBankVoice (pUIMain : CUIMain) : CUIMain :=
  { pUIMain with
    m_pUI :=
      match ViewBankVoiceText pUIMain with
      | some _ => pUIMain.m_pUI.DisplayWriteMain .ViewBankVoice
      | none => pUIMain.m_pUI }

/-- The renderer `CUIMain::ViewPerformance`. -/
def ViewPerformance (pUIMain : CUIMain) : CUIMain :=
  { pUIMain with
    m_pUI :=
      match ViewPerformanceText pUIMain with
      | some _ => pUIMain.m_pUI.DisplayWriteMain .ViewPerformance
      | none => pUIMain.m_pUI }

/-- The renderer `CUIMain::ViewTGGroupMute`. -/
def ViewTGGroupMute (cfg : CConfig) (pUIMain : CUIMain) : CUIMain :=
  { pUIMain with
    m_pUI :=
      match ViewTGGroupMuteText cfg pUIMain with
      | some _ => pUIMain.m_pUI.DisplayWriteMain .ViewTGGroupMute
      | none => pUIMain.m_pUI }

/-- The renderer `CUIMain::ViewMasterVol`. -/
def ViewMasterVol (cfg : CConfig) (pUIMain : CUIMain) : CUIMain :=
  { pUIMain with
    m_pUI :=
      match ViewMasterVolText cfg pUIMain with
      | some _ => pUIMain.m_pUI.DisplayWriteMain .ViewMasterVol
      | none => pUIMain.m_pUI }

/-- The text the renderer `Screen` builds. -/
def ScreenText (cfg : CConfig) (Screen : TMainScreen) (pUIMain : CUIMain) :
    Option (List Char × List Char × List Char × List Char) :=
  match Screen with
  | .ViewBankVoice => ViewBankVoiceText pUIMain
  | .ViewPerformance => ViewPerformanceText pUIMain
  | .ViewTGGroupMute => ViewTGGroupMuteText cfg pUIMain
  | .ViewMasterVol => ViewMasterVolText cfg pUIMain

/-- A call through a `TMainScreen` pointer. -/
def callScreen (cfg : CConfig) (Screen : TMainScreen) (pUIMain : CUIMain) : CUIMain :=
  match Screen with
  | .ViewBankVoice => ViewBankVoice pUIMain
  | .ViewPerformance => ViewPerformance pUIMain
  | .ViewTGGroupMute => ViewTGGroupMute cfg pUIMain
  | .ViewMasterVol => ViewMasterVol cfg pUIMain

/-! ## uimain.cpp: the handlers -/

/-- The handler `CUIMain::ChangeBank`. The loop over the tone generators is the
left fold over `0 .. ToneGenerators-1`; every iteration reads the grouping
from the subsystem as it is at that moment. -/
def ChangeBank (cfg : CConfig) (pUIMain : CUIMain) (Event : TMainEvent) : CUIMain :=
  let nTG := pUIMain.m_nCurrentTG
  let nTGGroup := pUIMain.m_pMiniDexed.GetTGParameter .TGParameterTGGrouping nTG
  let nValue := pUIMain.m_pMiniDexed.GetTGParameter .TGParameterVoiceBank nTG
  let stepped : Option Int :=
    match Event with
    | .MainEventStepDown => some (pUIMain.m_pMiniDexed.SysExFileLoader.GetNextBankDown nValue)
    | .MainEventStepUp => some (pUIMain.m_pMiniDexed.SysExFileLoader.GetNextBankUp nValue)
    | _ => none
  match stepped with
  | none => pUIMain
  | some nValue =>
    if nTGGroup = 0 then
      { pUIMain with
        m_pMiniDexed := pUIMain.m_pMiniDexed.SetTGParameter .TGParameterVoiceBank nValue nTG }
    else
      { pUIMain with
        m_pMiniDexed :=
          (List.range cfg.ToneGenerators).foldl
            (fun m n =>
              if m.GetTGParameter .TGParameterTGGrouping n = nTGGroup then
                m.SetTGParameter .TGParameterVoiceBank nValue n
              else m)
            pUIMain.m_pMiniDexed }

/-- The value of `--nValue` on an `int`: at `INT_MIN` the compiled code wraps to
`INT_MAX`. -/
def decInt (nValue : Int) : Int := if nValue = INT_MIN then INT_MAX else nValue - 1

/-- The value of `++nValue` on an `int`: at `INT_MAX` the compiled code wraps to
`INT_MIN`. -/
def incInt (nValue : Int) : Int := if nValue = INT_MAX then INT_MIN else nValue + 1

/-- The handler `CUIMain::ChangeVoice`. `stepped` is `none` on the `default:
return` path and otherwise the triple (bUpdateBank, nValue, nVB) held after the
switch. -/
def ChangeVoice (cfg : CConfig) (pUIMain : CUIMain) (Event : TMainEvent) : CUIMain :=
  let nTG := pUIMain.m_nCurrentTG
  let nTGGroup := pUIMain.m_pMiniDexed.GetTGParameter .TGParameterTGGrouping nTG
  let nVB := pUIMain.m_pMiniDexed.GetTGParameter .TGParameterVoiceBank nTG
  let nValue := pUIMain.m_pMiniDexed.GetTGParameter .TGParameterProgram nTG
  let VoicesPerBank : Int := pUIMain.m_pMiniDexed.SysExFileLoader.VoicesPerBank
  let stepped : Option (Bool × Int × Int) :=
    match Event with
    | .MainEventStepDown =>
      some (if decInt nValue < 0 then
              (true, VoicesPerBank - 1, pUIMain.m_pMiniDexed.SysExFileLoader.GetNextBankDown nVB)
            else (false, decInt nValue, nVB))
    | .MainEventStepUp =>
      some (if incInt nValue > VoicesPerBank - 1 then
              (true, 0, pUIMain.m_pMiniDexed.SysExFileLoader.GetNextBankUp nVB)
            else (false, incInt nValue, nVB))
    | _ => none
  match stepped with
  | none => pUIMain
  | some (bUpdateBank, nValue, nVB) =>
    if nTGGroup = 0 then
      let m1 :=
        if bUpdateBank then pUIMain.m_pMiniDexed.SetTGParameter .TGParameterVoiceBank nVB nTG
        else pUIMain.m_pMiniDexed
      { pUIMain with m_pMiniDexed := m1.SetTGParameter .TGParameterProgram nValue nTG }
    else
      { pUIMain with
        m_pMiniDexed :=
          (List.range cfg.ToneGenerators).foldl
            (fun m n =>
              if m.GetTGParameter .TGParameterTGGrouping n = nTGGroup then
                let m1 :=
                  if bUpdateBank then m.SetTGParameter .TGParameterVoiceBank nVB n else m
                m1.SetTGParameter .TGParameterProgram nValue n
              else m)
            pUIMain.m_pMiniDexed }

/-- The handler `CUIMain::ChangeTG`. -/
def ChangeTG (cfg : CConfig) (pUIMain : CUIMain) (Event : TMainEvent) : CUIMain :=
  let nValue := pUIMain.m_nCurrentTG
  let stepped : Option Nat :=
    match Event with
    | .MainEventStepDown => some (if nValue > 0 then nValue - 1 else nValue)
    | .MainEventStepUp =>
      let nValue := (nValue + 1) % UINT_RANGE
      some (if nValue ≥ cfg.ToneGenerators then (cfg.ToneGenerators + UINT_RANGE - 1) % UINT_RANGE
            else nValue)
    | _ => none
  match stepped with
  | none => pUIMain
  | some nValue => { pUIMain with m_nCurrentTG := nValue }

/-- The handler `CUIMain::MuteUnmuteTG`. -/
def MuteUnmuteTG (pUIMain : CUIMain) (_Event : TMainEvent) : CUIMain :=
  let nTG := pUIMain.m_nSelectedTG
  let nTGMute : Nat :=
    if pUIMain.m_pMiniDexed.GetTGParameter .TGParameterTGEnable nTG ≠ 0 then 0 else 1
  { pUIMain with
    m_pMiniDexed := pUIMain.m_pMiniDexed.SetTGParameter .TGParameterTGEnable (toInt nTGMute) nTG }

/-- The handler `CUIMain::SelectTG`. -/
def SelectTG (cfg : CConfig) (pUIMain : CUIMain) (Event : TMainEvent) : CUIMain :=
  let nValue := pUIMain.m_nSelectedTG
  let stepped : Option Nat :=
    match Event with
    | .MainEventStepDown => some (if nValue > 0 then nValue - 1 else nValue)
    | .MainEventStepUp =>
      let nValue := (nValue + 1) % UINT_RANGE
      some (if nValue ≥ cfg.ToneGenerators then (cfg.ToneGenerators + UINT_RANGE - 1) % UINT_RANGE
            else nValue)
    | _ => none
  match stepped with
  | none => pUIMain
  | some nValue => { pUIMain with m_nSelectedTG := nValue }

/-- The handler `CUIMain::EditGroup`. The group id is read into an `unsigned` and
handed back as an `int`. -/
def EditGroup (pUIMain : CUIMain) (Event : TMainEvent) : CUIMain :=
  let nTG := pUIMain.m_nSelectedTG
  let nGroupID : Nat := toUnsigned (pUIMain.m_pMiniDexed.GetTGParameter .TGParameterTGGrouping nTG)
  let stepped : Option Nat :=
    match Event with
    | .MainEventPressAndStepDown => some (if nGroupID > 0 then nGroupID - 1 else nGroupID)
    | .MainEventPressAndStepUp => some (if nGroupID < 4 then nGroupID + 1 else nGroupID)
    | _ => none
  match stepped with
  | none => pUIMain
  | some nGroupID =>
    { pUIMain with
      m_pMiniDexed :=
        pUIMain.m_pMiniDexed.SetTGParameter .TGParameterTGGrouping (toInt nGroupID) nTG }

/-- The handler `CUIMain::LoadPerf`. -/
def LoadPerf (pUIMain : CUIMain) (_Event : TMainEvent) : CUIMain :=
  if pUIMain.m_pMiniDexed.PerformanceSelectToLoad then
    { pUIMain with
      m_pMiniDexed := pUIMain.m_pMiniDexed.SetNewPerformance pUIMain.m_nSelectedPerformanceID }
  else pUIMain

/-- The handler `CUIMain::SelectPerf`. The bound `(unsigned) GetLastPerformance()-1`
is computed modulo `2^32`. -/
def SelectPerf (pUIMain : CUIMain) (Event : TMainEvent) : CUIMain :=
  let bPerformanceSelectToLoad := pUIMain.m_pMiniDexed.PerformanceSelectToLoad
  let nValue := pUIMain.m_nSelectedPerformanceID
  let nLast : Nat := (pUIMain.m_pMiniDexed.LastPerformance + UINT_RANGE - 1) % UINT_RANGE
  let stepped : Option Nat :=
    match Event with
    | .MainEventStepDown => some (if nValue > 0 then nValue - 1 else nValue)
    | .MainEventStepUp =>
      let nValue := (nValue + 1) % UINT_RANGE
      some (if nValue > nLast then nLast else nValue)
    | _ => none
  match stepped with
  | none => pUIMain
  | some nValue =>
    let p1 := { pUIMain with m_nSelectedPerformanceID := nValue }
    if !bPerformanceSelectToLoad then
      { p1 with m_pMiniDexed := p1.m_pMiniDexed.SetNewPerformance nValue }
    else p1

/-- The handler `CUIMain::ChangeMasterVol`. The statements after the call of
`ViewMasterVol` are reached when that renderer gets to its end. -/
def ChangeMasterVol (cfg : CConfig) (pUIMain : CUIMain) (Event : TMainEvent) : CUIMain :=
  let nValue : Int := pUIMain.m_pMiniDexed.getMasterVolumePercent
  let stepped : Option Int :=
    match Event with
    | .MainEventPressAndStepDown => some (if nValue - 5 < 0 then 0 else nValue - 5)
    | .MainEventPressAndStepUp => some (if nValue + 5 > 100 then 100 else nValue + 5)
    | _ => none
  match stepped with
  | none => pUIMain
  | some nValue =>
    let p1 := { pUIMain with m_pMiniDexed := pUIMain.m_pMiniDexed.setMasterVolumePercent nValue }
    let p2 := ViewMasterVol cfg p1
    if (ViewMasterVolText cfg p1).isSome then
      let t1 := if p2.m_TimerHandle ≠ 0 then p2.Timer.CancelKernelTimer p2.m_TimerHandle
                else p2.Timer
      let started := t1.StartKernelTimer (MSEC2HZ 1500)
      { p2 with m_TimerHandle := started.1, Timer := started.2 }
    else p2

/-- The handler `CUIMain::NextBankVoiceMainItem`. It reads the handler table at the
advanced selection, which has no defined result outside the table. -/
def NextBankVoiceMainItem (pUIMain : CUIMain) (_Event : TMainEvent) : Option CUIMain := do
  let p1 := { pUIMain with m_nCurrentSelection := (pUIMain.m_nCurrentSelection + 1) % UINT_RANGE }
  let Page ← s_MainScreens[p1.m_nCurrentMainScreen]?
  let Item ← Page.FuncItem[p1.m_nCurrentSelection]?
  if Item.ShortPressHandler = none then
    pure { p1 with m_nCurrentSelection := 0 }
  else
    pure p1

/-- A call through a `TMainHandler` pointer. -/
def callHandler (cfg : CConfig) (Handler : TMainHandler) (pUIMain : CUIMain)
    (Event : TMainEvent) : Option CUIMain :=
  match Handler with
  | .NextBankVoiceMainItem => NextBankVoiceMainItem pUIMain Event
  | .ChangeMasterVol => some (ChangeMasterVol cfg pUIMain Event)
  | .ChangeBank => some (ChangeBank cfg pUIMain Event)
  | .ChangeVoice => some (ChangeVoice cfg pUIMain Event)
  | .ChangeTG => some (ChangeTG cfg pUIMain Event)
  | .LoadPerf => some (LoadPerf pUIMain Event)
  | .SelectPerf => some (SelectPerf pUIMain Event)
  | .MuteUnmuteTG => some (MuteUnmuteTG pUIMain Event)
  | .SelectTG => some (SelectTG cfg pUIMain Event)
  | .EditGroup => some (EditGroup pUIMain Event)

/-! ## uimain.cpp: the dispatcher -/

/-- The last statement of `EventHandler`:
`(*s_MainScreens[m_nCurrentMainScreen].ScreenHandler)(this)`. -/
def displayScreen (cfg : CConfig) (pUIMain : CUIMain) : Option CUIMain := do
  let Page ← s_MainScreens[pUIMain.m_nCurrentMainScreen]?
  let Screen ← Page.ScreenHandler
  pure (callScreen cfg Screen pUIMain)

/-- The dispatcher `CUIMain::EventHandler`. The result is `none` when the code
reads outside a table or calls a null pointer; otherwise it is the object as
the call leaves it, also when the renderer called last does not get to its
end. -/
def EventHandler (cfg : CConfig) (pUIMain : CUIMain) (Event : TMainEvent) : Option CUIMain :=
  match Event with
  | .MainEventNextScreen => do
    let p1 := { pUIMain with
                m_nCurrentMainScreen := (pUIMain.m_nCurrentMainScreen + 1) % UINT_RANGE
                m_nCurrentSelection := 0 }
    let Page ← s_MainScreens[p1.m_nCurrentMainScreen]?
    let p2 := if Page.ScreenHandler = none then { p1 with m_nCurrentMainScreen := 0 } else p1
    let p3 := { p2 with m_nSelectedPerformanceID := p2.m_pMiniDexed.ActualPerformanceID }
    displayScreen cfg p3
  | .MainEventSelect => do
    let Item ← currentItem pUIMain
    let Handler ← Item.ShortPressHandler
    let p1 ← callHandler cfg Handler pUIMain Event
    displayScreen cfg p1
  | .MainEventStepDown | .MainEventStepUp => do
    let Item ← currentItem pUIMain
    let Handler ← Item.EncoderHandler
    let p1 ← callHandler cfg Handler pUIMain Event
    displayScreen cfg p1
  | .MainEventPressAndStepDown | .MainEventPressAndStepUp => do
    let Item ← currentItem pUIMain
    let Handler ← Item.PressAndTurnHandler
    let p1 ← callHandler cfg Handler pUIMain Event
    let Item1 ← currentItem p1
    if Item1.PressAndTurnHandler = some .ChangeMasterVol then
      pure p1
    else
      displayScreen cfg p1
  | _ => displayScreen cfg pUIMain

/-- Handling a sequence of events, one after the other. -/
def handleEvents (cfg : CConfig) (pUIMain : CUIMain) : List TMainEvent → Option CUIMain
  | [] => some pUIMain
  | Event :: rest =>
    match EventHandler cfg pUIMain Event with
    | none => none
    | some p1 => handleEvents cfg p1 rest

/-- Number of real pages of `s_MainScreens`, those before the sentinel. -/
def pageCount : Nat := (s_MainScreens.takeWhile (fun Page => Page.ScreenHandler.isSome)).length

/-- Number of real items of the handler table of page `n`, those before the
sentinel. -/
def itemCount (n : Nat) : Nat :=
  match s_MainScreens[n]? with
  | none => 0
  | some Page => (Page.FuncItem.takeWhile (fun Item => Item.ShortPressHandler.isSome)).length

/-- The states the program can be in: what the constructor builds, what
`EventHandler` makes of such a state for any event, and, between two events,
any change of the collaborators the dispatcher only refers to (the subsystem
driven from elsewhere, the display, the clock and the timers). -/
inductive Reachable (cfg : CConfig) : CUIMain → Prop where
  | init (pUI : CUserInterface) (pMiniDexed : CMiniDexed) (Timer : CTimer) :
      Reachable cfg (CUIMain.init pUI pMiniDexed Timer)
  | step (s s1 : CUIMain) (Event : TMainEvent) :
      Reachable cfg s → EventHandler cfg s Event = some s1 → Reachable cfg s1
  | env (s : CUIMain) (pUI : CUserInterface) (pMiniDexed : CMiniDexed) (Timer : CTimer) :
      Reachable cfg s →
      Reachable cfg { s with m_pUI := pUI, m_pMiniDexed := pMiniDexed, Timer := Timer }

/-- The table indices are those of a real page and of a real item of that page. -/
def Valid (s : CUIMain) : Prop :=
  s.m_nCurrentMainScreen < pageCount ∧ s.m_nCurrentSelection < itemCount s.m_nCurrentMainScreen

/-- Every tone generator's group id lies in `[0,4]`. -/
def GroupsInRange (cfg : CConfig) (m : CMiniDexed) : Prop :=
  ∀ n, n < cfg.ToneGenerators →
    0 ≤ m.GetTGParameter .TGParameterTGGrouping n ∧
    m.GetTGParameter .TGParameterTGGrouping n ≤ 4

/-! ## The overlay timer -/

/-- The callback `CUIMain::TimerHandler`; its context argument is the dispatcher. -/
def TimerHandler (cfg : CConfig) (_hTimer : Nat) (pThis : CUIMain) : Option CUIMain :=
  EventHandler cfg pThis .MainEventUpdate

/-- Modelled from the spec: the clock of the timer facility advances by `nTicks`
ticks; nothing else changes. -/
def elapse (nTicks : Nat) (s : CUIMain) : CUIMain :=
  { s with Timer := { s.Timer with Ticks := s.Timer.Ticks + nTicks } }

/-- Modelled from the spec: the expiry of the one-shot kernel timer `hTimer`. When
the timer is outstanding and its expiry time has come, the facility takes it
off its list and calls the handler it was started with, `TimerHandler`. -/
def expireKernelTimer (cfg : CConfig) (s : CUIMain) (hTimer : Nat) : Option CUIMain :=
  if s.Timer.KernelTimers.any (fun e => e.1 = hTimer ∧ e.2 ≤ s.Timer.Ticks) then
    TimerHandler cfg hTimer
      { s with Timer := { s.Timer with
          KernelTimers := s.Timer.KernelTimers.filter (fun e => e.1 ≠ hTimer) } }
  else none

/-- The states reachable by events, by the passing of time and by timer expiries,
from a freshly constructed dispatcher with no overlay timer outstanding. -/
inductive ReachableTimed (cfg : CConfig) : CUIMain → Prop where
  | init (pUI : CUserInterface) (pMiniDexed : CMiniDexed) (nTicks nLastHandle : Nat)
      (Cancelled : List Nat) :
      ReachableTimed cfg (CUIMain.init pUI pMiniDexed
        { Ticks := nTicks, KernelTimers := [], LastHandle := nLastHandle,
          Cancelled := Cancelled })
  | event (s s1 : CUIMain) (Event : TMainEvent) :
      ReachableTimed cfg s → EventHandler cfg s Event = some s1 → ReachableTimed cfg s1
  | tick (s : CUIMain) (nTicks : Nat) :
      ReachableTimed cfg s → ReachableTimed cfg (elapse nTicks s)
  | expiry (s s1 : CUIMain) (hTimer : Nat) :
      ReachableTimed cfg s → expireKernelTimer cfg s hTimer = some s1 → ReachableTimed cfg s1

/-- At most one overlay timer is outstanding, and if one is, it is the one
`m_TimerHandle` names. -/
def OverlayTimerInv (s : CUIMain) : Prop :=
  s.Timer.KernelTimers = [] ∨
  (s.m_TimerHandle ≠ 0 ∧ ∃ nExpiry, s.Timer.KernelTimers = [(s.m_TimerHandle, nExpiry)])

/-! ## Sample values -/

/-- A configuration with four tone generators and a 16-column display. -/
def sampleConfig : CConfig := { ToneGenerators := 4, LCDColumns := 16 }

/-- A bank catalog of four banks, 32 voices each, whose ordering wraps around; the
name of bank 3 has eleven characters. -/
def sampleLoader : CSysExFileLoader :=
  { VoicesPerBank := 32
    GetNextBankDown := fun b => if b ≤ 0 then 3 else b - 1
    GetNextBankUp := fun b => if b ≥ 3 then 0 else b + 1
    GetBankName := fun b => if b = 3 then ['F', 'a', 'c', 't', 'o', 'r', 'y', ' ', 'p', 'r', 's']
                            else ['R', 'O', 'M'] }

/-- A subsystem state: tone generators 0, 1 and 2 in group 2, every other one
ungrouped, all on bank 1 with program 0 and enabled, volume 50 percent. -/
def sampleMiniDexed : CMiniDexed :=
  { TGParameter := fun P n =>
      match P with
      | .TGParameterVoiceBank => 1
      | .TGParameterProgram => 0
      | .TGParameterTGEnable => 1
      | .TGParameterTGGrouping => if n < 3 then 2 else 0
    MasterVolumePercent := 50
    ActualPerformanceID := 2
    LastPerformance := 5
    PerformanceSelectToLoad := false
    SysExFileLoader := sampleLoader
    Calls := []
    GetVoiceName := fun _ => ['B', 'R', 'A', 'S', 'S', ' ', ' ', ' ', '1', ' ']
    GetPerformanceName := fun _ => ['D', 'e', 'f', 'a', 'u', 'l', 't'] }

/-- The dispatcher as constructed over the sample subsystem. -/
def sampleUIMain : CUIMain :=
  CUIMain.init { Written := [] } sampleMiniDexed
    { Ticks := 0, KernelTimers := [], LastHandle := 0, Cancelled := [] }

/-- The sample subsystem with an empty performance catalog: the last-slot count is 0
and slot 0 is reported active. -/
def emptyCatalogMiniDexed : CMiniDexed :=
  { sampleMiniDexed with LastPerformance := 0, ActualPerformanceID := 0 }

/-- The dispatcher as constructed over the subsystem with an empty catalog. -/
def emptyCatalogUIMain : CUIMain :=
  CUIMain.init { Written := [] } emptyCatalogMiniDexed
    { Ticks := 0, KernelTimers := [], LastHandle := 0, Cancelled := [] }

/-! ## Properties -/

theorem pageCount_eq : pageCount = 3 := by decide

theorem itemCount_zero : itemCount 0 = 3 := by decide

theorem itemCount_one : itemCount 1 = 1 := by decide

theorem itemCount_two : itemCount 2 = 1 := by decide

/-- The three shapes of a valid pair of table indices. -/
theorem Valid.cases (s : CUIMain) (h : Valid s) :
    (s.m_nCurrentMainScreen = 0 ∧ s.m_nCurrentSelection < 3) ∨
    (s.m_nCurrentMainScreen = 1 ∧ s.m_nCurrentSelection = 0) ∨
    (s.m_nCurrentMainScreen = 2 ∧ s.m_nCurrentSelection = 0) := by
  obtain ⟨h1, h2⟩ := h
  rw [pageCount_eq] at h1
  have h3 : s.m_nCurrentMainScreen = 0 ∨ s.m_nCurrentMainScreen = 1 ∨
      s.m_nCurrentMainScreen = 2 := by omega
  rcases h3 with h3 | h3 | h3
  · rw [h3, itemCount_zero] at h2; exact Or.inl ⟨h3, h2⟩
  · rw [h3, itemCount_one] at h2; exact Or.inr (Or.inl ⟨h3, by omega⟩)
  · rw [h3, itemCount_two] at h2; exact Or.inr (Or.inr ⟨h3, by omega⟩)

theorem Valid.init (pUI : CUserInterface) (pMiniDexed : CMiniDexed) (Timer : CTimer) :
    Valid (CUIMain.init pUI pMiniDexed Timer) := by
  constructor <;> simp [CUIMain.init] <;> decide

/-! ### What a renderer can change -/

theorem ViewBankVoice_fields (s : CUIMain) :
    ViewBankVoice s = { s with m_pUI := (ViewBankVoice s).m_pUI } := by
  unfold ViewBankVoice
  rfl

theorem ViewPerformance_fields (s : CUIMain) :
    ViewPerformance s = { s with m_pUI := (ViewPerformance s).m_pUI } := by
  unfold ViewPerformance
  rfl

theorem ViewTGGroupMute_fields (cfg : CConfig) (s : CUIMain) :
    ViewTGGroupMute cfg s = { s with m_pUI := (ViewTGGroupMute cfg s).m_pUI } := by
  unfold ViewTGGroupMute
  rfl

theorem ViewMasterVol_fields (cfg : CConfig) (s : CUIMain) :
    ViewMasterVol cfg s = { s with m_pUI := (ViewMasterVol cfg s).m_pUI } := by
  unfold ViewMasterVol
  rfl

/-- A renderer writes to the display once when its text is built, and not at all
otherwise. -/
theorem callScreen_Written (cfg : CConfig) (Screen : TMainScreen) (s : CUIMain) :
    (callScreen cfg Screen s).m_pUI.Written =
      s.m_pUI.Written ++ (if (ScreenText cfg Screen s).isSome then [Screen] else []) := by
  cases Screen
  · simp only [callScreen, ScreenText, ViewBankVoice]
    split <;> rename_i h <;> simp [h, CUserInterface.DisplayWriteMain]
  · simp only [callScreen, ScreenText, ViewPerformance]
    split <;> rename_i h <;> simp [h, CUserInterface.DisplayWriteMain]
  · simp only [callScreen, ScreenText, ViewTGGroupMute]
    split <;> rename_i h <;> simp [h, CUserInterface.DisplayWriteMain]
  · simp only [callScreen, ScreenText, ViewMasterVol]
    split <;> rename_i h <;> simp [h, CUserInterface.DisplayWriteMain]

theorem callScreen_fields (cfg : CConfig) (Screen : TMainScreen) (s : CUIMain) :
    callScreen cfg Screen s = { s with m_pUI := (callScreen cfg Screen s).m_pUI } := by
  cases Screen
  · simp only [callScreen]; exact ViewBankVoice_fields s
  · simp only [callScreen]; exact ViewPerformance_fields s
  · simp only [callScreen]; exact ViewTGGroupMute_fields cfg s
  · simp only [callScreen]; exact ViewMasterVol_fields cfg s

@[simp]
theorem callScreen_m_pMiniDexed (cfg : CConfig) (Screen : TMainScreen) (s : CUIMain) :
    (callScreen cfg Screen s).m_pMiniDexed = s.m_pMiniDexed := by
  rw [callScreen_fields]

@[simp]
theorem callScreen_m_nCurrentMainScreen (cfg : CConfig) (Screen : TMainScreen) (s : CUIMain) :
    (callScreen cfg Screen s).m_nCurrentMainScreen = s.m_nCurrentMainScreen := by
  rw [callScreen_fields]

@[simp]
theorem callScreen_m_nCurrentSelection (cfg : CConfig) (Screen : TMainScreen) (s : CUIMain) :
    (callScreen cfg Screen s).m_nCurrentSelection = s.m_nCurrentSelection := by
  rw [callScreen_fields]

@[simp]
theorem callScreen_m_nCurrentTG (cfg : CConfig) (Screen : TMainScreen) (s : CUIMain) :
    (callScreen cfg Screen s).m_nCurrentTG = s.m_nCurrentTG := by
  rw [callScreen_fields]

@[simp]
theorem callScreen_m_nSelectedTG (cfg : CConfig) (Screen : TMainScreen) (s : CUIMain) :
    (callScreen cfg Screen s).m_nSelectedTG = s.m_nSelectedTG := by
  rw [callScreen_fields]

@[simp]
theorem callScreen_m_nSelectedPerformanceID (cfg : CConfig) (Screen : TMainScreen) (s : CUIMain) :
    (callScreen cfg Screen s).m_nSelectedPerformanceID = s.m_nSelectedPerformanceID := by
  rw [callScreen_fields]

@[simp]
theorem callScreen_m_TimerHandle (cfg : CConfig) (Screen : TMainScreen) (s : CUIMain) :
    (callScreen cfg Screen s).m_TimerHandle = s.m_TimerHandle := by
  rw [callScreen_fields]

@[simp]
theorem callScreen_Timer (cfg : CConfig) (Screen : TMainScreen) (s : CUIMain) :
    (callScreen cfg Screen s).Timer = s.Timer := by
  rw [callScreen_fields]

theorem ViewBankVoice_Written (s : CUIMain) :
    (ViewBankVoice s).m_pUI.Written =
      s.m_pUI.Written ++ (if (ViewBankVoiceText s).isSome then [.ViewBankVoice] else []) :=
  callScreen_Written sampleConfig .ViewBankVoice s

/-! ### What each handler can change -/

theorem ChangeBank_fields (cfg : CConfig) (s : CUIMain) (e : TMainEvent) :
    ∃ m, ChangeBank cfg s e = { s with m_pMiniDexed := m } := by
  unfold ChangeBank
  cases e <;> simp only [] <;> first
    | exact ⟨s.m_pMiniDexed, rfl⟩
    | (split <;> exact ⟨_, rfl⟩)

theorem ChangeVoice_fields (cfg : CConfig) (s : CUIMain) (e : TMainEvent) :
    ∃ m, ChangeVoice cfg s e = { s with m_pMiniDexed := m } := by
  unfold ChangeVoice
  cases e <;> simp only [] <;> first
    | exact ⟨s.m_pMiniDexed, rfl⟩
    | (split <;> exact ⟨_, rfl⟩)

theorem ChangeTG_fields (cfg : CConfig) (s : CUIMain) (e : TMainEvent) :
    ∃ v, ChangeTG cfg s e = { s with m_nCurrentTG := v } := by
  unfold ChangeTG
  cases e <;> simp only [] <;> first
    | exact ⟨s.m_nCurrentTG, rfl⟩
    | exact ⟨_, rfl⟩

theorem SelectTG_fields (cfg : CConfig) (s : CUIMain) (e : TMainEvent) :
    ∃ v, SelectTG cfg s e = { s with m_nSelectedTG := v } := by
  unfold SelectTG
  cases e <;> simp only [] <;> first
    | exact ⟨s.m_nSelectedTG, rfl⟩
    | exact ⟨_, rfl⟩

theorem MuteUnmuteTG_fields (s : CUIMain) (e : TMainEvent) :
    ∃ m, MuteUnmuteTG s e = { s with m_pMiniDexed := m } := ⟨_, rfl⟩

theorem EditGroup_fields (s : CUIMain) (e : TMainEvent) :
    ∃ m, EditGroup s e = { s with m_pMiniDexed := m } := by
  unfold EditGroup
  cases e <;> simp only [] <;> first
    | exact ⟨s.m_pMiniDexed, rfl⟩
    | exact ⟨_, rfl⟩

theorem LoadPerf_fields (s : CUIMain) (e : TMainEvent) :
    ∃ m, LoadPerf s e = { s with m_pMiniDexed := m } := by
  unfold LoadPerf
  split
  · exact ⟨_, rfl⟩
  · exact ⟨s.m_pMiniDexed, rfl⟩

theorem SelectPerf_fields (s : CUIMain) (e : TMainEvent) :
    ∃ m v, SelectPerf s e = { s with m_pMiniDexed := m, m_nSelectedPerformanceID := v } := by
  unfold SelectPerf
  cases e <;> simp only [] <;> first
    | exact ⟨s.m_pMiniDexed, s.m_nSelectedPerformanceID, rfl⟩
    | (split <;> exact ⟨_, _, rfl⟩)

theorem ChangeMasterVol_fields (cfg : CConfig) (s : CUIMain) (e : TMainEvent) :
    ∃ ui m h t, ChangeMasterVol cfg s e =
      { s with m_pUI := ui, m_pMiniDexed := m, m_TimerHandle := h, Timer := t } := by
  unfold ChangeMasterVol
  cases e <;> simp only [] <;> first
    | exact ⟨s.m_pUI, s.m_pMiniDexed, s.m_TimerHandle, s.Timer, rfl⟩
    | (generalize (ViewMasterVolText cfg _).isSome = b
       cases b
       · exact ⟨_, _, _, _, rfl⟩
       · exact ⟨_, _, _, _, rfl⟩)

/-! ### The dispatcher on each real page -/

theorem displayScreen_zero (cfg : CConfig) (s : CUIMain) (hp : s.m_nCurrentMainScreen = 0) :
    displayScreen cfg s = some (ViewBankVoice s) := by
  simp [displayScreen, hp, s_MainScreens, callScreen]

theorem displayScreen_one (cfg : CConfig) (s : CUIMain) (hp : s.m_nCurrentMainScreen = 1) :
    displayScreen cfg s = some (ViewPerformance s) := by
  simp [displayScreen, hp, s_MainScreens, callScreen]

theorem displayScreen_two (cfg : CConfig) (s : CUIMain) (hp : s.m_nCurrentMainScreen = 2) :
    displayScreen cfg s = some (ViewTGGroupMute cfg s) := by
  simp [displayScreen, hp, s_MainScreens, callScreen]

theorem currentItem_zero_zero (s : CUIMain) (hp : s.m_nCurrentMainScreen = 0)
    (hs : s.m_nCurrentSelection = 0) :
    currentItem s = some ⟨some .NextBankVoiceMainItem, some .ChangeTG, some .ChangeMasterVol⟩ := by
  simp [currentItem, hp, hs, s_MainScreens, s_BankVoiceFunctions]

theorem currentItem_zero_one (s : CUIMain) (hp : s.m_nCurrentMainScreen = 0)
    (hs : s.m_nCurrentSelection = 1) :
    currentItem s =
      some ⟨some .NextBankVoiceMainItem, some .ChangeBank, some .ChangeMasterVol⟩ := by
  simp [currentItem, hp, hs, s_MainScreens, s_BankVoiceFunctions]

theorem currentItem_zero_two (s : CUIMain) (hp : s.m_nCurrentMainScreen = 0)
    (hs : s.m_nCurrentSelection = 2) :
    currentItem s =
      some ⟨some .NextBankVoiceMainItem, some .ChangeVoice, some .ChangeMasterVol⟩ := by
  simp [currentItem, hp, hs, s_MainScreens, s_BankVoiceFunctions]

theorem currentItem_one (s : CUIMain) (hp : s.m_nCurrentMainScreen = 1)
    (hs : s.m_nCurrentSelection = 0) :
    currentItem s = some ⟨some .LoadPerf, some .SelectPerf, some .ChangeMasterVol⟩ := by
  simp [currentItem, hp, hs, s_MainScreens, s_PerformanceFunctions]

theorem currentItem_two (s : CUIMain) (hp : s.m_nCurrentMainScreen = 2)
    (hs : s.m_nCurrentSelection = 0) :
    currentItem s = some ⟨some .MuteUnmuteTG, some .SelectTG, some .EditGroup⟩ := by
  simp [currentItem, hp, hs, s_MainScreens, s_GroupsMuteFunctions]

/-- On the bank/voice page the short-press handler advances the selection
cyclically through the three items. -/
theorem NextBankVoiceMainItem_zero (s : CUIMain) (e : TMainEvent)
    (hp : s.m_nCurrentMainScreen = 0) (hs : s.m_nCurrentSelection < 3) :
    NextBankVoiceMainItem s e =
      some { s with m_nCurrentSelection :=
                      if s.m_nCurrentSelection + 1 = 3 then 0 else s.m_nCurrentSelection + 1 } := by
  obtain ⟨ui, md, pg, sel, ctg, stg, perf, th, tm⟩ := s
  simp only at hp hs
  subst hp
  interval_cases sel <;>
    simp [NextBankVoiceMainItem, UINT_RANGE, s_MainScreens, s_BankVoiceFunctions]

/-- What `NextScreen` does from a real page. -/
theorem EventHandler_NextScreen (cfg : CConfig) (s : CUIMain)
    (hp : s.m_nCurrentMainScreen < 3) :
    EventHandler cfg s .MainEventNextScreen =
      some (callScreen cfg
        (if s.m_nCurrentMainScreen = 0 then .ViewPerformance
         else if s.m_nCurrentMainScreen = 1 then .ViewTGGroupMute else .ViewBankVoice)
        { s with
          m_nCurrentMainScreen :=
            if s.m_nCurrentMainScreen + 1 = 3 then 0 else s.m_nCurrentMainScreen + 1
          m_nCurrentSelection := 0
          m_nSelectedPerformanceID := s.m_pMiniDexed.ActualPerformanceID }) := by
  obtain ⟨ui, md, pg, sel, ctg, stg, perf, th, tm⟩ := s
  simp only at hp
  interval_cases pg <;>
    simp [EventHandler, UINT_RANGE, s_MainScreens, displayScreen]

theorem EventHandler_Select_zero (cfg : CConfig) (s : CUIMain)
    (hp : s.m_nCurrentMainScreen = 0) (hs : s.m_nCurrentSelection < 3) :
    EventHandler cfg s .MainEventSelect =
      some (ViewBankVoice { s with m_nCurrentSelection :=
        if s.m_nCurrentSelection + 1 = 3 then 0 else s.m_nCurrentSelection + 1 }) := by
  have hi : ∃ h, currentItem s = some ⟨some .NextBankVoiceMainItem, h, some .ChangeMasterVol⟩ := by
    have h3 : s.m_nCurrentSelection = 0 ∨ s.m_nCurrentSelection = 1 ∨
        s.m_nCurrentSelection = 2 := by omega
    rcases h3 with h3 | h3 | h3
    · exact ⟨_, currentItem_zero_zero s hp h3⟩
    · exact ⟨_, currentItem_zero_one s hp h3⟩
    · exact ⟨_, currentItem_zero_two s hp h3⟩
  obtain ⟨h, hi⟩ := hi
  simp only [EventHandler, hi, callHandler, NextBankVoiceMainItem_zero s _ hp hs,
    Option.bind_eq_bind, Option.some_bind]
  exact displayScreen_zero cfg _ hp

theorem EventHandler_Encoder_ChangeTG (cfg : CConfig) (s : CUIMain) (e : TMainEvent)
    (he : e = .MainEventStepDown ∨ e = .MainEventStepUp)
    (hp : s.m_nCurrentMainScreen = 0) (hs : s.m_nCurrentSelection = 0) :
    EventHandler cfg s e = some (ViewBankVoice (ChangeTG cfg s e)) := by
  obtain ⟨v, hv⟩ := ChangeTG_fields cfg s e
  rcases he with he | he <;> subst he <;>
    simp only [EventHandler, currentItem_zero_zero s hp hs, callHandler,
      Option.bind_eq_bind, Option.some_bind] <;>
    exact displayScreen_zero cfg _ (by rw [hv]; exact hp)

theorem EventHandler_Encoder_ChangeBank (cfg : CConfig) (s : CUIMain) (e : TMainEvent)
    (he : e = .MainEventStepDown ∨ e = .MainEventStepUp)
    (hp : s.m_nCurrentMainScreen = 0) (hs : s.m_nCurrentSelection = 1) :
    EventHandler cfg s e = some (ViewBankVoice (ChangeBank cfg s e)) := by
  obtain ⟨v, hv⟩ := ChangeBank_fields cfg s e
  rcases he with he | he <;> subst he <;>
    simp only [EventHandler, currentItem_zero_one s hp hs, callHandler,
      Option.bind_eq_bind, Option.some_bind] <;>
    exact displayScreen_zero cfg _ (by rw [hv]; exact hp)

theorem EventHandler_Encoder_ChangeVoice (cfg : CConfig) (s : CUIMain) (e : TMainEvent)
    (he : e = .MainEventStepDown ∨ e = .MainEventStepUp)
    (hp : s.m_nCurrentMainScreen = 0) (hs : s.m_nCurrentSelection = 2) :
    EventHandler cfg s e = some (ViewBankVoice (ChangeVoice cfg s e)) := by
  obtain ⟨v, hv⟩ := ChangeVoice_fields cfg s e
  rcases he with he | he <;> subst he <;>
    simp only [EventHandler, currentItem_zero_two s hp hs, callHandler,
      Option.bind_eq_bind, Option.some_bind] <;>
    exact displayScreen_zero cfg _ (by rw [hv]; exact hp)

theorem EventHandler_Select_one (cfg : CConfig) (s : CUIMain)
    (hp : s.m_nCurrentMainScreen = 1) (hs : s.m_nCurrentSelection = 0) :
    EventHandler cfg s .MainEventSelect = some (ViewPerformance (LoadPerf s .MainEventSelect)) := by
  obtain ⟨v, hv⟩ := LoadPerf_fields s .MainEventSelect
  simp only [EventHandler, currentItem_one s hp hs, callHandler,
    Option.bind_eq_bind, Option.some_bind]
  exact displayScreen_one cfg _ (by rw [hv]; exact hp)

theorem EventHandler_Encoder_SelectPerf (cfg : CConfig) (s : CUIMain) (e : TMainEvent)
    (he : e = .MainEventStepDown ∨ e = .MainEventStepUp)
    (hp : s.m_nCurrentMainScreen = 1) (hs : s.m_nCurrentSelection = 0) :
    EventHandler cfg s e = some (ViewPerformance (SelectPerf s e)) := by
  obtain ⟨m, v, hv⟩ := SelectPerf_fields s e
  rcases he with he | he <;> subst he <;>
    simp only [EventHandler, currentItem_one s hp hs, callHandler,
      Option.bind_eq_bind, Option.some_bind] <;>
    exact displayScreen_one cfg _ (by rw [hv]; exact hp)

theorem EventHandler_Select_two (cfg : CConfig) (s : CUIMain)
    (hp : s.m_nCurrentMainScreen = 2) (hs : s.m_nCurrentSelection = 0) :
    EventHandler cfg s .MainEventSelect =
      some (ViewTGGroupMute cfg (MuteUnmuteTG s .MainEventSelect)) := by
  simp only [EventHandler, currentItem_two s hp hs, callHandler,
    Option.bind_eq_bind, Option.some_bind]
  exact displayScreen_two cfg _ hp

theorem EventHandler_Encoder_SelectTG (cfg : CConfig) (s : CUIMain) (e : TMainEvent)
    (he : e = .MainEventStepDown ∨ e = .MainEventStepUp)
    (hp : s.m_nCurrentMainScreen = 2) (hs : s.m_nCurrentSelection = 0) :
    EventHandler cfg s e = some (ViewTGGroupMute cfg (SelectTG cfg s e)) := by
  obtain ⟨v, hv⟩ := SelectTG_fields cfg s e
  rcases he with he | he <;> subst he <;>
    simp only [EventHandler, currentItem_two s hp hs, callHandler,
      Option.bind_eq_bind, Option.some_bind] <;>
    exact displayScreen_two cfg _ (by rw [hv]; exact hp)

theorem EventHandler_PressAndTurn_EditGroup (cfg : CConfig) (s : CUIMain) (e : TMainEvent)
    (he : e = .MainEventPressAndStepDown ∨ e = .MainEventPressAndStepUp)
    (hp : s.m_nCurrentMainScreen = 2) (hs : s.m_nCurrentSelection = 0) :
    EventHandler cfg s e = some (ViewTGGroupMute cfg (EditGroup s e)) := by
  obtain ⟨v, hv⟩ := EditGroup_fields s e
  have hi : currentItem (EditGroup s e) =
      some ⟨some .MuteUnmuteTG, some .SelectTG, some .EditGroup⟩ :=
    currentItem_two _ (by rw [hv]; exact hp) (by rw [hv]; exact hs)
  rcases he with he | he <;> subst he <;>
    simp [EventHandler, currentItem_two s hp hs, callHandler, hi] <;>
    exact displayScreen_two cfg _ (by rw [hv]; exact hp)

/-- On the bank/voice and performance pages press-and-turn is the volume handler
and the page is not rendered. -/
theorem EventHandler_PressAndTurn_ChangeMasterVol (cfg : CConfig) (s : CUIMain)
    (e : TMainEvent)
    (he : e = .MainEventPressAndStepDown ∨ e = .MainEventPressAndStepUp)
    (hv : Valid s) (hp : s.m_nCurrentMainScreen ≠ 2) :
    EventHandler cfg s e = some (ChangeMasterVol cfg s e) := by
  obtain ⟨ui, m, h, t, hf⟩ := ChangeMasterVol_fields cfg s e
  have hi : ∀ x : CUIMain, x.m_nCurrentMainScreen = s.m_nCurrentMainScreen →
      x.m_nCurrentSelection = s.m_nCurrentSelection →
      ∃ a b, currentItem x = some ⟨a, b, some .ChangeMasterVol⟩ := by
    intro x hx1 hx2
    rcases Valid.cases s hv with ⟨h1, h2⟩ | ⟨h1, h2⟩ | ⟨h1, h2⟩
    · have h3 : s.m_nCurrentSelection = 0 ∨ s.m_nCurrentSelection = 1 ∨
          s.m_nCurrentSelection = 2 := by omega
      rcases h3 with h3 | h3 | h3
      · exact ⟨_, _, currentItem_zero_zero x (hx1.trans h1) (hx2.trans h3)⟩
      · exact ⟨_, _, currentItem_zero_one x (hx1.trans h1) (hx2.trans h3)⟩
      · exact ⟨_, _, currentItem_zero_two x (hx1.trans h1) (hx2.trans h3)⟩
    · exact ⟨_, _, currentItem_one x (hx1.trans h1) (hx2.trans h2)⟩
    · exact absurd h1 hp
  obtain ⟨a, b, h0⟩ := hi s rfl rfl
  obtain ⟨a1, b1, h1⟩ := hi (ChangeMasterVol cfg s e) (by rw [hf]) (by rw [hf])
  rcases he with he | he <;> subst he <;>
    simp [EventHandler, h0, callHandler, h1]

/-- Every event without a case of its own in the switch only renders the page. -/
theorem EventHandler_other (cfg : CConfig) (s : CUIMain) (e : TMainEvent)
    (he : e = .MainEventUpdate ∨ e = .MainEventVolumeDown ∨ e = .MainEventVolumeUp ∨
      e = .MainEventUnknown) :
    EventHandler cfg s e = displayScreen cfg s := by
  rcases he with he | he | he | he <;> subst he <;> rfl

/-! ### Page and selection after one event -/

/-- The page and the selection after one event, from a state with valid table
indices: the event is handled, and only `NextScreen` moves the page and only
`NextScreen` and the short press on the bank/voice page move the selection. -/
theorem EventHandler_nav (cfg : CConfig) (s : CUIMain) (e : TMainEvent) (hv : Valid s) :
    ∃ s1, EventHandler cfg s e = some s1 ∧
      s1.m_nCurrentMainScreen =
        (if e = .MainEventNextScreen then
          (if s.m_nCurrentMainScreen + 1 = 3 then 0 else s.m_nCurrentMainScreen + 1)
         else s.m_nCurrentMainScreen) ∧
      s1.m_nCurrentSelection =
        (if e = .MainEventNextScreen then 0
         else if e = .MainEventSelect ∧ s.m_nCurrentMainScreen = 0 then
          (if s.m_nCurrentSelection + 1 = 3 then 0 else s.m_nCurrentSelection + 1)
         else s.m_nCurrentSelection) := by
  have hc := Valid.cases s hv
  have hd : ∃ s1, displayScreen cfg s = some s1 ∧
      s1.m_nCurrentMainScreen = s.m_nCurrentMainScreen ∧
      s1.m_nCurrentSelection = s.m_nCurrentSelection := by
    rcases hc with ⟨h1, _⟩ | ⟨h1, _⟩ | ⟨h1, _⟩
    · exact ⟨_, displayScreen_zero cfg s h1, rfl, rfl⟩
    · exact ⟨_, displayScreen_one cfg s h1, rfl, rfl⟩
    · exact ⟨_, displayScreen_two cfg s h1, rfl, rfl⟩
  have hstep : ∀ e1 : TMainEvent, e1 = .MainEventStepDown ∨ e1 = .MainEventStepUp →
      ∃ s1, EventHandler cfg s e1 = some s1 ∧
        s1.m_nCurrentMainScreen = s.m_nCurrentMainScreen ∧
        s1.m_nCurrentSelection = s.m_nCurrentSelection := by
    intro e1 he1
    rcases hc with ⟨h1, h2⟩ | ⟨h1, h2⟩ | ⟨h1, h2⟩
    · have h3 : s.m_nCurrentSelection = 0 ∨ s.m_nCurrentSelection = 1 ∨
          s.m_nCurrentSelection = 2 := by omega
      rcases h3 with h3 | h3 | h3
      · obtain ⟨v, hf⟩ := ChangeTG_fields cfg s e1
        exact ⟨_, EventHandler_Encoder_ChangeTG cfg s e1 he1 h1 h3, by rw [hf]; rfl,
          by rw [hf]; rfl⟩
      · obtain ⟨v, hf⟩ := ChangeBank_fields cfg s e1
        exact ⟨_, EventHandler_Encoder_ChangeBank cfg s e1 he1 h1 h3, by rw [hf]; rfl,
          by rw [hf]; rfl⟩
      · obtain ⟨v, hf⟩ := ChangeVoice_fields cfg s e1
        exact ⟨_, EventHandler_Encoder_ChangeVoice cfg s e1 he1 h1 h3, by rw [hf]; rfl,
          by rw [hf]; rfl⟩
    · obtain ⟨m, v, hf⟩ := SelectPerf_fields s e1
      exact ⟨_, EventHandler_Encoder_SelectPerf cfg s e1 he1 h1 h2, by rw [hf]; rfl,
        by rw [hf]; rfl⟩
    · obtain ⟨v, hf⟩ := SelectTG_fields cfg s e1
      exact ⟨_, EventHandler_Encoder_SelectTG cfg s e1 he1 h1 h2, by rw [hf]; rfl,
        by rw [hf]; rfl⟩
  have hturn : ∀ e1 : TMainEvent,
      e1 = .MainEventPressAndStepDown ∨ e1 = .MainEventPressAndStepUp →
      ∃ s1, EventHandler cfg s e1 = some s1 ∧
        s1.m_nCurrentMainScreen = s.m_nCurrentMainScreen ∧
        s1.m_nCurrentSelection = s.m_nCurrentSelection := by
    intro e1 he1
    by_cases hp : s.m_nCurrentMainScreen = 2
    · have h2 : s.m_nCurrentSelection = 0 := by
        rcases hc with ⟨h1, h2⟩ | ⟨h1, h2⟩ | ⟨h1, h2⟩ <;> omega
      obtain ⟨v, hf⟩ := EditGroup_fields s e1
      exact ⟨_, EventHandler_PressAndTurn_EditGroup cfg s e1 he1 hp h2, by rw [hf]; rfl,
        by rw [hf]; rfl⟩
    · obtain ⟨ui, m, h, t, hf⟩ := ChangeMasterVol_fields cfg s e1
      exact ⟨_, EventHandler_PressAndTurn_ChangeMasterVol cfg s e1 he1 hv hp, by rw [hf],
        by rw [hf]⟩
  cases e
  case MainEventNextScreen =>
    have hp : s.m_nCurrentMainScreen < 3 := by
      rcases hc with ⟨h1, _⟩ | ⟨h1, _⟩ | ⟨h1, _⟩ <;> omega
    refine ⟨_, EventHandler_NextScreen cfg s hp, ?_, ?_⟩ <;> simp
  case MainEventSelect =>
    rcases hc with ⟨h1, h2⟩ | ⟨h1, h2⟩ | ⟨h1, h2⟩
    · refine ⟨_, EventHandler_Select_zero cfg s h1 h2, ?_, ?_⟩ <;> simp [ViewBankVoice, h1]
    · obtain ⟨v, hf⟩ := LoadPerf_fields s .MainEventSelect
      refine ⟨_, EventHandler_Select_one cfg s h1 h2, ?_, ?_⟩ <;>
        simp [ViewPerformance, hf, h1]
    · refine ⟨_, EventHandler_Select_two cfg s h1 h2, ?_, ?_⟩ <;>
        simp [ViewTGGroupMute, MuteUnmuteTG, h1]
  case MainEventStepDown => simpa using hstep _ (Or.inl rfl)
  case MainEventStepUp => simpa using hstep _ (Or.inr rfl)
  case MainEventPressAndStepDown => simpa using hturn _ (Or.inl rfl)
  case MainEventPressAndStepUp => simpa using hturn _ (Or.inr rfl)
  case MainEventUpdate =>
    rw [EventHandler_other cfg s _ (Or.inl rfl)]; simpa using hd
  case MainEventVolumeDown =>
    rw [EventHandler_other cfg s _ (Or.inr (Or.inl rfl))]; simpa using hd
  case MainEventVolumeUp =>
    rw [EventHandler_other cfg s _ (Or.inr (Or.inr (Or.inl rfl)))]; simpa using hd
  case MainEventUnknown =>
    rw [EventHandler_other cfg s _ (Or.inr (Or.inr (Or.inr rfl)))]; simpa using hd

/-- Valid table indices stay valid under every event. -/
theorem EventHandler_valid (cfg : CConfig) (s : CUIMain) (e : TMainEvent) (hv : Valid s) :
    ∃ s1, EventHandler cfg s e = some s1 ∧ Valid s1 := by
  obtain ⟨s1, h1, h2, h3⟩ := EventHandler_nav cfg s e hv
  refine ⟨s1, h1, ?_⟩
  have hc := Valid.cases s hv
  unfold Valid
  rw [h2, h3, pageCount_eq]
  by_cases he : e = .MainEventNextScreen
  · simp only [he, if_true]
    rcases hc with ⟨h4, h5⟩ | ⟨h4, h5⟩ | ⟨h4, h5⟩ <;> rw [h4] <;> decide
  · simp only [he, if_false, false_and]
    rcases hc with ⟨h4, h5⟩ | ⟨h4, h5⟩ | ⟨h4, h5⟩
    · rw [h4, itemCount_zero]
      refine ⟨by omega, ?_⟩
      split
      · split <;> omega
      · omega
    · rw [h4, h5, itemCount_one]; simp
    · rw [h4, h5, itemCount_two]; simp

theorem Reachable.valid (cfg : CConfig) (s : CUIMain) (h : Reachable cfg s) : Valid s := by
  induction h with
  | init pUI pMiniDexed Timer => exact Valid.init pUI pMiniDexed Timer
  | step s s1 e _ hs ih =>
    obtain ⟨s2, h1, h2⟩ := EventHandler_valid cfg s e ih
    rw [hs] at h1
    cases h1
    exact h2
  | env s pUI pMiniDexed Timer _ ih => exact ih

/-! ### Page cycle, index validity, `NextScreen`, item cycle -/

theorem handleEvents_cons (cfg : CConfig) (s s1 : CUIMain) (e : TMainEvent)
    (es : List TMainEvent) (h : EventHandler cfg s e = some s1) :
    handleEvents cfg s (e :: es) = handleEvents cfg s1 es := by
  simp [handleEvents, h]

/-- Every sequence of events is handled from a state with valid table indices,
and ends in such a state. -/
theorem handleEvents_valid (cfg : CConfig) (es : List TMainEvent) :
    ∀ s : CUIMain, Valid s → ∃ s1, handleEvents cfg s es = some s1 ∧ Valid s1 := by
  induction es with
  | nil => intro s hv; exact ⟨s, rfl, hv⟩
  | cons e es ih =>
    intro s hv
    obtain ⟨s1, h1, h2⟩ := EventHandler_valid cfg s e hv
    obtain ⟨s2, h3, h4⟩ := ih s1 h2
    exact ⟨s2, by rw [handleEvents_cons cfg s s1 e es h1]; exact h3, h4⟩

/-- C1: from every reachable state, handling `NextScreen` as many times as there
are real pages (three) is defined and ends on the page it started on, with the
selection at 0. -/
theorem C1_NextScreen_page_cycle (cfg : CConfig) (s : CUIMain) (h : Reachable cfg s) :
    pageCount = 3 ∧
    ∃ s3, handleEvents cfg s (List.replicate pageCount .MainEventNextScreen) = some s3 ∧
      s3.m_nCurrentMainScreen = s.m_nCurrentMainScreen ∧ s3.m_nCurrentSelection = 0 := by
  refine ⟨pageCount_eq, ?_⟩
  have hv := Reachable.valid cfg s h
  obtain ⟨s1, e1, p1, c1⟩ := EventHandler_nav cfg s .MainEventNextScreen hv
  have hv1 : Valid s1 := by
    obtain ⟨x, hx, hx2⟩ := EventHandler_valid cfg s .MainEventNextScreen hv
    rw [e1] at hx; cases hx; exact hx2
  obtain ⟨s2, e2, p2, c2⟩ := EventHandler_nav cfg s1 .MainEventNextScreen hv1
  have hv2 : Valid s2 := by
    obtain ⟨x, hx, hx2⟩ := EventHandler_valid cfg s1 .MainEventNextScreen hv1
    rw [e2] at hx; cases hx; exact hx2
  obtain ⟨s3, e3, p3, c3⟩ := EventHandler_nav cfg s2 .MainEventNextScreen hv2
  refine ⟨s3, ?_, ?_, ?_⟩
  · rw [pageCount_eq]
    simp only [List.replicate]
    rw [handleEvents_cons cfg s s1 _ _ e1, handleEvents_cons cfg s1 s2 _ _ e2,
      handleEvents_cons cfg s2 s3 _ _ e3]
    rfl
  · simp only [if_true] at p1 p2 p3
    rcases Valid.cases s hv with ⟨h1, _⟩ | ⟨h1, _⟩ | ⟨h1, _⟩ <;>
      · rw [h1] at p1
        simp only [Nat.reduceAdd, Nat.reduceEqDiff, if_false, if_true] at p1
        rw [p1] at p2
        simp only [Nat.reduceAdd, Nat.reduceEqDiff, if_false, if_true] at p2
        rw [p2] at p3
        simp only [Nat.reduceAdd, Nat.reduceEqDiff, if_false, if_true] at p3
        rw [p3, h1]
  · simpa using c3

/-- C1 at the freshly constructed sample dispatcher. -/
theorem C1_NextScreen_page_cycle_witness :
    Reachable sampleConfig sampleUIMain ∧
    pageCount = 3 ∧
    ∃ s3, handleEvents sampleConfig sampleUIMain
        (List.replicate pageCount .MainEventNextScreen) = some s3 ∧
      s3.m_nCurrentMainScreen = sampleUIMain.m_nCurrentMainScreen ∧
      s3.m_nCurrentSelection = 0 :=
  ⟨Reachable.init _ _ _,
   C1_NextScreen_page_cycle sampleConfig sampleUIMain (Reachable.init _ _ _)⟩

/-- C2: from every reachable state every sequence of events is handled (no table
is read out of bounds and no null handler or renderer is called) and ends in a
state whose page index is one of the three real pages and whose selection is a
real item of that page; the renderer of that page and the three handlers of
that item are all present, and so every further event is handled as well. -/
theorem C2_indices_stay_valid (cfg : CConfig) (s : CUIMain) (h : Reachable cfg s)
    (es : List TMainEvent) :
    ∃ s1, handleEvents cfg s es = some s1 ∧
      s1.m_nCurrentMainScreen < 3 ∧
      s1.m_nCurrentSelection < itemCount s1.m_nCurrentMainScreen ∧
      (∃ Page Screen Item h1 h2 h3,
        s_MainScreens[s1.m_nCurrentMainScreen]? = some Page ∧
        Page.ScreenHandler = some Screen ∧
        Page.FuncItem[s1.m_nCurrentSelection]? = some Item ∧
        Item.ShortPressHandler = some h1 ∧ Item.EncoderHandler = some h2 ∧
        Item.PressAndTurnHandler = some h3) ∧
      ∀ e, ∃ s2, EventHandler cfg s1 e = some s2 := by
  obtain ⟨s1, h1, h2⟩ := handleEvents_valid cfg es s (Reachable.valid cfg s h)
  refine ⟨s1, h1, ?_, h2.2, ?_, ?_⟩
  · have := h2.1; rw [pageCount_eq] at this; exact this
  · rcases Valid.cases s1 h2 with ⟨h3, h4⟩ | ⟨h3, h4⟩ | ⟨h3, h4⟩
    · have h5 : s1.m_nCurrentSelection = 0 ∨ s1.m_nCurrentSelection = 1 ∨
          s1.m_nCurrentSelection = 2 := by omega
      rcases h5 with h5 | h5 | h5 <;> rw [h3, h5] <;>
        simp [s_MainScreens, s_BankVoiceFunctions]
    · rw [h3, h4]; simp [s_MainScreens, s_PerformanceFunctions]
    · rw [h3, h4]; simp [s_MainScreens, s_GroupsMuteFunctions]
  · intro e
    obtain ⟨s2, h3, _⟩ := EventHandler_valid cfg s1 e h2
    exact ⟨s2, h3⟩

/-- C2 at the freshly constructed sample dispatcher, for one event of each kind
that reaches a handler. -/
theorem C2_indices_stay_valid_witness :
    Reachable sampleConfig sampleUIMain ∧
    ∃ s1, handleEvents sampleConfig sampleUIMain
        [.MainEventSelect, .MainEventStepUp, .MainEventNextScreen,
          .MainEventPressAndStepUp] = some s1 ∧
      s1.m_nCurrentMainScreen < 3 ∧
      s1.m_nCurrentSelection < itemCount s1.m_nCurrentMainScreen ∧
      (∃ Page Screen Item h1 h2 h3,
        s_MainScreens[s1.m_nCurrentMainScreen]? = some Page ∧
        Page.ScreenHandler = some Screen ∧
        Page.FuncItem[s1.m_nCurrentSelection]? = some Item ∧
        Item.ShortPressHandler = some h1 ∧ Item.EncoderHandler = some h2 ∧
        Item.PressAndTurnHandler = some h3) ∧
      ∀ e, ∃ s2, EventHandler sampleConfig s1 e = some s2 :=
  ⟨Reachable.init _ _ _,
   C2_indices_stay_valid sampleConfig sampleUIMain (Reachable.init _ _ _) _⟩

/-- From a real page, one `NextScreen` is handled: the page becomes the next one,
page 0 after the last real page, the selection 0 and the selected performance
slot the subsystem's active slot; no handler runs; the renderer of the new
page is then called on that state `s0`, which changes nothing but the display,
and the display receives one more write, from that renderer, when its text is
built and none otherwise. -/
theorem EventHandler_NextScreen_step (cfg : CConfig) (s : CUIMain)
    (hp : s.m_nCurrentMainScreen < pageCount) :
    ∃ s0 Page Screen,
      s0 = { s with
        m_nCurrentMainScreen :=
          if s.m_nCurrentMainScreen + 1 = pageCount then 0 else s.m_nCurrentMainScreen + 1
        m_nCurrentSelection := 0
        m_nSelectedPerformanceID := s.m_pMiniDexed.ActualPerformanceID } ∧
      s_MainScreens[s0.m_nCurrentMainScreen]? = some Page ∧
      Page.ScreenHandler = some Screen ∧
      EventHandler cfg s .MainEventNextScreen = some (callScreen cfg Screen s0) ∧
      callScreen cfg Screen s0 = { s0 with m_pUI := (callScreen cfg Screen s0).m_pUI } ∧
      (callScreen cfg Screen s0).m_pUI.Written =
        s.m_pUI.Written ++ (if (ScreenText cfg Screen s0).isSome then [Screen] else []) := by
  rw [pageCount_eq] at hp ⊢
  have hE := EventHandler_NextScreen cfg s hp
  have h3 : s.m_nCurrentMainScreen = 0 ∨ s.m_nCurrentMainScreen = 1 ∨
      s.m_nCurrentMainScreen = 2 := by omega
  rcases h3 with h3 | h3 | h3
  · simp only [h3, if_true] at hE
    refine ⟨_, ⟨some .ViewPerformance, s_PerformanceFunctions⟩, .ViewPerformance, rfl,
      by simp [h3, s_MainScreens], rfl, ?_, callScreen_fields cfg _ _,
      callScreen_Written cfg _ _⟩
    simp only [h3]
    exact hE
  · simp only [h3, Nat.reduceEqDiff, Nat.succ_ne_self, if_false, if_true] at hE
    refine ⟨_, ⟨some .ViewTGGroupMute, s_GroupsMuteFunctions⟩, .ViewTGGroupMute, rfl,
      by simp [h3, s_MainScreens], rfl, ?_, callScreen_fields cfg _ _,
      callScreen_Written cfg _ _⟩
    simp only [h3]
    exact hE
  · simp only [h3, Nat.reduceEqDiff, if_false] at hE
    refine ⟨_, ⟨some .ViewBankVoice, s_BankVoiceFunctions⟩, .ViewBankVoice, rfl,
      by simp [h3, s_MainScreens], rfl, ?_, callScreen_fields cfg _ _,
      callScreen_Written cfg _ _⟩
    simp only [h3]
    exact hE

/-- Claim C3, the failing input. After `Select`, `StepUp`, `StepUp` and two
`NextScreen` the sample dispatcher is on page 2 with tone generator 0 on
bank 3, whose name has eleven characters. One more `NextScreen` moves to
page 0, sets the selection to 0 and the selected slot to the active slot, and
calls `ViewBankVoice`, which builds no text: the display receives no write, so
the new page is not rendered. -/
theorem C3_NextScreen_render_fails :
    ∃ s s1,
      handleEvents sampleConfig sampleUIMain
        [.MainEventSelect, .MainEventStepUp, .MainEventStepUp, .MainEventNextScreen,
          .MainEventNextScreen] = some s ∧
      s.m_nCurrentMainScreen = 2 ∧
      s.m_pMiniDexed.GetTGParameter .TGParameterVoiceBank s.m_nCurrentTG = 3 ∧
      EventHandler sampleConfig s .MainEventNextScreen = some s1 ∧
      s1.m_nCurrentMainScreen = 0 ∧
      s1.m_nCurrentSelection = 0 ∧
      s1.m_nSelectedPerformanceID = s.m_pMiniDexed.ActualPerformanceID ∧
      s_MainScreens[s1.m_nCurrentMainScreen]?.bind (fun Page => Page.ScreenHandler) =
        some .ViewBankVoice ∧
      ViewBankVoiceText s1 = none ∧
      s1.m_pUI.Written = s.m_pUI.Written :=
  ⟨_, _, rfl, rfl, rfl, rfl, rfl, rfl, rfl, rfl, rfl, rfl⟩

/-- The renderer `ViewBankVoice` changes the display alone: one write when its
text is built, none otherwise. -/
theorem ViewBankVoice_eq (s : CUIMain) :
    ViewBankVoice s =
      { s with m_pUI := ⟨s.m_pUI.Written ++
          (if (ViewBankVoiceText s).isSome then [.ViewBankVoice] else [])⟩ } := by
  rw [ViewBankVoice_fields]
  congr 1
  have h := ViewBankVoice_Written s
  generalize (ViewBankVoice s).m_pUI = ui at h ⊢
  cases ui
  simp only at h
  rw [h]

/-- The text of `ViewBankVoice` does not read the display. -/
theorem ViewBankVoiceText_m_pUI (s : CUIMain) (ui : CUserInterface) :
    ViewBankVoiceText { s with m_pUI := ui } = ViewBankVoiceText s := rfl

/-- C4: on the bank/voice page, with the selection on one of its three items, the
short-press handler `NextBankVoiceMainItem` moves the selection to the next
item, to 0 exactly when the next row of the table is the sentinel, and changes
nothing else; the `Select` event does this and then calls the renderer of the
page, which writes to the display once when it builds its text and not at all
otherwise, so that no other field of the dispatcher and no part of the
subsystem changes; and three `Select` events from selection 0 end with the
selection at 0 again, every other field and the subsystem as before, the
display having received the writes of the three renders. -/
theorem C4_Select_item_cycle (cfg : CConfig) (s : CUIMain) (e : TMainEvent)
    (hp : s.m_nCurrentMainScreen = 0) (hs : s.m_nCurrentSelection < 3) :
    itemCount 0 = 3 ∧
    s_BankVoiceFunctions[itemCount 0]? = some ⟨none, none, none⟩ ∧
    NextBankVoiceMainItem s e =
      some { s with m_nCurrentSelection :=
        if s.m_nCurrentSelection + 1 = itemCount 0 then 0 else s.m_nCurrentSelection + 1 } ∧
    EventHandler cfg s .MainEventSelect =
      some (ViewBankVoice { s with m_nCurrentSelection :=
        if s.m_nCurrentSelection + 1 = itemCount 0 then 0 else s.m_nCurrentSelection + 1 }) ∧
    EventHandler cfg s .MainEventSelect =
      some { s with
        m_nCurrentSelection :=
          if s.m_nCurrentSelection + 1 = itemCount 0 then 0 else s.m_nCurrentSelection + 1
        m_pUI := ⟨s.m_pUI.Written ++
          (if (ViewBankVoiceText { s with m_nCurrentSelection :=
              if s.m_nCurrentSelection + 1 = itemCount 0 then 0
              else s.m_nCurrentSelection + 1 }).isSome
           then [.ViewBankVoice] else [])⟩ } ∧
    handleEvents cfg { s with m_nCurrentSelection := 0 }
        (List.replicate (itemCount 0) .MainEventSelect) =
      some { s with
        m_nCurrentSelection := 0
        m_pUI := ⟨s.m_pUI.Written ++
          (if (ViewBankVoiceText { s with m_nCurrentSelection := 1 }).isSome
           then [.ViewBankVoice] else []) ++
          (if (ViewBankVoiceText { s with m_nCurrentSelection := 2 }).isSome
           then [.ViewBankVoice] else []) ++
          (if (ViewBankVoiceText { s with m_nCurrentSelection := 0 }).isSome
           then [.ViewBankVoice] else [])⟩ } := by
  rw [itemCount_zero]
  have step : ∀ (x : CUIMain), x.m_nCurrentMainScreen = 0 → x.m_nCurrentSelection < 3 →
      EventHandler cfg x .MainEventSelect =
        some { x with
          m_nCurrentSelection :=
            if x.m_nCurrentSelection + 1 = 3 then 0 else x.m_nCurrentSelection + 1
          m_pUI := ⟨x.m_pUI.Written ++
            (if (ViewBankVoiceText { x with m_nCurrentSelection :=
                if x.m_nCurrentSelection + 1 = 3 then 0
                else x.m_nCurrentSelection + 1 }).isSome
             then [.ViewBankVoice] else [])⟩ } := by
    intro x hx1 hx2
    rw [EventHandler_Select_zero cfg x hx1 hx2, ViewBankVoice_eq]
  refine ⟨rfl, by decide, NextBankVoiceMainItem_zero s e hp hs,
    EventHandler_Select_zero cfg s hp hs, step s hp hs, ?_⟩
  simp only [List.replicate]
  have h1 := step { s with m_nCurrentSelection := 0 } hp (by simp)
  have h2 := step { s with
    m_nCurrentSelection := 1
    m_pUI := ⟨s.m_pUI.Written ++
      (if (ViewBankVoiceText { s with m_nCurrentSelection := 1 }).isSome
       then [.ViewBankVoice] else [])⟩ } hp (by simp)
  have h3 := step { s with
    m_nCurrentSelection := 2
    m_pUI := ⟨s.m_pUI.Written ++
      (if (ViewBankVoiceText { s with m_nCurrentSelection := 1 }).isSome
       then [.ViewBankVoice] else []) ++
      (if (ViewBankVoiceText { s with m_nCurrentSelection := 2 }).isSome
       then [.ViewBankVoice] else [])⟩ } hp (by simp)
  exact (handleEvents_cons cfg _ _ _ _ h1).trans
    ((handleEvents_cons cfg _ _ _ _ h2).trans ((handleEvents_cons cfg _ _ _ _ h3).trans rfl))

/-- C4 at the sample dispatcher, which starts on the bank/voice page with
selection 0: the `Select` event moves the selection to 1 and the display
receives one write. -/
theorem C4_Select_item_cycle_witness :
    sampleUIMain.m_nCurrentMainScreen = 0 ∧ sampleUIMain.m_nCurrentSelection < 3 ∧
    EventHandler sampleConfig sampleUIMain .MainEventSelect =
      some { sampleUIMain with
        m_nCurrentSelection :=
          if sampleUIMain.m_nCurrentSelection + 1 = itemCount 0 then 0
          else sampleUIMain.m_nCurrentSelection + 1
        m_pUI := ⟨sampleUIMain.m_pUI.Written ++
          (if (ViewBankVoiceText { sampleUIMain with m_nCurrentSelection :=
              if sampleUIMain.m_nCurrentSelection + 1 = itemCount 0 then 0
              else sampleUIMain.m_nCurrentSelection + 1 }).isSome
           then [.ViewBankVoice] else [])⟩ } ∧
    (ViewBankVoiceText { sampleUIMain with m_nCurrentSelection := 1 }).isSome = true :=
  ⟨rfl, by decide,
   (C4_Select_item_cycle sampleConfig sampleUIMain .MainEventSelect rfl (by decide)).2.2.2.2.1,
   rfl⟩

/-! ### The outcome of one event, case by case -/

/-- From a state with valid table indices every event is handled, in one of twelve
ways, according to the event, the page and the selection. -/
theorem EventHandler_cases (cfg : CConfig) (s : CUIMain) (e : TMainEvent) (hv : Valid s) :
    ∃ s1, EventHandler cfg s e = some s1 ∧
      ((e = .MainEventNextScreen ∧ ∃ Screen,
          s1 = callScreen cfg Screen { s with
            m_nCurrentMainScreen :=
              if s.m_nCurrentMainScreen + 1 = 3 then 0 else s.m_nCurrentMainScreen + 1
            m_nCurrentSelection := 0
            m_nSelectedPerformanceID := s.m_pMiniDexed.ActualPerformanceID }) ∨
       (e = .MainEventSelect ∧ s.m_nCurrentMainScreen = 0 ∧
          s1 = ViewBankVoice { s with m_nCurrentSelection :=
            if s.m_nCurrentSelection + 1 = 3 then 0 else s.m_nCurrentSelection + 1 }) ∨
       (e = .MainEventSelect ∧ s.m_nCurrentMainScreen = 1 ∧
          s1 = ViewPerformance (LoadPerf s e)) ∨
       (e = .MainEventSelect ∧ s.m_nCurrentMainScreen = 2 ∧
          s1 = ViewTGGroupMute cfg (MuteUnmuteTG s e)) ∨
       ((e = .MainEventStepDown ∨ e = .MainEventStepUp) ∧ s.m_nCurrentMainScreen = 0 ∧
          s.m_nCurrentSelection = 0 ∧ s1 = ViewBankVoice (ChangeTG cfg s e)) ∨
       ((e = .MainEventStepDown ∨ e = .MainEventStepUp) ∧ s.m_nCurrentMainScreen = 0 ∧
          s.m_nCurrentSelection = 1 ∧ s1 = ViewBankVoice (ChangeBank cfg s e)) ∨
       ((e = .MainEventStepDown ∨ e = .MainEventStepUp) ∧ s.m_nCurrentMainScreen = 0 ∧
          s.m_nCurrentSelection = 2 ∧ s1 = ViewBankVoice (ChangeVoice cfg s e)) ∨
       ((e = .MainEventStepDown ∨ e = .MainEventStepUp) ∧ s.m_nCurrentMainScreen = 1 ∧
          s1 = ViewPerformance (SelectPerf s e)) ∨
       ((e = .MainEventStepDown ∨ e = .MainEventStepUp) ∧ s.m_nCurrentMainScreen = 2 ∧
          s1 = ViewTGGroupMute cfg (SelectTG cfg s e)) ∨
       ((e = .MainEventPressAndStepDown ∨ e = .MainEventPressAndStepUp) ∧
          s.m_nCurrentMainScreen ≠ 2 ∧ s1 = ChangeMasterVol cfg s e) ∨
       ((e = .MainEventPressAndStepDown ∨ e = .MainEventPressAndStepUp) ∧
          s.m_nCurrentMainScreen = 2 ∧ s1 = ViewTGGroupMute cfg (EditGroup s e)) ∨
       ((e = .MainEventUpdate ∨ e = .MainEventVolumeDown ∨ e = .MainEventVolumeUp ∨
          e = .MainEventUnknown) ∧ ∃ Screen, s1 = callScreen cfg Screen s)) := by
  have hc := Valid.cases s hv
  have hd : ∃ Screen, displayScreen cfg s = some (callScreen cfg Screen s) := by
    rcases hc with ⟨h1, _⟩ | ⟨h1, _⟩ | ⟨h1, _⟩
    · exact ⟨.ViewBankVoice, displayScreen_zero cfg s h1⟩
    · exact ⟨.ViewPerformance, displayScreen_one cfg s h1⟩
    · exact ⟨.ViewTGGroupMute, displayScreen_two cfg s h1⟩
  have hstep : ∀ e1 : TMainEvent, e1 = .MainEventStepDown ∨ e1 = .MainEventStepUp →
      ∃ s1, EventHandler cfg s e1 = some s1 ∧
        ((s.m_nCurrentMainScreen = 0 ∧
          s.m_nCurrentSelection = 0 ∧ s1 = ViewBankVoice (ChangeTG cfg s e1)) ∨
        (s.m_nCurrentMainScreen = 0 ∧
          s.m_nCurrentSelection = 1 ∧ s1 = ViewBankVoice (ChangeBank cfg s e1)) ∨
        (s.m_nCurrentMainScreen = 0 ∧
          s.m_nCurrentSelection = 2 ∧ s1 = ViewBankVoice (ChangeVoice cfg s e1)) ∨
        (s.m_nCurrentMainScreen = 1 ∧ s1 = ViewPerformance (SelectPerf s e1)) ∨
        (s.m_nCurrentMainScreen = 2 ∧ s1 = ViewTGGroupMute cfg (SelectTG cfg s e1))) := by
    intro e1 he1
    rcases hc with ⟨h1, h2⟩ | ⟨h1, h2⟩ | ⟨h1, h2⟩
    · have h3 : s.m_nCurrentSelection = 0 ∨ s.m_nCurrentSelection = 1 ∨
          s.m_nCurrentSelection = 2 := by omega
      rcases h3 with h3 | h3 | h3
      · exact ⟨_, EventHandler_Encoder_ChangeTG cfg s e1 he1 h1 h3, Or.inl ⟨h1, h3, rfl⟩⟩
      · exact ⟨_, EventHandler_Encoder_ChangeBank cfg s e1 he1 h1 h3,
          Or.inr (Or.inl ⟨h1, h3, rfl⟩)⟩
      · exact ⟨_, EventHandler_Encoder_ChangeVoice cfg s e1 he1 h1 h3,
          Or.inr (Or.inr (Or.inl ⟨h1, h3, rfl⟩))⟩
    · exact ⟨_, EventHandler_Encoder_SelectPerf cfg s e1 he1 h1 h2,
        Or.inr (Or.inr (Or.inr (Or.inl ⟨h1, rfl⟩)))⟩
    · exact ⟨_, EventHandler_Encoder_SelectTG cfg s e1 he1 h1 h2,
        Or.inr (Or.inr (Or.inr (Or.inr ⟨h1, rfl⟩)))⟩
  have hturn : ∀ e1 : TMainEvent,
      e1 = .MainEventPressAndStepDown ∨ e1 = .MainEventPressAndStepUp →
      ∃ s1, EventHandler cfg s e1 = some s1 ∧
        ((s.m_nCurrentMainScreen ≠ 2 ∧ s1 = ChangeMasterVol cfg s e1) ∨
         (s.m_nCurrentMainScreen = 2 ∧ s1 = ViewTGGroupMute cfg (EditGroup s e1))) := by
    intro e1 he1
    by_cases hp : s.m_nCurrentMainScreen = 2
    · have h2 : s.m_nCurrentSelection = 0 := by
        rcases hc with ⟨h1, h2⟩ | ⟨h1, h2⟩ | ⟨h1, h2⟩ <;> omega
      exact ⟨_, EventHandler_PressAndTurn_EditGroup cfg s e1 he1 hp h2, Or.inr ⟨hp, rfl⟩⟩
    · exact ⟨_, EventHandler_PressAndTurn_ChangeMasterVol cfg s e1 he1 hv hp,
        Or.inl ⟨hp, rfl⟩⟩
  cases e
  case MainEventNextScreen =>
    have hp : s.m_nCurrentMainScreen < 3 := by
      rcases hc with ⟨h1, _⟩ | ⟨h1, _⟩ | ⟨h1, _⟩ <;> omega
    exact ⟨_, EventHandler_NextScreen cfg s hp, Or.inl ⟨rfl, _, rfl⟩⟩
  case MainEventSelect =>
    rcases hc with ⟨h1, h2⟩ | ⟨h1, h2⟩ | ⟨h1, h2⟩
    · exact ⟨_, EventHandler_Select_zero cfg s h1 h2, Or.inr (Or.inl ⟨rfl, h1, rfl⟩)⟩
    · exact ⟨_, EventHandler_Select_one cfg s h1 h2, Or.inr (Or.inr (Or.inl ⟨rfl, h1, rfl⟩))⟩
    · exact ⟨_, EventHandler_Select_two cfg s h1 h2,
        Or.inr (Or.inr (Or.inr (Or.inl ⟨rfl, h1, rfl⟩)))⟩
  case MainEventStepDown =>
    obtain ⟨s1, h1, h2⟩ := hstep _ (Or.inl rfl)
    refine ⟨s1, h1, ?_⟩
    simp only [true_or, true_and, reduceCtorEq, false_and, false_or, or_false]
    exact h2
  case MainEventStepUp =>
    obtain ⟨s1, h1, h2⟩ := hstep _ (Or.inr rfl)
    refine ⟨s1, h1, ?_⟩
    simp only [or_true, true_and, reduceCtorEq, false_and, false_or, or_false]
    exact h2
  case MainEventPressAndStepDown =>
    obtain ⟨s1, h1, h2⟩ := hturn _ (Or.inl rfl)
    refine ⟨s1, h1, ?_⟩
    simp only [true_or, true_and, reduceCtorEq, false_and, false_or, or_false]
    exact h2
  case MainEventPressAndStepUp =>
    obtain ⟨s1, h1, h2⟩ := hturn _ (Or.inr rfl)
    refine ⟨s1, h1, ?_⟩
    simp only [or_true, true_and, reduceCtorEq, false_and, false_or, or_false]
    exact h2
  case MainEventUpdate =>
    obtain ⟨Screen, h1⟩ := hd
    refine ⟨_, (EventHandler_other cfg s _ (Or.inl rfl)).trans h1, ?_⟩
    simp only [reduceCtorEq, false_and, false_or, true_or, or_true, true_and]
    exact ⟨Screen, rfl⟩
  case MainEventVolumeDown =>
    obtain ⟨Screen, h1⟩ := hd
    refine ⟨_, (EventHandler_other cfg s _ (Or.inr (Or.inl rfl))).trans h1, ?_⟩
    simp only [reduceCtorEq, false_and, false_or, true_or, or_true, true_and]
    exact ⟨Screen, rfl⟩
  case MainEventVolumeUp =>
    obtain ⟨Screen, h1⟩ := hd
    refine ⟨_, (EventHandler_other cfg s _ (Or.inr (Or.inr (Or.inl rfl)))).trans h1, ?_⟩
    simp only [reduceCtorEq, false_and, false_or, true_or, or_true, true_and]
    exact ⟨Screen, rfl⟩
  case MainEventUnknown =>
    obtain ⟨Screen, h1⟩ := hd
    refine ⟨_, (EventHandler_other cfg s _ (Or.inr (Or.inr (Or.inr rfl)))).trans h1, ?_⟩
    simp only [reduceCtorEq, false_and, false_or, true_or, or_true, true_and]
    exact ⟨Screen, rfl⟩

/-! ### The tone-generator cursors -/

theorem ChangeTG_StepDown (cfg : CConfig) (s : CUIMain) :
    ChangeTG cfg s .MainEventStepDown = { s with m_nCurrentTG := s.m_nCurrentTG - 1 } := by
  simp only [ChangeTG]
  split
  · rfl
  · have h0 : s.m_nCurrentTG = 0 := by omega
    rw [h0]

theorem ChangeTG_StepUp (cfg : CConfig) (s : CUIMain) (hN : 1 ≤ cfg.ToneGenerators)
    (hU : cfg.ToneGenerators < UINT_RANGE) (hc : s.m_nCurrentTG < cfg.ToneGenerators) :
    ChangeTG cfg s .MainEventStepUp =
      { s with m_nCurrentTG := min (s.m_nCurrentTG + 1) (cfg.ToneGenerators - 1) } := by
  unfold UINT_RANGE at hU
  have h1 : (s.m_nCurrentTG + 1) % 4294967296 = s.m_nCurrentTG + 1 :=
    Nat.mod_eq_of_lt (by omega)
  have h2 : (cfg.ToneGenerators + 4294967296 - 1) % 4294967296 = cfg.ToneGenerators - 1 := by
    omega
  simp only [ChangeTG, UINT_RANGE, h1, h2]
  split
  · rw [Nat.min_eq_right (by omega)]
  · rw [Nat.min_eq_left (by omega)]

theorem SelectTG_StepDown (cfg : CConfig) (s : CUIMain) :
    SelectTG cfg s .MainEventStepDown = { s with m_nSelectedTG := s.m_nSelectedTG - 1 } := by
  simp only [SelectTG]
  split
  · rfl
  · have h0 : s.m_nSelectedTG = 0 := by omega
    rw [h0]

theorem SelectTG_StepUp (cfg : CConfig) (s : CUIMain) (hN : 1 ≤ cfg.ToneGenerators)
    (hU : cfg.ToneGenerators < UINT_RANGE) (hc : s.m_nSelectedTG < cfg.ToneGenerators) :
    SelectTG cfg s .MainEventStepUp =
      { s with m_nSelectedTG := min (s.m_nSelectedTG + 1) (cfg.ToneGenerators - 1) } := by
  unfold UINT_RANGE at hU
  have h1 : (s.m_nSelectedTG + 1) % 4294967296 = s.m_nSelectedTG + 1 :=
    Nat.mod_eq_of_lt (by omega)
  have h2 : (cfg.ToneGenerators + 4294967296 - 1) % 4294967296 = cfg.ToneGenerators - 1 := by
    omega
  simp only [SelectTG, UINT_RANGE, h1, h2]
  split
  · rw [Nat.min_eq_right (by omega)]
  · rw [Nat.min_eq_left (by omega)]

/-- The handler `ChangeTG` keeps its cursor below the tone-generator count, for
every event. -/
theorem ChangeTG_range (cfg : CConfig) (s : CUIMain) (e : TMainEvent)
    (hN : 1 ≤ cfg.ToneGenerators) (hU : cfg.ToneGenerators < UINT_RANGE)
    (hc : s.m_nCurrentTG < cfg.ToneGenerators) :
    (ChangeTG cfg s e).m_nCurrentTG < cfg.ToneGenerators := by
  by_cases h1 : e = .MainEventStepDown
  · rw [h1, ChangeTG_StepDown]; simp only; omega
  · by_cases h2 : e = .MainEventStepUp
    · rw [h2, ChangeTG_StepUp cfg s hN hU hc]; simp only; omega
    · have h3 : ChangeTG cfg s e = s := by
        cases e <;> first | rfl | exact absurd rfl h1 | exact absurd rfl h2
      rw [h3]; exact hc

/-- The handler `SelectTG` keeps its cursor below the tone-generator count, for
every event. -/
theorem SelectTG_range (cfg : CConfig) (s : CUIMain) (e : TMainEvent)
    (hN : 1 ≤ cfg.ToneGenerators) (hU : cfg.ToneGenerators < UINT_RANGE)
    (hc : s.m_nSelectedTG < cfg.ToneGenerators) :
    (SelectTG cfg s e).m_nSelectedTG < cfg.ToneGenerators := by
  by_cases h1 : e = .MainEventStepDown
  · rw [h1, SelectTG_StepDown]; simp only; omega
  · by_cases h2 : e = .MainEventStepUp
    · rw [h2, SelectTG_StepUp cfg s hN hU hc]; simp only; omega
    · have h3 : SelectTG cfg s e = s := by
        cases e <;> first | rfl | exact absurd rfl h1 | exact absurd rfl h2
      rw [h3]; exact hc

/-- One dispatched event keeps both cursors below the tone-generator count. -/
theorem EventHandler_cursors (cfg : CConfig) (s s1 : CUIMain) (e : TMainEvent)
    (hN : 1 ≤ cfg.ToneGenerators) (hU : cfg.ToneGenerators < UINT_RANGE) (hv : Valid s)
    (hc : s.m_nCurrentTG < cfg.ToneGenerators) (hs : s.m_nSelectedTG < cfg.ToneGenerators)
    (h : EventHandler cfg s e = some s1) :
    s1.m_nCurrentTG < cfg.ToneGenerators ∧ s1.m_nSelectedTG < cfg.ToneGenerators := by
  obtain ⟨s2, h2, hcase⟩ := EventHandler_cases cfg s e hv
  rw [h] at h2
  cases h2
  rcases hcase with ⟨_, Screen, h3⟩ | ⟨_, _, h3⟩ | ⟨_, _, h3⟩ | ⟨_, _, h3⟩ | ⟨_, _, _, h3⟩ |
    ⟨_, _, _, h3⟩ | ⟨_, _, _, h3⟩ | ⟨_, _, h3⟩ | ⟨_, _, h3⟩ | ⟨_, _, h3⟩ | ⟨_, _, h3⟩ |
    ⟨_, Screen, h3⟩
  · rw [h3, callScreen_fields]; exact ⟨hc, hs⟩
  · rw [h3]; exact ⟨hc, hs⟩
  · obtain ⟨m, hf⟩ := LoadPerf_fields s e
    rw [h3, hf]; exact ⟨hc, hs⟩
  · rw [h3]; exact ⟨hc, hs⟩
  · refine ⟨?_, ?_⟩
    · rw [h3]; exact ChangeTG_range cfg s e hN hU hc
    · obtain ⟨m, hf⟩ := ChangeTG_fields cfg s e
      rw [h3, hf]; exact hs
  · obtain ⟨m, hf⟩ := ChangeBank_fields cfg s e
    rw [h3, hf]; exact ⟨hc, hs⟩
  · obtain ⟨m, hf⟩ := ChangeVoice_fields cfg s e
    rw [h3, hf]; exact ⟨hc, hs⟩
  · obtain ⟨m, v, hf⟩ := SelectPerf_fields s e
    rw [h3, hf]; exact ⟨hc, hs⟩
  · refine ⟨?_, ?_⟩
    · obtain ⟨m, hf⟩ := SelectTG_fields cfg s e
      rw [h3, hf]; exact hc
    · rw [h3]; exact SelectTG_range cfg s e hN hU hs
  · obtain ⟨ui, m, th, t, hf⟩ := ChangeMasterVol_fields cfg s e
    rw [h3, hf]; exact ⟨hc, hs⟩
  · obtain ⟨m, hf⟩ := EditGroup_fields s e
    rw [h3, hf]; exact ⟨hc, hs⟩
  · rw [h3, callScreen_fields]; exact ⟨hc, hs⟩

/-- Every dispatched sequence of events keeps both cursors below the
tone-generator count. -/
theorem handleEvents_cursors (cfg : CConfig) (hN : 1 ≤ cfg.ToneGenerators)
    (hU : cfg.ToneGenerators < UINT_RANGE) (es : List TMainEvent) :
    ∀ s : CUIMain, Valid s → s.m_nCurrentTG < cfg.ToneGenerators →
      s.m_nSelectedTG < cfg.ToneGenerators →
      ∃ s1, handleEvents cfg s es = some s1 ∧ Valid s1 ∧
        s1.m_nCurrentTG < cfg.ToneGenerators ∧ s1.m_nSelectedTG < cfg.ToneGenerators := by
  induction es with
  | nil => intro s hv hc hs; exact ⟨s, rfl, hv, hc, hs⟩
  | cons e es ih =>
    intro s hv hc hs
    obtain ⟨s1, h1, h2⟩ := EventHandler_valid cfg s e hv
    obtain ⟨h3, h4⟩ := EventHandler_cursors cfg s s1 e hN hU hv hc hs h1
    obtain ⟨s2, h5, h6⟩ := ih s1 h2 h3 h4
    exact ⟨s2, by rw [handleEvents_cons cfg s s1 e es h1]; exact h5, h6⟩

/-- In every reachable state both cursors are below the tone-generator count. -/
theorem Reachable.cursors (cfg : CConfig) (hN : 1 ≤ cfg.ToneGenerators)
    (hU : cfg.ToneGenerators < UINT_RANGE) (s : CUIMain) (h : Reachable cfg s) :
    s.m_nCurrentTG < cfg.ToneGenerators ∧ s.m_nSelectedTG < cfg.ToneGenerators := by
  induction h with
  | init pUI pMiniDexed Timer => exact ⟨hN, hN⟩
  | step s s1 e hr hs ih =>
    exact EventHandler_cursors cfg s s1 e hN hU (Reachable.valid cfg s hr) ih.1 ih.2 hs
  | env s pUI pMiniDexed Timer _ ih => exact ih

/-- C5: with at least one tone generator and both cursors below the
tone-generator count N, `StepDown` gives max(v-1, 0) and `StepUp` gives
min(v+1, N-1), for `ChangeTG` on `m_nCurrentTG` and for `SelectTG` on
`m_nSelectedTG`; so `StepDown` at 0 stays at 0 and `StepUp` at N-1 stays at
N-1, every sequence of events, given to the handler directly or through the
dispatcher, leaves both cursors below N, and both cursors are below N in
every reachable state. -/
theorem C5_TG_cursors_clamp (cfg : CConfig) (s : CUIMain)
    (hN : 1 ≤ cfg.ToneGenerators) (hU : cfg.ToneGenerators < UINT_RANGE)
    (hc : s.m_nCurrentTG < cfg.ToneGenerators) (hs : s.m_nSelectedTG < cfg.ToneGenerators) :
    ((ChangeTG cfg s .MainEventStepDown).m_nCurrentTG : Int) =
      max ((s.m_nCurrentTG : Int) - 1) 0 ∧
    ((ChangeTG cfg s .MainEventStepUp).m_nCurrentTG : Int) =
      min ((s.m_nCurrentTG : Int) + 1) ((cfg.ToneGenerators : Int) - 1) ∧
    ((SelectTG cfg s .MainEventStepDown).m_nSelectedTG : Int) =
      max ((s.m_nSelectedTG : Int) - 1) 0 ∧
    ((SelectTG cfg s .MainEventStepUp).m_nSelectedTG : Int) =
      min ((s.m_nSelectedTG : Int) + 1) ((cfg.ToneGenerators : Int) - 1) ∧
    (s.m_nCurrentTG = 0 → (ChangeTG cfg s .MainEventStepDown).m_nCurrentTG = 0) ∧
    (s.m_nCurrentTG = cfg.ToneGenerators - 1 →
      (ChangeTG cfg s .MainEventStepUp).m_nCurrentTG = cfg.ToneGenerators - 1) ∧
    (s.m_nSelectedTG = 0 → (SelectTG cfg s .MainEventStepDown).m_nSelectedTG = 0) ∧
    (s.m_nSelectedTG = cfg.ToneGenerators - 1 →
      (SelectTG cfg s .MainEventStepUp).m_nSelectedTG = cfg.ToneGenerators - 1) ∧
    (∀ es : List TMainEvent, (es.foldl (ChangeTG cfg) s).m_nCurrentTG < cfg.ToneGenerators) ∧
    (∀ es : List TMainEvent, (es.foldl (SelectTG cfg) s).m_nSelectedTG < cfg.ToneGenerators) ∧
    (Valid s → ∀ es : List TMainEvent, ∃ s1, handleEvents cfg s es = some s1 ∧
      s1.m_nCurrentTG < cfg.ToneGenerators ∧ s1.m_nSelectedTG < cfg.ToneGenerators) ∧
    (∀ r : CUIMain, Reachable cfg r →
      r.m_nCurrentTG < cfg.ToneGenerators ∧ r.m_nSelectedTG < cfg.ToneGenerators) := by
  rw [ChangeTG_StepDown, ChangeTG_StepUp cfg s hN hU hc, SelectTG_StepDown,
    SelectTG_StepUp cfg s hN hU hs]
  simp only
  refine ⟨by omega, by omega, by omega, by omega, by omega, by omega, by omega, by omega,
    ?_, ?_, ?_, fun r hr => Reachable.cursors cfg hN hU r hr⟩
  · intro es
    have key : ∀ (l : List TMainEvent) (x : CUIMain), x.m_nCurrentTG < cfg.ToneGenerators →
        (l.foldl (ChangeTG cfg) x).m_nCurrentTG < cfg.ToneGenerators := by
      intro l
      induction l with
      | nil => intro x hx; exact hx
      | cons e l ih => intro x hx; exact ih _ (ChangeTG_range cfg x e hN hU hx)
    exact key es s hc
  · intro es
    have key : ∀ (l : List TMainEvent) (x : CUIMain), x.m_nSelectedTG < cfg.ToneGenerators →
        (l.foldl (SelectTG cfg) x).m_nSelectedTG < cfg.ToneGenerators := by
      intro l
      induction l with
      | nil => intro x hx; exact hx
      | cons e l ih => intro x hx; exact ih _ (SelectTG_range cfg x e hN hU hx)
    exact key es s hs
  · intro hv es
    obtain ⟨s1, h1, _, h2, h3⟩ := handleEvents_cursors cfg hN hU es s hv hc hs
    exact ⟨s1, h1, h2, h3⟩

/-- C5 at the sample dispatcher with the bank/voice cursor on the last of the four
tone generators. -/
theorem C5_TG_cursors_clamp_witness :
    1 ≤ sampleConfig.ToneGenerators ∧ sampleConfig.ToneGenerators < UINT_RANGE ∧
    ({ sampleUIMain with m_nCurrentTG := 3 } : CUIMain).m_nCurrentTG <
      sampleConfig.ToneGenerators ∧
    ({ sampleUIMain with m_nCurrentTG := 3 } : CUIMain).m_nSelectedTG <
      sampleConfig.ToneGenerators ∧
    ((ChangeTG sampleConfig { sampleUIMain with m_nCurrentTG := 3 }
        .MainEventStepUp).m_nCurrentTG : Int) =
      min (((3 : Nat) : Int) + 1) ((sampleConfig.ToneGenerators : Int) - 1) :=
  ⟨by decide, by decide, by decide, by decide,
   (C5_TG_cursors_clamp sampleConfig { sampleUIMain with m_nCurrentTG := 3 }
      (by decide) (by decide) (by decide) (by decide)).2.1⟩

/-! ### Group ids -/

theorem GetTGParameter_SetTGParameter (m : CMiniDexed) (P Q : TTGParameter) (v : Int)
    (t n : Nat) :
    (m.SetTGParameter P v t).GetTGParameter Q n =
      if Q = P ∧ n = t then v else m.GetTGParameter Q n := rfl

/-- The handler `EditGroup` either returns at once or writes one group id, that of
the selected tone generator. -/
theorem EditGroup_write (s : CUIMain) (e : TMainEvent) :
    EditGroup s e = s ∨
    ∃ v, EditGroup s e = { s with m_pMiniDexed :=
      s.m_pMiniDexed.SetTGParameter .TGParameterTGGrouping v s.m_nSelectedTG } := by
  cases e
  case MainEventPressAndStepDown => exact Or.inr ⟨_, rfl⟩
  case MainEventPressAndStepUp => exact Or.inr ⟨_, rfl⟩
  all_goals exact Or.inl rfl

theorem EditGroup_PressAndStepDown (s : CUIMain)
    (h0 : 0 ≤ s.m_pMiniDexed.GetTGParameter .TGParameterTGGrouping s.m_nSelectedTG)
    (h4 : s.m_pMiniDexed.GetTGParameter .TGParameterTGGrouping s.m_nSelectedTG ≤ 4) :
    EditGroup s .MainEventPressAndStepDown =
      { s with
        m_pMiniDexed := s.m_pMiniDexed.SetTGParameter .TGParameterTGGrouping
          (max (s.m_pMiniDexed.GetTGParameter .TGParameterTGGrouping s.m_nSelectedTG - 1) 0)
          s.m_nSelectedTG } := by
  obtain ⟨k, hk⟩ := Int.eq_ofNat_of_zero_le h0
  rw [hk] at h4
  have hk4 : k ≤ 4 := by omega
  simp only [EditGroup, hk]
  interval_cases k <;> simp [toUnsigned, toInt]

theorem EditGroup_PressAndStepUp (s : CUIMain)
    (h0 : 0 ≤ s.m_pMiniDexed.GetTGParameter .TGParameterTGGrouping s.m_nSelectedTG)
    (h4 : s.m_pMiniDexed.GetTGParameter .TGParameterTGGrouping s.m_nSelectedTG ≤ 4) :
    EditGroup s .MainEventPressAndStepUp =
      { s with
        m_pMiniDexed := s.m_pMiniDexed.SetTGParameter .TGParameterTGGrouping
          (min (s.m_pMiniDexed.GetTGParameter .TGParameterTGGrouping s.m_nSelectedTG + 1) 4)
          s.m_nSelectedTG } := by
  obtain ⟨k, hk⟩ := Int.eq_ofNat_of_zero_le h0
  rw [hk] at h4
  have hk4 : k ≤ 4 := by omega
  simp only [EditGroup, hk]
  interval_cases k <;> simp [toUnsigned, toInt]

/-- One call of `EditGroup` keeps every group id in `[0,4]`. -/
theorem EditGroup_GroupsInRange (cfg : CConfig) (s : CUIMain) (e : TMainEvent)
    (hg : GroupsInRange cfg s.m_pMiniDexed) :
    GroupsInRange cfg (EditGroup s e).m_pMiniDexed := by
  intro n hn
  by_cases hsel : n = s.m_nSelectedTG
  · have h0 := (hg n hn).1
    have h4 := (hg n hn).2
    rw [hsel] at h0 h4
    by_cases h1 : e = .MainEventPressAndStepDown
    · rw [h1, EditGroup_PressAndStepDown s h0 h4]
      simp only [GetTGParameter_SetTGParameter, hsel, and_self, if_true]
      omega
    · by_cases h2 : e = .MainEventPressAndStepUp
      · rw [h2, EditGroup_PressAndStepUp s h0 h4]
        simp only [GetTGParameter_SetTGParameter, hsel, and_self, if_true]
        omega
      · have h3 : EditGroup s e = s := by
          cases e <;> first | rfl | exact absurd rfl h1 | exact absurd rfl h2
        rw [h3]; exact hg n hn
  · rcases EditGroup_write s e with h | ⟨v, h⟩
    · rw [h]; exact hg n hn
    · rw [h]
      simp only [GetTGParameter_SetTGParameter, hsel, and_false, if_false]
      exact hg n hn

/-- What `ChangeMasterVol` leaves in the subsystem: the stepped and clamped volume
on a press-and-turn, set before the overlay is rendered, and otherwise what was
there. -/
theorem ChangeMasterVol_m_pMiniDexed (cfg : CConfig) (s : CUIMain) (e : TMainEvent) :
    (ChangeMasterVol cfg s e).m_pMiniDexed =
      (if e = .MainEventPressAndStepDown then
        s.m_pMiniDexed.setMasterVolumePercent
          (if s.m_pMiniDexed.getMasterVolumePercent - 5 < 0 then 0
           else s.m_pMiniDexed.getMasterVolumePercent - 5)
       else if e = .MainEventPressAndStepUp then
        s.m_pMiniDexed.setMasterVolumePercent
          (if s.m_pMiniDexed.getMasterVolumePercent + 5 > 100 then 100
           else s.m_pMiniDexed.getMasterVolumePercent + 5)
       else s.m_pMiniDexed) := by
  unfold ChangeMasterVol
  cases e <;> simp only [reduceCtorEq, if_true, if_false] <;> first
    | rfl
    | (generalize (ViewMasterVolText cfg _).isSome = b
       cases b
       · rfl
       · rfl)

theorem ChangeMasterVol_TGParameter (cfg : CConfig) (s : CUIMain) (e : TMainEvent) :
    (ChangeMasterVol cfg s e).m_pMiniDexed.TGParameter = s.m_pMiniDexed.TGParameter := by
  rw [ChangeMasterVol_m_pMiniDexed]
  split
  · rfl
  · split <;> rfl

theorem foldl_EditGroup_GroupsInRange (cfg : CConfig) (es : List TMainEvent) :
    ∀ s : CUIMain, GroupsInRange cfg s.m_pMiniDexed →
      GroupsInRange cfg (es.foldl EditGroup s).m_pMiniDexed := by
  induction es with
  | nil => intro s hg; exact hg
  | cons e es ih => intro s hg; exact ih _ (EditGroup_GroupsInRange cfg s e hg)

/-- Press-and-turn events given to the dispatcher keep every group id in `[0,4]`. -/
theorem handleEvents_PressAndTurn_GroupsInRange (cfg : CConfig) (es : List TMainEvent) :
    ∀ s : CUIMain, Valid s → GroupsInRange cfg s.m_pMiniDexed →
      (∀ e ∈ es, e = .MainEventPressAndStepDown ∨ e = .MainEventPressAndStepUp) →
      ∃ s1, handleEvents cfg s es = some s1 ∧ GroupsInRange cfg s1.m_pMiniDexed := by
  induction es with
  | nil => intro s _ hg _; exact ⟨s, rfl, hg⟩
  | cons e es ih =>
    intro s hv hg hes
    have he := hes e (List.mem_cons_self e es)
    obtain ⟨s1, h1, hv1⟩ := EventHandler_valid cfg s e hv
    have hg1 : GroupsInRange cfg s1.m_pMiniDexed := by
      by_cases hp : s.m_nCurrentMainScreen = 2
      · have h2 : s.m_nCurrentSelection = 0 := by
          rcases Valid.cases s hv with ⟨h3, h4⟩ | ⟨h3, h4⟩ | ⟨h3, h4⟩ <;> omega
        rw [EventHandler_PressAndTurn_EditGroup cfg s e he hp h2] at h1
        cases h1
        exact EditGroup_GroupsInRange cfg s e hg
      · rw [EventHandler_PressAndTurn_ChangeMasterVol cfg s e he hv hp] at h1
        cases h1
        intro n hn
        unfold CMiniDexed.GetTGParameter
        rw [ChangeMasterVol_TGParameter]
        exact hg n hn
    obtain ⟨s2, h2, hg2⟩ := ih s1 hv1 hg1 (fun x hx => hes x (List.mem_cons_of_mem e hx))
    exact ⟨s2, by rw [handleEvents_cons cfg s s1 e es h1]; exact h2, hg2⟩

/-- C6: when every tone generator's group id is in `[0,4]` and the selected tone
generator is one of them, `EditGroup` sets the selected tone generator's group
id to max(g-1, 0) on `PressAndStepDown` and to min(g+1, 4) on
`PressAndStepUp`; for every event it leaves every other parameter of every
tone generator (other group ids, banks, programs, enable flags) as it was; and
the group ids stay in `[0,4]` after one call, after any sequence of calls and
after any sequence of press-and-turn events given to the dispatcher. -/
theorem C6_EditGroup_group_range (cfg : CConfig) (s : CUIMain)
    (hg : GroupsInRange cfg s.m_pMiniDexed) (hs : s.m_nSelectedTG < cfg.ToneGenerators) :
    (EditGroup s .MainEventPressAndStepDown).m_pMiniDexed.GetTGParameter
        .TGParameterTGGrouping s.m_nSelectedTG =
      max (s.m_pMiniDexed.GetTGParameter .TGParameterTGGrouping s.m_nSelectedTG - 1) 0 ∧
    (EditGroup s .MainEventPressAndStepUp).m_pMiniDexed.GetTGParameter
        .TGParameterTGGrouping s.m_nSelectedTG =
      min (s.m_pMiniDexed.GetTGParameter .TGParameterTGGrouping s.m_nSelectedTG + 1) 4 ∧
    (∀ (e : TMainEvent) (P : TTGParameter) (n : Nat),
      ¬(P = .TGParameterTGGrouping ∧ n = s.m_nSelectedTG) →
      (EditGroup s e).m_pMiniDexed.GetTGParameter P n = s.m_pMiniDexed.GetTGParameter P n) ∧
    (∀ e : TMainEvent, GroupsInRange cfg (EditGroup s e).m_pMiniDexed) ∧
    (∀ es : List TMainEvent, GroupsInRange cfg (es.foldl EditGroup s).m_pMiniDexed) ∧
    (Valid s → ∀ es : List TMainEvent,
      (∀ e ∈ es, e = .MainEventPressAndStepDown ∨ e = .MainEventPressAndStepUp) →
      ∃ s1, handleEvents cfg s es = some s1 ∧ GroupsInRange cfg s1.m_pMiniDexed) := by
  have h0 := (hg _ hs).1
  have h4 := (hg _ hs).2
  refine ⟨?_, ?_, ?_, ?_, ?_, ?_⟩
  · rw [EditGroup_PressAndStepDown s h0 h4]
    simp [GetTGParameter_SetTGParameter]
  · rw [EditGroup_PressAndStepUp s h0 h4]
    simp [GetTGParameter_SetTGParameter]
  · intro e P n hne
    rcases EditGroup_write s e with h | ⟨v, h⟩
    · rw [h]
    · rw [h]
      simp only [GetTGParameter_SetTGParameter, hne, if_false]
  · intro e
    exact EditGroup_GroupsInRange cfg s e hg
  · intro es
    exact foldl_EditGroup_GroupsInRange cfg es s hg
  · intro hv es hes
    exact handleEvents_PressAndTurn_GroupsInRange cfg es s hv hg hes

/-- C6 at the sample subsystem: the selected tone generator 0 is in group 2. -/
theorem C6_EditGroup_group_range_witness :
    GroupsInRange sampleConfig sampleUIMain.m_pMiniDexed ∧
    sampleUIMain.m_nSelectedTG < sampleConfig.ToneGenerators ∧
    (EditGroup sampleUIMain .MainEventPressAndStepDown).m_pMiniDexed.GetTGParameter
        .TGParameterTGGrouping sampleUIMain.m_nSelectedTG = 1 ∧
    (EditGroup sampleUIMain .MainEventPressAndStepUp).m_pMiniDexed.GetTGParameter
        .TGParameterTGGrouping sampleUIMain.m_nSelectedTG = 3 :=
  have hg : GroupsInRange sampleConfig sampleUIMain.m_pMiniDexed := by
    intro n _
    simp only [sampleUIMain, CUIMain.init, sampleMiniDexed, CMiniDexed.GetTGParameter]
    split <;> decide
  ⟨hg, by decide,
   (C6_EditGroup_group_range sampleConfig sampleUIMain hg (by decide)).1,
   (C6_EditGroup_group_range sampleConfig sampleUIMain hg (by decide)).2.1⟩

/-! ### Master volume -/

theorem ChangeMasterVol_PressAndStepDown (cfg : CConfig) (s : CUIMain) :
    (ChangeMasterVol cfg s .MainEventPressAndStepDown).m_pMiniDexed.getMasterVolumePercent =
      max (s.m_pMiniDexed.getMasterVolumePercent - 5) 0 := by
  rw [ChangeMasterVol_m_pMiniDexed]
  simp only [if_true, CMiniDexed.setMasterVolumePercent, CMiniDexed.getMasterVolumePercent]
  split <;> omega

theorem ChangeMasterVol_PressAndStepUp (cfg : CConfig) (s : CUIMain) :
    (ChangeMasterVol cfg s .MainEventPressAndStepUp).m_pMiniDexed.getMasterVolumePercent =
      min (s.m_pMiniDexed.getMasterVolumePercent + 5) 100 := by
  rw [ChangeMasterVol_m_pMiniDexed]
  simp only [reduceCtorEq, if_false, if_true, CMiniDexed.setMasterVolumePercent,
    CMiniDexed.getMasterVolumePercent]
  split <;> omega

/-- One call of `ChangeMasterVol` keeps the volume in `[0,100]`, for every event. -/
theorem ChangeMasterVol_range (cfg : CConfig) (s : CUIMain) (e : TMainEvent)
    (h0 : 0 ≤ s.m_pMiniDexed.getMasterVolumePercent)
    (h100 : s.m_pMiniDexed.getMasterVolumePercent ≤ 100) :
    0 ≤ (ChangeMasterVol cfg s e).m_pMiniDexed.getMasterVolumePercent ∧
    (ChangeMasterVol cfg s e).m_pMiniDexed.getMasterVolumePercent ≤ 100 := by
  by_cases h1 : e = .MainEventPressAndStepDown
  · rw [h1, ChangeMasterVol_PressAndStepDown]; omega
  · by_cases h2 : e = .MainEventPressAndStepUp
    · rw [h2, ChangeMasterVol_PressAndStepUp]; omega
    · have h3 : ChangeMasterVol cfg s e = s := by
        cases e <;> first | rfl | exact absurd rfl h1 | exact absurd rfl h2
      rw [h3]; exact ⟨h0, h100⟩

theorem foldl_ChangeMasterVol_range (cfg : CConfig) (es : List TMainEvent) :
    ∀ s : CUIMain, 0 ≤ s.m_pMiniDexed.getMasterVolumePercent →
      s.m_pMiniDexed.getMasterVolumePercent ≤ 100 →
      0 ≤ (es.foldl (ChangeMasterVol cfg) s).m_pMiniDexed.getMasterVolumePercent ∧
      (es.foldl (ChangeMasterVol cfg) s).m_pMiniDexed.getMasterVolumePercent ≤ 100 := by
  induction es with
  | nil => intro s h0 h100; exact ⟨h0, h100⟩
  | cons e es ih =>
    intro s h0 h100
    exact ih _ (ChangeMasterVol_range cfg s e h0 h100).1 (ChangeMasterVol_range cfg s e h0 h100).2

theorem EditGroup_MasterVolume (s : CUIMain) (e : TMainEvent) :
    (EditGroup s e).m_pMiniDexed.getMasterVolumePercent =
      s.m_pMiniDexed.getMasterVolumePercent := by
  rcases EditGroup_write s e with h | ⟨v, h⟩
  · rw [h]
  · rw [h]; rfl

/-- Press-and-turn events given to the dispatcher keep the volume in `[0,100]`. -/
theorem handleEvents_PressAndTurn_volume (cfg : CConfig) (es : List TMainEvent) :
    ∀ s : CUIMain, Valid s → 0 ≤ s.m_pMiniDexed.getMasterVolumePercent →
      s.m_pMiniDexed.getMasterVolumePercent ≤ 100 →
      (∀ e ∈ es, e = .MainEventPressAndStepDown ∨ e = .MainEventPressAndStepUp) →
      ∃ s1, handleEvents cfg s es = some s1 ∧
        0 ≤ s1.m_pMiniDexed.getMasterVolumePercent ∧
        s1.m_pMiniDexed.getMasterVolumePercent ≤ 100 := by
  induction es with
  | nil => intro s _ h0 h100 _; exact ⟨s, rfl, h0, h100⟩
  | cons e es ih =>
    intro s hv h0 h100 hes
    have he := hes e (List.mem_cons_self e es)
    obtain ⟨s1, h1, hv1⟩ := EventHandler_valid cfg s e hv
    have hr : 0 ≤ s1.m_pMiniDexed.getMasterVolumePercent ∧
        s1.m_pMiniDexed.getMasterVolumePercent ≤ 100 := by
      by_cases hp : s.m_nCurrentMainScreen = 2
      · have h2 : s.m_nCurrentSelection = 0 := by
          rcases Valid.cases s hv with ⟨h3, h4⟩ | ⟨h3, h4⟩ | ⟨h3, h4⟩ <;> omega
        rw [EventHandler_PressAndTurn_EditGroup cfg s e he hp h2] at h1
        cases h1
        have h5 := EditGroup_MasterVolume s e
        rw [ViewTGGroupMute_fields]
        simp only
        rw [h5]
        exact ⟨h0, h100⟩
      · rw [EventHandler_PressAndTurn_ChangeMasterVol cfg s e he hv hp] at h1
        cases h1
        exact ChangeMasterVol_range cfg s e h0 h100
    obtain ⟨s2, h2, hr2⟩ := ih s1 hv1 hr.1 hr.2
      (fun x hx => hes x (List.mem_cons_of_mem e hx))
    exact ⟨s2, by rw [handleEvents_cons cfg s s1 e es h1]; exact h2, hr2⟩

/-- C7: with the master volume an integer percentage p in `[0,100]`,
`ChangeMasterVol` gives max(p-5, 0) on `PressAndStepDown` and min(p+5, 100) on
`PressAndStepUp`, that is p-5 or p+5 unless the result is the clamp value 0 or
100; and the percentage stays in `[0,100]` after one call, after any sequence
of calls and after any sequence of press-and-turn events given to the
dispatcher. -/
theorem C7_ChangeMasterVol_range (cfg : CConfig) (s : CUIMain)
    (h0 : 0 ≤ s.m_pMiniDexed.getMasterVolumePercent)
    (h100 : s.m_pMiniDexed.getMasterVolumePercent ≤ 100) :
    (ChangeMasterVol cfg s .MainEventPressAndStepDown).m_pMiniDexed.getMasterVolumePercent =
      max (s.m_pMiniDexed.getMasterVolumePercent - 5) 0 ∧
    (ChangeMasterVol cfg s .MainEventPressAndStepUp).m_pMiniDexed.getMasterVolumePercent =
      min (s.m_pMiniDexed.getMasterVolumePercent + 5) 100 ∧
    ((ChangeMasterVol cfg s .MainEventPressAndStepDown).m_pMiniDexed.getMasterVolumePercent =
        s.m_pMiniDexed.getMasterVolumePercent - 5 ∨
      (ChangeMasterVol cfg s .MainEventPressAndStepDown).m_pMiniDexed.getMasterVolumePercent = 0) ∧
    ((ChangeMasterVol cfg s .MainEventPressAndStepUp).m_pMiniDexed.getMasterVolumePercent =
        s.m_pMiniDexed.getMasterVolumePercent + 5 ∨
      (ChangeMasterVol cfg s .MainEventPressAndStepUp).m_pMiniDexed.getMasterVolumePercent =
        100) ∧
    (∀ e : TMainEvent,
      0 ≤ (ChangeMasterVol cfg s e).m_pMiniDexed.getMasterVolumePercent ∧
      (ChangeMasterVol cfg s e).m_pMiniDexed.getMasterVolumePercent ≤ 100) ∧
    (∀ es : List TMainEvent,
      0 ≤ (es.foldl (ChangeMasterVol cfg) s).m_pMiniDexed.getMasterVolumePercent ∧
      (es.foldl (ChangeMasterVol cfg) s).m_pMiniDexed.getMasterVolumePercent ≤ 100) ∧
    (Valid s → ∀ es : List TMainEvent,
      (∀ e ∈ es, e = .MainEventPressAndStepDown ∨ e = .MainEventPressAndStepUp) →
      ∃ s1, handleEvents cfg s es = some s1 ∧
        0 ≤ s1.m_pMiniDexed.getMasterVolumePercent ∧
        s1.m_pMiniDexed.getMasterVolumePercent ≤ 100) := by
  refine ⟨ChangeMasterVol_PressAndStepDown cfg s, ChangeMasterVol_PressAndStepUp cfg s, ?_, ?_,
    fun e => ChangeMasterVol_range cfg s e h0 h100,
    fun es => foldl_ChangeMasterVol_range cfg es s h0 h100,
    fun hv es hes => handleEvents_PressAndTurn_volume cfg es s hv h0 h100 hes⟩
  · rw [ChangeMasterVol_PressAndStepDown]; omega
  · rw [ChangeMasterVol_PressAndStepUp]; omega

/-- C7 at the sample subsystem, whose volume is 50 percent, and at a state with the
volume at 98 percent, where the step up is clamped. -/
theorem C7_ChangeMasterVol_range_witness :
    (0 ≤ sampleUIMain.m_pMiniDexed.getMasterVolumePercent ∧
      sampleUIMain.m_pMiniDexed.getMasterVolumePercent ≤ 100 ∧
      (ChangeMasterVol sampleConfig sampleUIMain
          .MainEventPressAndStepDown).m_pMiniDexed.getMasterVolumePercent
        = max (sampleUIMain.m_pMiniDexed.getMasterVolumePercent - 5) 0) ∧
    (ChangeMasterVol sampleConfig
        { sampleUIMain with
          m_pMiniDexed := { sampleMiniDexed with MasterVolumePercent := 98 } }
        .MainEventPressAndStepUp).m_pMiniDexed.getMasterVolumePercent = 100 :=
  ⟨⟨by decide, by decide,
    (C7_ChangeMasterVol_range sampleConfig sampleUIMain (by decide) (by decide)).1⟩,
   (C7_ChangeMasterVol_range sampleConfig
      { sampleUIMain with m_pMiniDexed := { sampleMiniDexed with MasterVolumePercent := 98 } }
      (by decide) (by decide)).2.1⟩

/-! ### Fan-out over a group -/

/-- The loop of `ChangeBank`, with body `f`, over a list of tone generators: group
ids and every parameter other than the bank are untouched, the bank becomes
`v` for the listed members of group `g` and stays as it was elsewhere, the
subsystem receives one bank write per listed member, in order, and nothing
else changes. -/
theorem foldl_ChangeBank (g v : Int) (f : CMiniDexed → Nat → CMiniDexed)
    (hf : ∀ m n, f m n =
      if m.GetTGParameter .TGParameterTGGrouping n = g then
        m.SetTGParameter .TGParameterVoiceBank v n
      else m)
    (l : List Nat) :
    ∀ m : CMiniDexed,
      (∀ P k, P ≠ TTGParameter.TGParameterVoiceBank →
        (l.foldl f m).GetTGParameter P k = m.GetTGParameter P k) ∧
      (∀ k, (l.foldl f m).GetTGParameter .TGParameterVoiceBank k =
        if k ∈ l ∧ m.GetTGParameter .TGParameterTGGrouping k = g then v
        else m.GetTGParameter .TGParameterVoiceBank k) ∧
      (l.foldl f m).Calls =
        m.Calls ++ (l.filter (fun n => m.GetTGParameter .TGParameterTGGrouping n = g)).map
          (fun n => TSetCall.SetTGParameter .TGParameterVoiceBank v n) ∧
      (l.foldl f m).MasterVolumePercent = m.MasterVolumePercent ∧
      (l.foldl f m).ActualPerformanceID = m.ActualPerformanceID := by
  induction l with
  | nil => intro m; simp
  | cons n l ih =>
    intro m
    simp only [List.foldl_cons]
    by_cases hn : m.GetTGParameter .TGParameterTGGrouping n = g
    · have hfn : f m n = m.SetTGParameter .TGParameterVoiceBank v n := by
        rw [hf, if_pos hn]
      rw [hfn]
      obtain ⟨i1, i2, i3, i4, i5⟩ := ih (m.SetTGParameter .TGParameterVoiceBank v n)
      have hG : ∀ k, (m.SetTGParameter .TGParameterVoiceBank v n).GetTGParameter
          .TGParameterTGGrouping k = m.GetTGParameter .TGParameterTGGrouping k := by
        intro k; simp [GetTGParameter_SetTGParameter]
      refine ⟨?_, ?_, ?_, ?_, ?_⟩
      · intro P k hP
        rw [i1 P k hP]
        simp [GetTGParameter_SetTGParameter, hP]
      · intro k
        rw [i2 k, hG k]
        simp only [GetTGParameter_SetTGParameter, true_and, List.mem_cons]
        by_cases hk : k = n
        · subst hk; simp [hn]
        · simp [hk]
      · rw [i3]
        simp only [hG]
        rw [List.filter_cons_of_pos (by simpa using hn)]
        simp [CMiniDexed.SetTGParameter]
      · rw [i4]; rfl
      · rw [i5]; rfl
    · have hfn : f m n = m := by rw [hf, if_neg hn]
      rw [hfn]
      obtain ⟨i1, i2, i3, i4, i5⟩ := ih m
      refine ⟨i1, ?_, ?_, i4, i5⟩
      · intro k
        rw [i2 k]
        simp only [List.mem_cons]
        by_cases hk : k = n
        · subst hk; simp [hn]
        · simp [hk]
      · rw [i3, List.filter_cons_of_neg (by simpa using hn)]

/-- C8: on `StepDown` or `StepUp`, with nValue the catalog's previous or next bank
of the current tone generator's bank: if the current tone generator is in
group 0 only its bank becomes nValue; otherwise the bank of every tone
generator with the same group id becomes nValue and the bank of every tone
generator with another group id stays; no parameter other than banks changes,
the subsystem receives bank writes only, and the dispatcher's own fields do
not change. With tone generators 0, 1, 2 in group 2 and 3 in group 0, a step
on tone generator 0 gives 0, 1 and 2 the same bank and leaves 3 as it was. -/
theorem C8_ChangeBank_fan_out (cfg : CConfig) (s : CUIMain) (e : TMainEvent)
    (he : e = .MainEventStepDown ∨ e = .MainEventStepUp) :
    ∃ nValue : Int,
      nValue =
        (if e = .MainEventStepDown then
          s.m_pMiniDexed.SysExFileLoader.GetNextBankDown
            (s.m_pMiniDexed.GetTGParameter .TGParameterVoiceBank s.m_nCurrentTG)
         else
          s.m_pMiniDexed.SysExFileLoader.GetNextBankUp
            (s.m_pMiniDexed.GetTGParameter .TGParameterVoiceBank s.m_nCurrentTG)) ∧
      (s.m_pMiniDexed.GetTGParameter .TGParameterTGGrouping s.m_nCurrentTG = 0 →
        ∀ n, (ChangeBank cfg s e).m_pMiniDexed.GetTGParameter .TGParameterVoiceBank n =
          if n = s.m_nCurrentTG then nValue
          else s.m_pMiniDexed.GetTGParameter .TGParameterVoiceBank n) ∧
      (s.m_pMiniDexed.GetTGParameter .TGParameterTGGrouping s.m_nCurrentTG ≠ 0 →
        ∀ n, n < cfg.ToneGenerators →
          (ChangeBank cfg s e).m_pMiniDexed.GetTGParameter .TGParameterVoiceBank n =
            if s.m_pMiniDexed.GetTGParameter .TGParameterTGGrouping n =
                s.m_pMiniDexed.GetTGParameter .TGParameterTGGrouping s.m_nCurrentTG
            then nValue
            else s.m_pMiniDexed.GetTGParameter .TGParameterVoiceBank n) ∧
      (∀ P n, P ≠ TTGParameter.TGParameterVoiceBank →
        (ChangeBank cfg s e).m_pMiniDexed.GetTGParameter P n =
          s.m_pMiniDexed.GetTGParameter P n) ∧
      (ChangeBank cfg s e).m_pMiniDexed.Calls =
        s.m_pMiniDexed.Calls ++
          (if s.m_pMiniDexed.GetTGParameter .TGParameterTGGrouping s.m_nCurrentTG = 0 then
            [TSetCall.SetTGParameter .TGParameterVoiceBank nValue s.m_nCurrentTG]
           else
            ((List.range cfg.ToneGenerators).filter (fun n =>
              s.m_pMiniDexed.GetTGParameter .TGParameterTGGrouping n =
                s.m_pMiniDexed.GetTGParameter .TGParameterTGGrouping s.m_nCurrentTG)).map
              (fun n => TSetCall.SetTGParameter .TGParameterVoiceBank nValue n)) ∧
      ChangeBank cfg s e = { s with m_pMiniDexed := (ChangeBank cfg s e).m_pMiniDexed } ∧
      (4 ≤ cfg.ToneGenerators → s.m_nCurrentTG = 0 →
        s.m_pMiniDexed.GetTGParameter .TGParameterTGGrouping 0 = 2 →
        s.m_pMiniDexed.GetTGParameter .TGParameterTGGrouping 1 = 2 →
        s.m_pMiniDexed.GetTGParameter .TGParameterTGGrouping 2 = 2 →
        s.m_pMiniDexed.GetTGParameter .TGParameterTGGrouping 3 = 0 →
        (ChangeBank cfg s e).m_pMiniDexed.GetTGParameter .TGParameterVoiceBank 0 = nValue ∧
        (ChangeBank cfg s e).m_pMiniDexed.GetTGParameter .TGParameterVoiceBank 1 = nValue ∧
        (ChangeBank cfg s e).m_pMiniDexed.GetTGParameter .TGParameterVoiceBank 2 = nValue ∧
        (ChangeBank cfg s e).m_pMiniDexed.GetTGParameter .TGParameterVoiceBank 3 =
          s.m_pMiniDexed.GetTGParameter .TGParameterVoiceBank 3) := by
  refine ⟨_, rfl, ?_⟩
  generalize hv : (if e = .MainEventStepDown then
      s.m_pMiniDexed.SysExFileLoader.GetNextBankDown
        (s.m_pMiniDexed.GetTGParameter .TGParameterVoiceBank s.m_nCurrentTG)
     else
      s.m_pMiniDexed.SysExFileLoader.GetNextBankUp
        (s.m_pMiniDexed.GetTGParameter .TGParameterVoiceBank s.m_nCurrentTG)) = nValue
  have hstep : (ChangeBank cfg s e).m_pMiniDexed =
      if s.m_pMiniDexed.GetTGParameter .TGParameterTGGrouping s.m_nCurrentTG = 0 then
        s.m_pMiniDexed.SetTGParameter .TGParameterVoiceBank nValue s.m_nCurrentTG
      else
        List.foldl
          (fun m n =>
            if m.GetTGParameter .TGParameterTGGrouping n =
                s.m_pMiniDexed.GetTGParameter .TGParameterTGGrouping s.m_nCurrentTG then
              m.SetTGParameter .TGParameterVoiceBank nValue n
            else m)
          s.m_pMiniDexed (List.range cfg.ToneGenerators) := by
    rcases he with he | he <;> subst he <;> simp only [reduceCtorEq, if_true, if_false] at hv <;>
      subst hv <;> simp only [ChangeBank] <;> split <;> rfl
  obtain ⟨f1, f2, f3, _, _⟩ := foldl_ChangeBank
    (s.m_pMiniDexed.GetTGParameter .TGParameterTGGrouping s.m_nCurrentTG) nValue _
    (fun _ _ => rfl) (List.range cfg.ToneGenerators) s.m_pMiniDexed
  have hgrouped : s.m_pMiniDexed.GetTGParameter .TGParameterTGGrouping s.m_nCurrentTG ≠ 0 →
      ∀ n, n < cfg.ToneGenerators →
        (ChangeBank cfg s e).m_pMiniDexed.GetTGParameter .TGParameterVoiceBank n =
          if s.m_pMiniDexed.GetTGParameter .TGParameterTGGrouping n =
              s.m_pMiniDexed.GetTGParameter .TGParameterTGGrouping s.m_nCurrentTG
          then nValue
          else s.m_pMiniDexed.GetTGParameter .TGParameterVoiceBank n := by
    intro hg n hn
    rw [hstep]
    simp only [hg, if_false]
    rw [f2 n]
    simp [List.mem_range, hn]
  refine ⟨?_, hgrouped, ?_, ?_, ?_, ?_⟩
  · intro hg n
    rw [hstep]
    simp only [hg, if_true, GetTGParameter_SetTGParameter, true_and]
  · intro P n hP
    rw [hstep]
    by_cases hg : s.m_pMiniDexed.GetTGParameter .TGParameterTGGrouping s.m_nCurrentTG = 0
    · simp only [hg, if_true, GetTGParameter_SetTGParameter, hP, false_and, if_false]
    · simp only [hg, if_false]
      exact f1 P n hP
  · rw [hstep]
    by_cases hg : s.m_pMiniDexed.GetTGParameter .TGParameterTGGrouping s.m_nCurrentTG = 0
    · simp only [hg, if_true]; rfl
    · simp only [hg, if_false]
      exact f3
  · obtain ⟨m, hm⟩ := ChangeBank_fields cfg s e
    rw [hm]
  · intro hN hc g0 g1 g2 g3
    have hg : s.m_pMiniDexed.GetTGParameter .TGParameterTGGrouping s.m_nCurrentTG ≠ 0 := by
      rw [hc, g0]; decide
    have hcur : s.m_pMiniDexed.GetTGParameter .TGParameterTGGrouping s.m_nCurrentTG = 2 := by
      rw [hc, g0]
    refine ⟨?_, ?_, ?_, ?_⟩
    · rw [hgrouped hg 0 (by omega), g0, hcur]; simp
    · rw [hgrouped hg 1 (by omega), g1, hcur]; simp
    · rw [hgrouped hg 2 (by omega), g2, hcur]; simp
    · rw [hgrouped hg 3 (by omega), g3, hcur]; simp

/-- C8 at the sample subsystem: tone generators 0, 1, 2 are in group 2 and 3 is
ungrouped, all on bank 1; a step up on tone generator 0 moves 0, 1 and 2 to
bank 2 and leaves 3 on bank 1. -/
theorem C8_ChangeBank_fan_out_witness :
    (TMainEvent.MainEventStepUp = .MainEventStepDown ∨
      TMainEvent.MainEventStepUp = .MainEventStepUp) ∧
    (ChangeBank sampleConfig sampleUIMain .MainEventStepUp).m_pMiniDexed.GetTGParameter
      .TGParameterVoiceBank 0 = 2 ∧
    (ChangeBank sampleConfig sampleUIMain .MainEventStepUp).m_pMiniDexed.GetTGParameter
      .TGParameterVoiceBank 1 = 2 ∧
    (ChangeBank sampleConfig sampleUIMain .MainEventStepUp).m_pMiniDexed.GetTGParameter
      .TGParameterVoiceBank 2 = 2 ∧
    (ChangeBank sampleConfig sampleUIMain .MainEventStepUp).m_pMiniDexed.GetTGParameter
      .TGParameterVoiceBank 3 = 1 := by
  obtain ⟨nValue, h1, _, _, _, _, _, h2⟩ :=
    C8_ChangeBank_fan_out sampleConfig sampleUIMain .MainEventStepUp (Or.inr rfl)
  have h3 : nValue = 2 := by rw [h1]; decide
  obtain ⟨a, b, c, d⟩ := h2 (by decide) rfl rfl rfl rfl rfl
  rw [h3] at a b c
  exact ⟨Or.inr rfl, a, b, c, d⟩

/-- The loop of `ChangeVoice`, with body `f`, over a list of tone generators: for
the listed members of group `g` the program becomes `v` and, when `b` is set,
the bank becomes `vb`; everything else stays; the subsystem receives, per
listed member and in order, the bank write (when `b` is set) and then the
program write. -/
theorem foldl_ChangeVoice (g : Int) (b : Bool) (v vb : Int)
    (f : CMiniDexed → Nat → CMiniDexed)
    (hf : ∀ m n, f m n =
      if m.GetTGParameter .TGParameterTGGrouping n = g then
        (if b then m.SetTGParameter .TGParameterVoiceBank vb n
          else m).SetTGParameter .TGParameterProgram v n
      else m)
    (l : List Nat) :
    ∀ m : CMiniDexed,
      (∀ P k, P ≠ TTGParameter.TGParameterVoiceBank → P ≠ TTGParameter.TGParameterProgram →
        (l.foldl f m).GetTGParameter P k = m.GetTGParameter P k) ∧
      (∀ k, (l.foldl f m).GetTGParameter .TGParameterProgram k =
        if k ∈ l ∧ m.GetTGParameter .TGParameterTGGrouping k = g then v
        else m.GetTGParameter .TGParameterProgram k) ∧
      (∀ k, (l.foldl f m).GetTGParameter .TGParameterVoiceBank k =
        if b = true ∧ k ∈ l ∧ m.GetTGParameter .TGParameterTGGrouping k = g then vb
        else m.GetTGParameter .TGParameterVoiceBank k) ∧
      (l.foldl f m).Calls =
        m.Calls ++
          (l.filter (fun n => m.GetTGParameter .TGParameterTGGrouping n = g)).flatMap
            (fun n =>
              (if b then [TSetCall.SetTGParameter .TGParameterVoiceBank vb n] else []) ++
                [TSetCall.SetTGParameter .TGParameterProgram v n]) := by
  induction l with
  | nil => intro m; simp
  | cons n l ih =>
    intro m
    simp only [List.foldl_cons]
    by_cases hn : m.GetTGParameter .TGParameterTGGrouping n = g
    · have hfn : f m n = (if b then m.SetTGParameter .TGParameterVoiceBank vb n
          else m).SetTGParameter .TGParameterProgram v n := by
        rw [hf, if_pos hn]
      rw [hfn]
      obtain ⟨i1, i2, i3, i4⟩ := ih ((if b then m.SetTGParameter .TGParameterVoiceBank vb n
          else m).SetTGParameter .TGParameterProgram v n)
      have hG : ∀ k, ((if b then m.SetTGParameter .TGParameterVoiceBank vb n
          else m).SetTGParameter .TGParameterProgram v n).GetTGParameter
          .TGParameterTGGrouping k = m.GetTGParameter .TGParameterTGGrouping k := by
        intro k; cases b <;> simp [GetTGParameter_SetTGParameter]
      refine ⟨?_, ?_, ?_, ?_⟩
      · intro P k hP1 hP2
        rw [i1 P k hP1 hP2]
        cases b <;> simp [GetTGParameter_SetTGParameter, hP1, hP2]
      · intro k
        rw [i2 k, hG k]
        by_cases hk : k = n
        · subst hk; simp [hn, GetTGParameter_SetTGParameter]
        · cases b <;> simp [hk, GetTGParameter_SetTGParameter]
      · intro k
        rw [i3 k, hG k]
        by_cases hk : k = n
        · subst hk; cases b <;> simp [hn, GetTGParameter_SetTGParameter]
        · cases b <;> simp [hk, GetTGParameter_SetTGParameter]
      · rw [i4]
        simp only [hG]
        rw [List.filter_cons_of_pos (by simpa using hn)]
        cases b <;> simp [CMiniDexed.SetTGParameter]
    · have hfn : f m n = m := by rw [hf, if_neg hn]
      rw [hfn]
      obtain ⟨i1, i2, i3, i4⟩ := ih m
      refine ⟨i1, ?_, ?_, ?_⟩
      · intro k
        rw [i2 k]
        by_cases hk : k = n
        · subst hk; simp [hn]
        · simp [hk]
      · intro k
        rw [i3 k]
        by_cases hk : k = n
        · subst hk; simp [hn]
        · simp [hk]
      · rw [i4, List.filter_cons_of_neg (by simpa using hn)]

/-- What `ChangeVoice` hands to the subsystem on a step, in terms of the triple
(bUpdateBank, nValue, nVB) held after its switch. -/
theorem ChangeVoice_step (cfg : CConfig) (s : CUIMain) (e : TMainEvent)
    (he : e = .MainEventStepDown ∨ e = .MainEventStepUp) (t : Bool × Int × Int)
    (ht : t =
      if e = .MainEventStepDown then
        (if decInt (s.m_pMiniDexed.GetTGParameter .TGParameterProgram s.m_nCurrentTG) < 0 then
          (true, (s.m_pMiniDexed.SysExFileLoader.VoicesPerBank : Int) - 1,
            s.m_pMiniDexed.SysExFileLoader.GetNextBankDown
              (s.m_pMiniDexed.GetTGParameter .TGParameterVoiceBank s.m_nCurrentTG))
         else
          (false, decInt (s.m_pMiniDexed.GetTGParameter .TGParameterProgram s.m_nCurrentTG),
            s.m_pMiniDexed.GetTGParameter .TGParameterVoiceBank s.m_nCurrentTG))
      else
        (if incInt (s.m_pMiniDexed.GetTGParameter .TGParameterProgram s.m_nCurrentTG) >
            (s.m_pMiniDexed.SysExFileLoader.VoicesPerBank : Int) - 1 then
          (true, 0,
            s.m_pMiniDexed.SysExFileLoader.GetNextBankUp
              (s.m_pMiniDexed.GetTGParameter .TGParameterVoiceBank s.m_nCurrentTG))
         else
          (false, incInt (s.m_pMiniDexed.GetTGParameter .TGParameterProgram s.m_nCurrentTG),
            s.m_pMiniDexed.GetTGParameter .TGParameterVoiceBank s.m_nCurrentTG))) :
    (ChangeVoice cfg s e).m_pMiniDexed =
      if s.m_pMiniDexed.GetTGParameter .TGParameterTGGrouping s.m_nCurrentTG = 0 then
        (if t.1 then s.m_pMiniDexed.SetTGParameter .TGParameterVoiceBank t.2.2 s.m_nCurrentTG
          else s.m_pMiniDexed).SetTGParameter .TGParameterProgram t.2.1 s.m_nCurrentTG
      else
        List.foldl
          (fun m n =>
            if m.GetTGParameter .TGParameterTGGrouping n =
                s.m_pMiniDexed.GetTGParameter .TGParameterTGGrouping s.m_nCurrentTG then
              (if t.1 then m.SetTGParameter .TGParameterVoiceBank t.2.2 n
                else m).SetTGParameter .TGParameterProgram t.2.1 n
            else m)
          s.m_pMiniDexed (List.range cfg.ToneGenerators) := by
  rcases he with he | he <;> subst he <;> simp only [reduceCtorEq, if_true, if_false] at ht <;>
    subst ht <;> simp only [ChangeVoice] <;> split <;> rfl

/-- The effect of one `ChangeVoice` step on the subsystem, given the triple
`t` = (bUpdateBank, nValue, nVB) held after the switch. The tone generators
written are the current one when it is ungrouped and otherwise the members of
its group. -/
theorem ChangeVoice_effect (cfg : CConfig) (s : CUIMain) (e : TMainEvent)
    (he : e = .MainEventStepDown ∨ e = .MainEventStepUp) (t : Bool × Int × Int)
    (ht : t =
      if e = .MainEventStepDown then
        (if decInt (s.m_pMiniDexed.GetTGParameter .TGParameterProgram s.m_nCurrentTG) < 0 then
          (true, (s.m_pMiniDexed.SysExFileLoader.VoicesPerBank : Int) - 1,
            s.m_pMiniDexed.SysExFileLoader.GetNextBankDown
              (s.m_pMiniDexed.GetTGParameter .TGParameterVoiceBank s.m_nCurrentTG))
         else
          (false, decInt (s.m_pMiniDexed.GetTGParameter .TGParameterProgram s.m_nCurrentTG),
            s.m_pMiniDexed.GetTGParameter .TGParameterVoiceBank s.m_nCurrentTG))
      else
        (if incInt (s.m_pMiniDexed.GetTGParameter .TGParameterProgram s.m_nCurrentTG) >
            (s.m_pMiniDexed.SysExFileLoader.VoicesPerBank : Int) - 1 then
          (true, 0,
            s.m_pMiniDexed.SysExFileLoader.GetNextBankUp
              (s.m_pMiniDexed.GetTGParameter .TGParameterVoiceBank s.m_nCurrentTG))
         else
          (false, incInt (s.m_pMiniDexed.GetTGParameter .TGParameterProgram s.m_nCurrentTG),
            s.m_pMiniDexed.GetTGParameter .TGParameterVoiceBank s.m_nCurrentTG))) :
    (∀ n, (ChangeVoice cfg s e).m_pMiniDexed.GetTGParameter .TGParameterProgram n =
      if (s.m_pMiniDexed.GetTGParameter .TGParameterTGGrouping s.m_nCurrentTG = 0 ∧
            n = s.m_nCurrentTG) ∨
          (s.m_pMiniDexed.GetTGParameter .TGParameterTGGrouping s.m_nCurrentTG ≠ 0 ∧
            n < cfg.ToneGenerators ∧
            s.m_pMiniDexed.GetTGParameter .TGParameterTGGrouping n =
              s.m_pMiniDexed.GetTGParameter .TGParameterTGGrouping s.m_nCurrentTG)
      then t.2.1 else s.m_pMiniDexed.GetTGParameter .TGParameterProgram n) ∧
    (∀ n, (ChangeVoice cfg s e).m_pMiniDexed.GetTGParameter .TGParameterVoiceBank n =
      if t.1 = true ∧
          ((s.m_pMiniDexed.GetTGParameter .TGParameterTGGrouping s.m_nCurrentTG = 0 ∧
            n = s.m_nCurrentTG) ∨
          (s.m_pMiniDexed.GetTGParameter .TGParameterTGGrouping s.m_nCurrentTG ≠ 0 ∧
            n < cfg.ToneGenerators ∧
            s.m_pMiniDexed.GetTGParameter .TGParameterTGGrouping n =
              s.m_pMiniDexed.GetTGParameter .TGParameterTGGrouping s.m_nCurrentTG))
      then t.2.2 else s.m_pMiniDexed.GetTGParameter .TGParameterVoiceBank n) ∧
    (∀ P n, P ≠ TTGParameter.TGParameterVoiceBank → P ≠ TTGParameter.TGParameterProgram →
      (ChangeVoice cfg s e).m_pMiniDexed.GetTGParameter P n =
        s.m_pMiniDexed.GetTGParameter P n) ∧
    (ChangeVoice cfg s e).m_pMiniDexed.Calls =
      s.m_pMiniDexed.Calls ++
        (if s.m_pMiniDexed.GetTGParameter .TGParameterTGGrouping s.m_nCurrentTG = 0 then
          [s.m_nCurrentTG]
         else
          (List.range cfg.ToneGenerators).filter (fun n =>
            s.m_pMiniDexed.GetTGParameter .TGParameterTGGrouping n =
              s.m_pMiniDexed.GetTGParameter .TGParameterTGGrouping s.m_nCurrentTG)).flatMap
          (fun n =>
            (if t.1 then [TSetCall.SetTGParameter .TGParameterVoiceBank t.2.2 n] else []) ++
              [TSetCall.SetTGParameter .TGParameterProgram t.2.1 n]) := by
  have hstep := ChangeVoice_step cfg s e he t ht
  obtain ⟨f1, f2, f3, f4⟩ := foldl_ChangeVoice
    (s.m_pMiniDexed.GetTGParameter .TGParameterTGGrouping s.m_nCurrentTG) t.1 t.2.1 t.2.2 _
    (fun _ _ => rfl) (List.range cfg.ToneGenerators) s.m_pMiniDexed
  rw [hstep]
  by_cases hg : s.m_pMiniDexed.GetTGParameter .TGParameterTGGrouping s.m_nCurrentTG = 0
  · simp only [hg, if_true, ne_eq, not_true_eq_false, false_and, or_false, true_and]
    refine ⟨?_, ?_, ?_, ?_⟩
    · intro n
      cases t.1 <;> simp [GetTGParameter_SetTGParameter]
    · intro n
      cases t.1 <;> simp [GetTGParameter_SetTGParameter]
    · intro P n hP1 hP2
      cases t.1 <;> simp [GetTGParameter_SetTGParameter, hP1, hP2]
    · cases t.1 <;> simp [CMiniDexed.SetTGParameter]
  · simp only [hg, if_false, false_and, false_or, ne_eq, not_false_eq_true, true_and]
    refine ⟨?_, ?_, f1, f4⟩
    · intro n
      rw [f2 n]
      simp only [List.mem_range]
    · intro n
      rw [f3 n]
      simp only [List.mem_range]

theorem foldl_SysExFileLoader (f : CMiniDexed → Nat → CMiniDexed)
    (hf : ∀ m n, (f m n).SysExFileLoader = m.SysExFileLoader) (l : List Nat) :
    ∀ m : CMiniDexed, (l.foldl f m).SysExFileLoader = m.SysExFileLoader := by
  induction l with
  | nil => intro m; rfl
  | cons n l ih => intro m; simp only [List.foldl_cons]; rw [ih, hf]

theorem SetTGParameter_SysExFileLoader (m : CMiniDexed) (P : TTGParameter) (v : Int)
    (n : Nat) : (m.SetTGParameter P v n).SysExFileLoader = m.SysExFileLoader := rfl

theorem ite_SetTGParameter_SysExFileLoader (c : Prop) [Decidable c] (m : CMiniDexed)
    (P : TTGParameter) (v : Int) (n : Nat) :
    (if c then m.SetTGParameter P v n else m).SysExFileLoader = m.SysExFileLoader := by
  split <;> rfl

theorem ChangeVoice_SysExFileLoader (cfg : CConfig) (s : CUIMain) (e : TMainEvent) :
    (ChangeVoice cfg s e).m_pMiniDexed.SysExFileLoader = s.m_pMiniDexed.SysExFileLoader := by
  by_cases he : e = .MainEventStepDown ∨ e = .MainEventStepUp
  · have hstep := ChangeVoice_step cfg s e he _ rfl
    generalize (if e = TMainEvent.MainEventStepDown then _ else _ : Bool × Int × Int) = t
      at hstep
    rw [hstep]
    by_cases hg : s.m_pMiniDexed.GetTGParameter .TGParameterTGGrouping s.m_nCurrentTG = 0
    · simp only [hg, if_true, SetTGParameter_SysExFileLoader,
        ite_SetTGParameter_SysExFileLoader]
    · simp only [hg, if_false]
      apply foldl_SysExFileLoader
      intro m n
      by_cases hm : m.GetTGParameter .TGParameterTGGrouping n =
          s.m_pMiniDexed.GetTGParameter .TGParameterTGGrouping s.m_nCurrentTG
      · simp only [hm, if_true, SetTGParameter_SysExFileLoader,
          ite_SetTGParameter_SysExFileLoader]
      · simp only [hm, if_false]
  · have h3 : ChangeVoice cfg s e = s := by
      cases e <;> first | rfl | exact absurd (Or.inl rfl) he | exact absurd (Or.inr rfl) he
    rw [h3]

/-- On `StepDown` the current tone generator, when it is one of the tone
generators, gets the program and bank computed by the switch. -/
theorem ChangeVoice_StepDown_current (cfg : CConfig) (s : CUIMain)
    (hc : s.m_nCurrentTG < cfg.ToneGenerators) :
    (ChangeVoice cfg s .MainEventStepDown).m_pMiniDexed.GetTGParameter
        .TGParameterProgram s.m_nCurrentTG =
      (if decInt (s.m_pMiniDexed.GetTGParameter .TGParameterProgram s.m_nCurrentTG) < 0 then
        (s.m_pMiniDexed.SysExFileLoader.VoicesPerBank : Int) - 1
       else decInt (s.m_pMiniDexed.GetTGParameter .TGParameterProgram s.m_nCurrentTG)) ∧
    (ChangeVoice cfg s .MainEventStepDown).m_pMiniDexed.GetTGParameter
        .TGParameterVoiceBank s.m_nCurrentTG =
      (if decInt (s.m_pMiniDexed.GetTGParameter .TGParameterProgram s.m_nCurrentTG) < 0 then
        s.m_pMiniDexed.SysExFileLoader.GetNextBankDown
          (s.m_pMiniDexed.GetTGParameter .TGParameterVoiceBank s.m_nCurrentTG)
       else s.m_pMiniDexed.GetTGParameter .TGParameterVoiceBank s.m_nCurrentTG) := by
  obtain ⟨e1, e2, _, _⟩ := ChangeVoice_effect cfg s .MainEventStepDown (Or.inl rfl) _ rfl
  rw [e1, e2]
  by_cases hg : s.m_pMiniDexed.GetTGParameter .TGParameterTGGrouping s.m_nCurrentTG = 0 <;>
    by_cases hv : decInt (s.m_pMiniDexed.GetTGParameter .TGParameterProgram s.m_nCurrentTG) < 0 <;>
    simp [hg, hv, hc]

/-- On `StepUp` the current tone generator, when it is one of the tone generators,
gets the program and bank computed by the switch. -/
theorem ChangeVoice_StepUp_current (cfg : CConfig) (s : CUIMain)
    (hc : s.m_nCurrentTG < cfg.ToneGenerators) :
    (ChangeVoice cfg s .MainEventStepUp).m_pMiniDexed.GetTGParameter
        .TGParameterProgram s.m_nCurrentTG =
      (if incInt (s.m_pMiniDexed.GetTGParameter .TGParameterProgram s.m_nCurrentTG) >
          (s.m_pMiniDexed.SysExFileLoader.VoicesPerBank : Int) - 1 then 0
       else incInt (s.m_pMiniDexed.GetTGParameter .TGParameterProgram s.m_nCurrentTG)) ∧
    (ChangeVoice cfg s .MainEventStepUp).m_pMiniDexed.GetTGParameter
        .TGParameterVoiceBank s.m_nCurrentTG =
      (if incInt (s.m_pMiniDexed.GetTGParameter .TGParameterProgram s.m_nCurrentTG) >
          (s.m_pMiniDexed.SysExFileLoader.VoicesPerBank : Int) - 1 then
        s.m_pMiniDexed.SysExFileLoader.GetNextBankUp
          (s.m_pMiniDexed.GetTGParameter .TGParameterVoiceBank s.m_nCurrentTG)
       else s.m_pMiniDexed.GetTGParameter .TGParameterVoiceBank s.m_nCurrentTG) := by
  obtain ⟨e1, e2, _, _⟩ := ChangeVoice_effect cfg s .MainEventStepUp (Or.inr rfl) _ rfl
  rw [e1, e2]
  by_cases hg : s.m_pMiniDexed.GetTGParameter .TGParameterTGGrouping s.m_nCurrentTG = 0 <;>
    by_cases hv : incInt (s.m_pMiniDexed.GetTGParameter .TGParameterProgram s.m_nCurrentTG) >
      (s.m_pMiniDexed.SysExFileLoader.VoicesPerBank : Int) - 1 <;>
    simp [hg, hv, hc]

/-- Away from `INT_MIN` the decrement of an `int` is the decrement of the
integer. -/
theorem decInt_eq (v : Int) (h : -2147483648 < v) : decInt v = v - 1 := by
  unfold decInt INT_MIN
  rw [if_neg (by omega)]

/-- Away from `INT_MAX` the increment of an `int` is the increment of the
integer. -/
theorem incInt_eq (v : Int) (h : v < 2147483647) : incInt v = v + 1 := by
  unfold incInt INT_MAX
  rw [if_neg (by omega)]

/-- One call of `ChangeVoice`, for any event, keeps the current tone generator's
program within the bank, for a bank size that fits an `int`. -/
theorem ChangeVoice_range (cfg : CConfig) (s : CUIMain) (e : TMainEvent)
    (hc : s.m_nCurrentTG < cfg.ToneGenerators)
    (hV : s.m_pMiniDexed.SysExFileLoader.VoicesPerBank ≤ 2147483647)
    (h0 : 0 ≤ s.m_pMiniDexed.GetTGParameter .TGParameterProgram s.m_nCurrentTG)
    (hmax : s.m_pMiniDexed.GetTGParameter .TGParameterProgram s.m_nCurrentTG ≤
      (s.m_pMiniDexed.SysExFileLoader.VoicesPerBank : Int) - 1) :
    0 ≤ (ChangeVoice cfg s e).m_pMiniDexed.GetTGParameter .TGParameterProgram s.m_nCurrentTG ∧
    (ChangeVoice cfg s e).m_pMiniDexed.GetTGParameter .TGParameterProgram s.m_nCurrentTG ≤
      (s.m_pMiniDexed.SysExFileLoader.VoicesPerBank : Int) - 1 := by
  by_cases h1 : e = .MainEventStepDown
  · rw [h1, (ChangeVoice_StepDown_current cfg s hc).1, decInt_eq _ (by omega)]
    split <;> omega
  · by_cases h2 : e = .MainEventStepUp
    · rw [h2, (ChangeVoice_StepUp_current cfg s hc).1, incInt_eq _ (by omega)]
      split <;> omega
    · have h3 : ChangeVoice cfg s e = s := by
        cases e <;> first | rfl | exact absurd rfl h1 | exact absurd rfl h2
      rw [h3]; exact ⟨h0, hmax⟩

theorem foldl_ChangeVoice_range (cfg : CConfig) (es : List TMainEvent) :
    ∀ s : CUIMain, s.m_nCurrentTG < cfg.ToneGenerators →
      s.m_pMiniDexed.SysExFileLoader.VoicesPerBank ≤ 2147483647 →
      0 ≤ s.m_pMiniDexed.GetTGParameter .TGParameterProgram s.m_nCurrentTG →
      s.m_pMiniDexed.GetTGParameter .TGParameterProgram s.m_nCurrentTG ≤
        (s.m_pMiniDexed.SysExFileLoader.VoicesPerBank : Int) - 1 →
      (es.foldl (ChangeVoice cfg) s).m_nCurrentTG = s.m_nCurrentTG ∧
      0 ≤ (es.foldl (ChangeVoice cfg) s).m_pMiniDexed.GetTGParameter
        .TGParameterProgram s.m_nCurrentTG ∧
      (es.foldl (ChangeVoice cfg) s).m_pMiniDexed.GetTGParameter
          .TGParameterProgram s.m_nCurrentTG ≤
        (s.m_pMiniDexed.SysExFileLoader.VoicesPerBank : Int) - 1 := by
  induction es with
  | nil => intro s _ _ h0 hmax; exact ⟨rfl, h0, hmax⟩
  | cons e es ih =>
    intro s hc hV h0 hmax
    obtain ⟨m, hm⟩ := ChangeVoice_fields cfg s e
    have hcur : (ChangeVoice cfg s e).m_nCurrentTG = s.m_nCurrentTG := by rw [hm]
    have hl := ChangeVoice_SysExFileLoader cfg s e
    have hr := ChangeVoice_range cfg s e hc hV h0 hmax
    have := ih (ChangeVoice cfg s e) (by rw [hcur]; exact hc) (by rw [hl]; exact hV)
      (by rw [hcur]; exact hr.1) (by rw [hcur, hl]; exact hr.2)
    rw [hcur, hl] at this
    exact this

/-- C9: when the current tone generator is one of the tone generators, the bank
size `VoicesPerBank` fits an `int` (it is 32 in the program) and the
program v lies in `[0, VoicesPerBank-1]` on bank B: `StepDown` at v = 0 gives
program `VoicesPerBank-1` on the catalog's previous bank of B; `StepUp` at
v = `VoicesPerBank-1` gives program 0 on the catalog's next bank of B; in the
other cases the program becomes v-1 or v+1, no bank changes and the subsystem
receives program writes only. So the program stays in `[0, VoicesPerBank-1]`
under every sequence of calls. -/
theorem C9_ChangeVoice_roll_over (cfg : CConfig) (s : CUIMain)
    (hc : s.m_nCurrentTG < cfg.ToneGenerators)
    (hV : s.m_pMiniDexed.SysExFileLoader.VoicesPerBank ≤ 2147483647)
    (h0 : 0 ≤ s.m_pMiniDexed.GetTGParameter .TGParameterProgram s.m_nCurrentTG)
    (hmax : s.m_pMiniDexed.GetTGParameter .TGParameterProgram s.m_nCurrentTG ≤
      (s.m_pMiniDexed.SysExFileLoader.VoicesPerBank : Int) - 1) :
    (s.m_pMiniDexed.GetTGParameter .TGParameterProgram s.m_nCurrentTG = 0 →
      (ChangeVoice cfg s .MainEventStepDown).m_pMiniDexed.GetTGParameter
          .TGParameterProgram s.m_nCurrentTG =
        (s.m_pMiniDexed.SysExFileLoader.VoicesPerBank : Int) - 1 ∧
      (ChangeVoice cfg s .MainEventStepDown).m_pMiniDexed.GetTGParameter
          .TGParameterVoiceBank s.m_nCurrentTG =
        s.m_pMiniDexed.SysExFileLoader.GetNextBankDown
          (s.m_pMiniDexed.GetTGParameter .TGParameterVoiceBank s.m_nCurrentTG)) ∧
    (s.m_pMiniDexed.GetTGParameter .TGParameterProgram s.m_nCurrentTG =
        (s.m_pMiniDexed.SysExFileLoader.VoicesPerBank : Int) - 1 →
      (ChangeVoice cfg s .MainEventStepUp).m_pMiniDexed.GetTGParameter
          .TGParameterProgram s.m_nCurrentTG = 0 ∧
      (ChangeVoice cfg s .MainEventStepUp).m_pMiniDexed.GetTGParameter
          .TGParameterVoiceBank s.m_nCurrentTG =
        s.m_pMiniDexed.SysExFileLoader.GetNextBankUp
          (s.m_pMiniDexed.GetTGParameter .TGParameterVoiceBank s.m_nCurrentTG)) ∧
    (s.m_pMiniDexed.GetTGParameter .TGParameterProgram s.m_nCurrentTG ≠ 0 →
      (ChangeVoice cfg s .MainEventStepDown).m_pMiniDexed.GetTGParameter
          .TGParameterProgram s.m_nCurrentTG =
        s.m_pMiniDexed.GetTGParameter .TGParameterProgram s.m_nCurrentTG - 1 ∧
      (∀ n, (ChangeVoice cfg s .MainEventStepDown).m_pMiniDexed.GetTGParameter
          .TGParameterVoiceBank n = s.m_pMiniDexed.GetTGParameter .TGParameterVoiceBank n) ∧
      ∃ writes, (ChangeVoice cfg s .MainEventStepDown).m_pMiniDexed.Calls =
          s.m_pMiniDexed.Calls ++ writes ∧
        ∀ c ∈ writes, ∃ x n, c = TSetCall.SetTGParameter .TGParameterProgram x n) ∧
    (s.m_pMiniDexed.GetTGParameter .TGParameterProgram s.m_nCurrentTG ≠
        (s.m_pMiniDexed.SysExFileLoader.VoicesPerBank : Int) - 1 →
      (ChangeVoice cfg s .MainEventStepUp).m_pMiniDexed.GetTGParameter
          .TGParameterProgram s.m_nCurrentTG =
        s.m_pMiniDexed.GetTGParameter .TGParameterProgram s.m_nCurrentTG + 1 ∧
      (∀ n, (ChangeVoice cfg s .MainEventStepUp).m_pMiniDexed.GetTGParameter
          .TGParameterVoiceBank n = s.m_pMiniDexed.GetTGParameter .TGParameterVoiceBank n) ∧
      ∃ writes, (ChangeVoice cfg s .MainEventStepUp).m_pMiniDexed.Calls =
          s.m_pMiniDexed.Calls ++ writes ∧
        ∀ c ∈ writes, ∃ x n, c = TSetCall.SetTGParameter .TGParameterProgram x n) ∧
    (∀ es : List TMainEvent,
      0 ≤ (es.foldl (ChangeVoice cfg) s).m_pMiniDexed.GetTGParameter
        .TGParameterProgram s.m_nCurrentTG ∧
      (es.foldl (ChangeVoice cfg) s).m_pMiniDexed.GetTGParameter
          .TGParameterProgram s.m_nCurrentTG ≤
        (s.m_pMiniDexed.SysExFileLoader.VoicesPerBank : Int) - 1) := by
  have hd : decInt (s.m_pMiniDexed.GetTGParameter .TGParameterProgram s.m_nCurrentTG) =
      s.m_pMiniDexed.GetTGParameter .TGParameterProgram s.m_nCurrentTG - 1 :=
    decInt_eq _ (by omega)
  have hu : incInt (s.m_pMiniDexed.GetTGParameter .TGParameterProgram s.m_nCurrentTG) =
      s.m_pMiniDexed.GetTGParameter .TGParameterProgram s.m_nCurrentTG + 1 :=
    incInt_eq _ (by omega)
  obtain ⟨d1, d2⟩ := ChangeVoice_StepDown_current cfg s hc
  obtain ⟨u1, u2⟩ := ChangeVoice_StepUp_current cfg s hc
  rw [hd] at d1 d2
  rw [hu] at u1 u2
  refine ⟨?_, ?_, ?_, ?_, ?_⟩
  · intro hv
    rw [d1, d2, hv]
    simp
  · intro hv
    rw [u1, u2, hv]
    simp
  · intro hv
    have hlt : ¬ (s.m_pMiniDexed.GetTGParameter .TGParameterProgram s.m_nCurrentTG - 1 < 0) := by
      omega
    obtain ⟨_, e2, _, e4⟩ := ChangeVoice_effect cfg s .MainEventStepDown (Or.inl rfl) _ rfl
    simp only [hd, if_true, hlt, if_false] at e2 e4
    refine ⟨?_, ?_, _, e4, ?_⟩
    · rw [d1, if_neg hlt]
    · intro n
      rw [e2 n]
      simp
    · intro c hcm
      rw [List.mem_flatMap] at hcm
      obtain ⟨n, _, hn⟩ := hcm
      simp only [Bool.false_eq_true, if_false, List.nil_append, List.mem_singleton] at hn
      exact ⟨_, _, hn⟩
  · intro hv
    have hlt : ¬ (s.m_pMiniDexed.GetTGParameter .TGParameterProgram s.m_nCurrentTG + 1 >
        (s.m_pMiniDexed.SysExFileLoader.VoicesPerBank : Int) - 1) := by
      omega
    obtain ⟨_, e2, _, e4⟩ := ChangeVoice_effect cfg s .MainEventStepUp (Or.inr rfl) _ rfl
    simp only [hu, reduceCtorEq, if_false, hlt] at e2 e4
    refine ⟨?_, ?_, _, e4, ?_⟩
    · rw [u1, if_neg hlt]
    · intro n
      rw [e2 n]
      simp
    · intro c hcm
      rw [List.mem_flatMap] at hcm
      obtain ⟨n, _, hn⟩ := hcm
      simp only [Bool.false_eq_true, if_false, List.nil_append, List.mem_singleton] at hn
      exact ⟨_, _, hn⟩
  · intro es
    exact (foldl_ChangeVoice_range cfg es s hc hV h0 hmax).2

/-- C9 at the sample subsystem: tone generator 0 has program 0 on bank 1 of a
catalog with 32 voices per bank, so `StepDown` gives program 31 on bank 0. -/
theorem C9_ChangeVoice_roll_over_witness :
    sampleUIMain.m_nCurrentTG < sampleConfig.ToneGenerators ∧
    sampleUIMain.m_pMiniDexed.SysExFileLoader.VoicesPerBank ≤ 2147483647 ∧
    0 ≤ sampleUIMain.m_pMiniDexed.GetTGParameter .TGParameterProgram
      sampleUIMain.m_nCurrentTG ∧
    sampleUIMain.m_pMiniDexed.GetTGParameter .TGParameterProgram sampleUIMain.m_nCurrentTG ≤
      (sampleUIMain.m_pMiniDexed.SysExFileLoader.VoicesPerBank : Int) - 1 ∧
    (ChangeVoice sampleConfig sampleUIMain .MainEventStepDown).m_pMiniDexed.GetTGParameter
      .TGParameterProgram sampleUIMain.m_nCurrentTG = 31 ∧
    (ChangeVoice sampleConfig sampleUIMain .MainEventStepDown).m_pMiniDexed.GetTGParameter
      .TGParameterVoiceBank sampleUIMain.m_nCurrentTG = 0 :=
  ⟨by decide, by decide, by decide, by decide,
   ((C9_ChangeVoice_roll_over sampleConfig sampleUIMain (by decide) (by decide) (by decide)
      (by decide)).1 rfl).1,
   ((C9_ChangeVoice_roll_over sampleConfig sampleUIMain (by decide) (by decide) (by decide)
      (by decide)).1 rfl).2⟩

/-- C10: on `StepDown` or `StepUp`, with (bUpdateBank, nValue, nVB) the roll-over
flag, the new program and the new bank computed from the current tone
generator, the step being the `int` operation `--nValue` or `++nValue`, which
wraps at the end of the `int` range: if the current tone generator's group id g is not 0, every tone
generator with group id g gets program nValue and, exactly when bUpdateBank is
set, bank nVB, and every tone generator with another group id keeps its bank
and program; if g is 0 only the current tone generator is written; without a
roll-over no bank changes; no other parameter changes; and the subsystem
receives, per written tone generator, the bank write (only on a roll-over)
followed by the program write, and nothing else. -/
theorem C10_ChangeVoice_fan_out (cfg : CConfig) (s : CUIMain) (e : TMainEvent)
    (he : e = .MainEventStepDown ∨ e = .MainEventStepUp) :
    ∃ (bUpdateBank : Bool) (nValue nVB : Int),
      (bUpdateBank, nValue, nVB) =
        (if e = .MainEventStepDown then
          (if decInt (s.m_pMiniDexed.GetTGParameter .TGParameterProgram s.m_nCurrentTG) < 0 then
            (true, (s.m_pMiniDexed.SysExFileLoader.VoicesPerBank : Int) - 1,
              s.m_pMiniDexed.SysExFileLoader.GetNextBankDown
                (s.m_pMiniDexed.GetTGParameter .TGParameterVoiceBank s.m_nCurrentTG))
           else
            (false, decInt (s.m_pMiniDexed.GetTGParameter .TGParameterProgram s.m_nCurrentTG),
              s.m_pMiniDexed.GetTGParameter .TGParameterVoiceBank s.m_nCurrentTG))
         else
          (if incInt (s.m_pMiniDexed.GetTGParameter .TGParameterProgram s.m_nCurrentTG) >
              (s.m_pMiniDexed.SysExFileLoader.VoicesPerBank : Int) - 1 then
            (true, 0,
              s.m_pMiniDexed.SysExFileLoader.GetNextBankUp
                (s.m_pMiniDexed.GetTGParameter .TGParameterVoiceBank s.m_nCurrentTG))
           else
            (false, incInt (s.m_pMiniDexed.GetTGParameter .TGParameterProgram s.m_nCurrentTG),
              s.m_pMiniDexed.GetTGParameter .TGParameterVoiceBank s.m_nCurrentTG))) ∧
      (s.m_pMiniDexed.GetTGParameter .TGParameterTGGrouping s.m_nCurrentTG ≠ 0 →
        (∀ n, n < cfg.ToneGenerators →
          s.m_pMiniDexed.GetTGParameter .TGParameterTGGrouping n =
            s.m_pMiniDexed.GetTGParameter .TGParameterTGGrouping s.m_nCurrentTG →
          (ChangeVoice cfg s e).m_pMiniDexed.GetTGParameter .TGParameterProgram n = nValue ∧
          (ChangeVoice cfg s e).m_pMiniDexed.GetTGParameter .TGParameterVoiceBank n =
            (if bUpdateBank then nVB
             else s.m_pMiniDexed.GetTGParameter .TGParameterVoiceBank n)) ∧
        (∀ n, s.m_pMiniDexed.GetTGParameter .TGParameterTGGrouping n ≠
            s.m_pMiniDexed.GetTGParameter .TGParameterTGGrouping s.m_nCurrentTG →
          (ChangeVoice cfg s e).m_pMiniDexed.GetTGParameter .TGParameterProgram n =
            s.m_pMiniDexed.GetTGParameter .TGParameterProgram n ∧
          (ChangeVoice cfg s e).m_pMiniDexed.GetTGParameter .TGParameterVoiceBank n =
            s.m_pMiniDexed.GetTGParameter .TGParameterVoiceBank n)) ∧
      (s.m_pMiniDexed.GetTGParameter .TGParameterTGGrouping s.m_nCurrentTG = 0 →
        (ChangeVoice cfg s e).m_pMiniDexed.GetTGParameter .TGParameterProgram s.m_nCurrentTG =
          nValue ∧
        (ChangeVoice cfg s e).m_pMiniDexed.GetTGParameter .TGParameterVoiceBank s.m_nCurrentTG =
          (if bUpdateBank then nVB
           else s.m_pMiniDexed.GetTGParameter .TGParameterVoiceBank s.m_nCurrentTG) ∧
        ∀ n, n ≠ s.m_nCurrentTG →
          (ChangeVoice cfg s e).m_pMiniDexed.GetTGParameter .TGParameterProgram n =
            s.m_pMiniDexed.GetTGParameter .TGParameterProgram n ∧
          (ChangeVoice cfg s e).m_pMiniDexed.GetTGParameter .TGParameterVoiceBank n =
            s.m_pMiniDexed.GetTGParameter .TGParameterVoiceBank n) ∧
      (bUpdateBank = false →
        ∀ n, (ChangeVoice cfg s e).m_pMiniDexed.GetTGParameter .TGParameterVoiceBank n =
          s.m_pMiniDexed.GetTGParameter .TGParameterVoiceBank n) ∧
      (∀ P n, P ≠ TTGParameter.TGParameterVoiceBank → P ≠ TTGParameter.TGParameterProgram →
        (ChangeVoice cfg s e).m_pMiniDexed.GetTGParameter P n =
          s.m_pMiniDexed.GetTGParameter P n) ∧
      (ChangeVoice cfg s e).m_pMiniDexed.Calls =
        s.m_pMiniDexed.Calls ++
          (if s.m_pMiniDexed.GetTGParameter .TGParameterTGGrouping s.m_nCurrentTG = 0 then
            [s.m_nCurrentTG]
           else
            (List.range cfg.ToneGenerators).filter (fun n =>
              s.m_pMiniDexed.GetTGParameter .TGParameterTGGrouping n =
                s.m_pMiniDexed.GetTGParameter .TGParameterTGGrouping s.m_nCurrentTG)).flatMap
            (fun n =>
              (if bUpdateBank then [TSetCall.SetTGParameter .TGParameterVoiceBank nVB n]
               else []) ++
                [TSetCall.SetTGParameter .TGParameterProgram nValue n]) ∧
      ChangeVoice cfg s e = { s with m_pMiniDexed := (ChangeVoice cfg s e).m_pMiniDexed } := by
  obtain ⟨t, ht⟩ : ∃ t : Bool × Int × Int, t =
      (if e = .MainEventStepDown then
        (if decInt (s.m_pMiniDexed.GetTGParameter .TGParameterProgram s.m_nCurrentTG) < 0 then
          (true, (s.m_pMiniDexed.SysExFileLoader.VoicesPerBank : Int) - 1,
            s.m_pMiniDexed.SysExFileLoader.GetNextBankDown
              (s.m_pMiniDexed.GetTGParameter .TGParameterVoiceBank s.m_nCurrentTG))
         else
          (false, decInt (s.m_pMiniDexed.GetTGParameter .TGParameterProgram s.m_nCurrentTG),
            s.m_pMiniDexed.GetTGParameter .TGParameterVoiceBank s.m_nCurrentTG))
       else
        (if incInt (s.m_pMiniDexed.GetTGParameter .TGParameterProgram s.m_nCurrentTG) >
            (s.m_pMiniDexed.SysExFileLoader.VoicesPerBank : Int) - 1 then
          (true, 0,
            s.m_pMiniDexed.SysExFileLoader.GetNextBankUp
              (s.m_pMiniDexed.GetTGParameter .TGParameterVoiceBank s.m_nCurrentTG))
         else
          (false, incInt (s.m_pMiniDexed.GetTGParameter .TGParameterProgram s.m_nCurrentTG),
            s.m_pMiniDexed.GetTGParameter .TGParameterVoiceBank s.m_nCurrentTG))) := ⟨_, rfl⟩
  obtain ⟨e1, e2, e3, e4⟩ := ChangeVoice_effect cfg s e he t ht
  refine ⟨t.1, t.2.1, t.2.2, ht, ?_, ?_, ?_, e3, e4, ?_⟩
  · intro hg
    refine ⟨?_, ?_⟩
    · intro n hn hgn
      rw [e1 n, e2 n]
      cases t.1 <;> simp [hg, hn, hgn]
    · intro n hgn
      rw [e1 n, e2 n]
      simp [hg, hgn]
  · intro hg
    refine ⟨?_, ?_, ?_⟩
    · rw [e1]; simp [hg]
    · rw [e2]; cases t.1 <;> simp [hg]
    · intro n hn
      rw [e1 n, e2 n]
      simp [hg, hn]
  · intro hb n
    rw [e2 n]
    simp [hb]
  · obtain ⟨m, hm⟩ := ChangeVoice_fields cfg s e
    rw [hm]

/-- C10 at the sample subsystem: tone generators 0, 1, 2 (group 2) and 3
(ungrouped) all have program 0 on bank 1; `StepDown` on tone generator 0 rolls
under, so 0, 1 and 2 get program 31 on bank 0 and 3 keeps program 0 on
bank 1. -/
theorem C10_ChangeVoice_fan_out_witness :
    (TMainEvent.MainEventStepDown = .MainEventStepDown ∨
      TMainEvent.MainEventStepDown = .MainEventStepUp) ∧
    (∀ n, n < 3 →
      (ChangeVoice sampleConfig sampleUIMain .MainEventStepDown).m_pMiniDexed.GetTGParameter
        .TGParameterProgram n = 31 ∧
      (ChangeVoice sampleConfig sampleUIMain .MainEventStepDown).m_pMiniDexed.GetTGParameter
        .TGParameterVoiceBank n = 0) ∧
    (ChangeVoice sampleConfig sampleUIMain .MainEventStepDown).m_pMiniDexed.GetTGParameter
      .TGParameterProgram 3 = 0 ∧
    (ChangeVoice sampleConfig sampleUIMain .MainEventStepDown).m_pMiniDexed.GetTGParameter
      .TGParameterVoiceBank 3 = 1 := by
  obtain ⟨b, v, vb, h1, h2, _⟩ :=
    C10_ChangeVoice_fan_out sampleConfig sampleUIMain .MainEventStepDown (Or.inl rfl)
  have h3 : (b, v, vb) = (true, 31, 0) := by rw [h1]; decide
  simp only [Prod.mk.injEq] at h3
  obtain ⟨hb, hv, hvb⟩ := h3
  subst hb hv hvb
  obtain ⟨h4, h5⟩ := h2 (by decide)
  refine ⟨Or.inl rfl, ?_, (h5 3 (by decide)).1, (h5 3 (by decide)).2⟩
  intro n hn
  have hn4 : n < sampleConfig.ToneGenerators := by
    have : sampleConfig.ToneGenerators = 4 := rfl
    omega
  have hgn : sampleUIMain.m_pMiniDexed.GetTGParameter .TGParameterTGGrouping n =
      sampleUIMain.m_pMiniDexed.GetTGParameter .TGParameterTGGrouping
        sampleUIMain.m_nCurrentTG := by
    simp [sampleUIMain, CUIMain.init, sampleMiniDexed, CMiniDexed.GetTGParameter, hn]
  simpa using h4 n hn4 hgn

/-! ### The performance page -/

theorem SelectPerf_StepDown (s : CUIMain) :
    (SelectPerf s .MainEventStepDown).m_nSelectedPerformanceID =
      s.m_nSelectedPerformanceID - 1 ∧
    (SelectPerf s .MainEventStepDown).m_pMiniDexed =
      (if s.m_pMiniDexed.PerformanceSelectToLoad then s.m_pMiniDexed
       else s.m_pMiniDexed.SetNewPerformance (s.m_nSelectedPerformanceID - 1)) := by
  have h : (if s.m_nSelectedPerformanceID > 0 then s.m_nSelectedPerformanceID - 1
      else s.m_nSelectedPerformanceID) = s.m_nSelectedPerformanceID - 1 := by
    split <;> omega
  simp only [SelectPerf, h]
  cases s.m_pMiniDexed.PerformanceSelectToLoad <;> simp

theorem SelectPerf_StepUp (s : CUIMain)
    (hL : s.m_pMiniDexed.LastPerformance < UINT_RANGE)
    (hs : s.m_nSelectedPerformanceID < s.m_pMiniDexed.LastPerformance) :
    (SelectPerf s .MainEventStepUp).m_nSelectedPerformanceID =
      min (s.m_nSelectedPerformanceID + 1) (s.m_pMiniDexed.LastPerformance - 1) ∧
    (SelectPerf s .MainEventStepUp).m_pMiniDexed =
      (if s.m_pMiniDexed.PerformanceSelectToLoad then s.m_pMiniDexed
       else s.m_pMiniDexed.SetNewPerformance
        (min (s.m_nSelectedPerformanceID + 1) (s.m_pMiniDexed.LastPerformance - 1))) := by
  unfold UINT_RANGE at hL
  have h1 : (s.m_nSelectedPerformanceID + 1) % 4294967296 = s.m_nSelectedPerformanceID + 1 :=
    Nat.mod_eq_of_lt (by omega)
  have h2 : (s.m_pMiniDexed.LastPerformance + 4294967296 - 1) % 4294967296 =
      s.m_pMiniDexed.LastPerformance - 1 := by omega
  have h : (if s.m_nSelectedPerformanceID + 1 > s.m_pMiniDexed.LastPerformance - 1 then
      s.m_pMiniDexed.LastPerformance - 1 else s.m_nSelectedPerformanceID + 1) =
      min (s.m_nSelectedPerformanceID + 1) (s.m_pMiniDexed.LastPerformance - 1) := by
    split
    · rw [Nat.min_eq_right (by omega)]
    · rw [Nat.min_eq_left (by omega)]
  simp only [SelectPerf, UINT_RANGE, h1, h2, h]
  cases s.m_pMiniDexed.PerformanceSelectToLoad <;> simp

/-- On a step `SelectPerf` commits the new slot at once unless the subsystem is in
select-then-confirm mode. -/
theorem SelectPerf_commit (s : CUIMain) (e : TMainEvent)
    (he : e = .MainEventStepDown ∨ e = .MainEventStepUp) :
    (SelectPerf s e).m_pMiniDexed =
      (if s.m_pMiniDexed.PerformanceSelectToLoad then s.m_pMiniDexed
       else s.m_pMiniDexed.SetNewPerformance (SelectPerf s e).m_nSelectedPerformanceID) := by
  rcases he with he | he <;> subst he <;> simp only [SelectPerf] <;>
    cases s.m_pMiniDexed.PerformanceSelectToLoad <;> simp

theorem SelectPerf_eq (s : CUIMain) (e : TMainEvent) :
    SelectPerf s e =
      { s with
        m_pMiniDexed := (SelectPerf s e).m_pMiniDexed
        m_nSelectedPerformanceID := (SelectPerf s e).m_nSelectedPerformanceID } := by
  obtain ⟨m, v, h⟩ := SelectPerf_fields s e
  rw [h]

/-- C11: on a `StepDown` or `StepUp`, in auto-load mode `SelectPerf` makes the new
selected slot the subsystem's active slot, by one `SetNewPerformance` call,
and `LoadPerf` changes nothing; in select-then-confirm mode `SelectPerf`
changes only the selected slot, leaving the subsystem and its active slot as
they were, and a following `LoadPerf` makes the selected slot the active one.
On the performance page the dispatcher gives `StepDown`/`StepUp` to
`SelectPerf` and `Select` to `LoadPerf`, and renders the page after them. -/
theorem C11_performance_modes (cfg : CConfig) (s : CUIMain) (e : TMainEvent)
    (he : e = .MainEventStepDown ∨ e = .MainEventStepUp) :
    (s.m_pMiniDexed.PerformanceSelectToLoad = false →
      (SelectPerf s e).m_pMiniDexed.ActualPerformanceID =
        (SelectPerf s e).m_nSelectedPerformanceID ∧
      (SelectPerf s e).m_pMiniDexed.Calls =
        s.m_pMiniDexed.Calls ++
          [TSetCall.SetNewPerformance (SelectPerf s e).m_nSelectedPerformanceID] ∧
      LoadPerf s .MainEventSelect = s ∧
      LoadPerf (SelectPerf s e) .MainEventSelect = SelectPerf s e) ∧
    (s.m_pMiniDexed.PerformanceSelectToLoad = true →
      SelectPerf s e =
        { s with m_nSelectedPerformanceID := (SelectPerf s e).m_nSelectedPerformanceID } ∧
      (SelectPerf s e).m_pMiniDexed.ActualPerformanceID = s.m_pMiniDexed.ActualPerformanceID ∧
      (LoadPerf (SelectPerf s e) .MainEventSelect).m_pMiniDexed.ActualPerformanceID =
        (SelectPerf s e).m_nSelectedPerformanceID ∧
      LoadPerf (SelectPerf s e) .MainEventSelect =
        { SelectPerf s e with
          m_pMiniDexed := s.m_pMiniDexed.SetNewPerformance
            (SelectPerf s e).m_nSelectedPerformanceID }) ∧
    (s.m_nCurrentMainScreen = 1 → s.m_nCurrentSelection = 0 →
      EventHandler cfg s e = some (ViewPerformance (SelectPerf s e)) ∧
      EventHandler cfg s .MainEventSelect =
        some (ViewPerformance (LoadPerf s .MainEventSelect))) := by
  have hc := SelectPerf_commit s e he
  have hq := SelectPerf_eq s e
  refine ⟨?_, ?_, ?_⟩
  · intro hf
    rw [hf] at hc
    simp only [Bool.false_eq_true, if_false] at hc
    refine ⟨?_, ?_, ?_, ?_⟩
    · rw [hc]; rfl
    · rw [hc]; rfl
    · simp [LoadPerf, hf]
    · have hf1 : (SelectPerf s e).m_pMiniDexed.PerformanceSelectToLoad = false := by
        rw [hc]; exact hf
      simp [LoadPerf, hf1]
  · intro hf
    rw [hf] at hc
    simp only [if_true] at hc
    have hf1 : (SelectPerf s e).m_pMiniDexed.PerformanceSelectToLoad = true := by
      rw [hc]; exact hf
    refine ⟨?_, ?_, ?_, ?_⟩
    · conv_lhs => rw [hq, hc]
    · rw [hc]
    · simp [LoadPerf, hf1, CMiniDexed.SetNewPerformance]
    · simp only [LoadPerf, hf1, if_true, hc, hf]
  · intro hp hs
    exact ⟨EventHandler_Encoder_SelectPerf cfg s e he hp hs, EventHandler_Select_one cfg s hp hs⟩

/-- C11 at the sample dispatcher, whose subsystem is in auto-load mode, and at the
same dispatcher in select-then-confirm mode. -/
theorem C11_performance_modes_witness :
    (TMainEvent.MainEventStepUp = .MainEventStepDown ∨
      TMainEvent.MainEventStepUp = .MainEventStepUp) ∧
    sampleUIMain.m_pMiniDexed.PerformanceSelectToLoad = false ∧
    (SelectPerf sampleUIMain .MainEventStepUp).m_pMiniDexed.ActualPerformanceID = 1 ∧
    (SelectPerf { sampleUIMain with
        m_pMiniDexed := { sampleMiniDexed with PerformanceSelectToLoad := true } }
      .MainEventStepUp).m_pMiniDexed.ActualPerformanceID = 2 ∧
    (LoadPerf (SelectPerf { sampleUIMain with
        m_pMiniDexed := { sampleMiniDexed with PerformanceSelectToLoad := true } }
      .MainEventStepUp) .MainEventSelect).m_pMiniDexed.ActualPerformanceID = 1 :=
  ⟨Or.inr rfl, rfl,
   ((C11_performance_modes sampleConfig sampleUIMain .MainEventStepUp (Or.inr rfl)).1 rfl).1,
   ((C11_performance_modes sampleConfig
      { sampleUIMain with
        m_pMiniDexed := { sampleMiniDexed with PerformanceSelectToLoad := true } }
      .MainEventStepUp (Or.inr rfl)).2.1 rfl).2.1,
   ((C11_performance_modes sampleConfig
      { sampleUIMain with
        m_pMiniDexed := { sampleMiniDexed with PerformanceSelectToLoad := true } }
      .MainEventStepUp (Or.inr rfl)).2.1 rfl).2.2.1⟩

/-- One call of `SelectPerf`, for any event, keeps the selected slot below the last
slot count, leaves that count as it was and commits nothing but slots below
it. -/
theorem SelectPerf_range (s : CUIMain) (e : TMainEvent)
    (hL : s.m_pMiniDexed.LastPerformance < UINT_RANGE)
    (hs : s.m_nSelectedPerformanceID < s.m_pMiniDexed.LastPerformance) :
    (SelectPerf s e).m_pMiniDexed.LastPerformance = s.m_pMiniDexed.LastPerformance ∧
    (SelectPerf s e).m_nSelectedPerformanceID < s.m_pMiniDexed.LastPerformance ∧
    ∃ writes, (SelectPerf s e).m_pMiniDexed.Calls = s.m_pMiniDexed.Calls ++ writes ∧
      ∀ c ∈ writes, ∃ nID, nID < s.m_pMiniDexed.LastPerformance ∧
        c = TSetCall.SetNewPerformance nID := by
  by_cases he : e = .MainEventStepDown ∨ e = .MainEventStepUp
  · have hc := SelectPerf_commit s e he
    have hv : (SelectPerf s e).m_nSelectedPerformanceID < s.m_pMiniDexed.LastPerformance := by
      rcases he with he | he
      · rw [he, (SelectPerf_StepDown s).1]; omega
      · rw [he, (SelectPerf_StepUp s hL hs).1]; omega
    refine ⟨?_, hv, ?_⟩
    · rw [hc]; split <;> rfl
    · rw [hc]
      by_cases hf : s.m_pMiniDexed.PerformanceSelectToLoad = true
      · simp only [hf, if_true]
        exact ⟨[], by simp, by simp⟩
      · simp only [hf, if_false]
        refine ⟨[TSetCall.SetNewPerformance (SelectPerf s e).m_nSelectedPerformanceID], rfl, ?_⟩
        intro c hcm
        rw [List.mem_singleton] at hcm
        exact ⟨_, hv, hcm⟩
  · have h3 : SelectPerf s e = s := by
      cases e <;> first | rfl | exact absurd (Or.inl rfl) he | exact absurd (Or.inr rfl) he
    rw [h3]
    exact ⟨rfl, hs, [], by simp, by simp⟩

theorem foldl_SelectPerf_range (es : List TMainEvent) :
    ∀ s : CUIMain, s.m_pMiniDexed.LastPerformance < UINT_RANGE →
      s.m_nSelectedPerformanceID < s.m_pMiniDexed.LastPerformance →
      (es.foldl SelectPerf s).m_nSelectedPerformanceID < s.m_pMiniDexed.LastPerformance ∧
      ∃ writes, (es.foldl SelectPerf s).m_pMiniDexed.Calls = s.m_pMiniDexed.Calls ++ writes ∧
        ∀ c ∈ writes, ∃ nID, nID < s.m_pMiniDexed.LastPerformance ∧
          c = TSetCall.SetNewPerformance nID := by
  induction es with
  | nil => intro s _ hs; exact ⟨hs, [], by simp, by simp⟩
  | cons e es ih =>
    intro s hL hs
    obtain ⟨h1, h2, w1, h3, h4⟩ := SelectPerf_range s e hL hs
    obtain ⟨h5, w2, h6, h7⟩ := ih (SelectPerf s e) (by rw [h1]; exact hL) (by rw [h1]; exact h2)
    rw [h1] at h5 h7
    refine ⟨h5, w1 ++ w2, ?_, ?_⟩
    · simp only [List.foldl_cons]
      rw [h6, h3, List.append_assoc]
    · intro c hcm
      rcases List.mem_append.mp hcm with hcm | hcm
      · exact h4 c hcm
      · exact h7 c hcm

/-- C12: with the last-slot count L (an unsigned value) and the selected slot below
L, `SelectPerf` gives max(s-1, 0) on `StepDown` and min(s+1, L-1) on `StepUp`;
under every sequence of calls the selected slot stays below L and every slot
handed to `SetNewPerformance` is below L. -/
theorem C12_SelectPerf_clamp (s : CUIMain)
    (hL : s.m_pMiniDexed.LastPerformance < UINT_RANGE)
    (hs : s.m_nSelectedPerformanceID < s.m_pMiniDexed.LastPerformance) :
    ((SelectPerf s .MainEventStepDown).m_nSelectedPerformanceID : Int) =
      max ((s.m_nSelectedPerformanceID : Int) - 1) 0 ∧
    ((SelectPerf s .MainEventStepUp).m_nSelectedPerformanceID : Int) =
      min ((s.m_nSelectedPerformanceID : Int) + 1)
        ((s.m_pMiniDexed.LastPerformance : Int) - 1) ∧
    (∀ es : List TMainEvent,
      (es.foldl SelectPerf s).m_nSelectedPerformanceID < s.m_pMiniDexed.LastPerformance ∧
      ∃ writes, (es.foldl SelectPerf s).m_pMiniDexed.Calls = s.m_pMiniDexed.Calls ++ writes ∧
        ∀ c ∈ writes, ∃ nID, nID < s.m_pMiniDexed.LastPerformance ∧
          c = TSetCall.SetNewPerformance nID) := by
  rw [(SelectPerf_StepDown s).1, (SelectPerf_StepUp s hL hs).1]
  refine ⟨by omega, by omega, fun es => foldl_SelectPerf_range es s hL hs⟩

/-- C12 at the sample dispatcher with the selected slot on the last of its five
performance slots, where the step up is clamped. -/
theorem C12_SelectPerf_clamp_witness :
    sampleUIMain.m_pMiniDexed.LastPerformance < UINT_RANGE ∧
    ({ sampleUIMain with m_nSelectedPerformanceID := 4 } : CUIMain).m_nSelectedPerformanceID <
      sampleUIMain.m_pMiniDexed.LastPerformance ∧
    ((SelectPerf { sampleUIMain with m_nSelectedPerformanceID := 4 }
        .MainEventStepUp).m_nSelectedPerformanceID : Int) =
      min (((4 : Nat) : Int) + 1) ((sampleUIMain.m_pMiniDexed.LastPerformance : Int) - 1) :=
  ⟨by decide, by decide,
   (C12_SelectPerf_clamp { sampleUIMain with m_nSelectedPerformanceID := 4 }
      (by decide) (by decide)).2.1⟩

/-! ### Writes to the display -/

/-- The handler `ChangeMasterVol` on a press-and-turn, after the volume is set:
the overlay is rendered and, when the renderer gets to its end, the timer is
restarted. -/
theorem ChangeMasterVol_eq (cfg : CConfig) (s : CUIMain) (e : TMainEvent)
    (he : e = .MainEventPressAndStepDown ∨ e = .MainEventPressAndStepUp) :
    ChangeMasterVol cfg s e =
      (if (ViewMasterVolText cfg
          { s with m_pMiniDexed := (ChangeMasterVol cfg s e).m_pMiniDexed }).isSome then
        { ViewMasterVol cfg { s with m_pMiniDexed := (ChangeMasterVol cfg s e).m_pMiniDexed } with
          m_TimerHandle :=
            ((if s.m_TimerHandle ≠ 0 then s.Timer.CancelKernelTimer s.m_TimerHandle
              else s.Timer).StartKernelTimer (MSEC2HZ 1500)).1
          Timer :=
            ((if s.m_TimerHandle ≠ 0 then s.Timer.CancelKernelTimer s.m_TimerHandle
              else s.Timer).StartKernelTimer (MSEC2HZ 1500)).2 }
       else ViewMasterVol cfg { s with m_pMiniDexed := (ChangeMasterVol cfg s e).m_pMiniDexed }) := by
  rcases he with he | he
  · subst he
    rw [ChangeMasterVol_m_pMiniDexed]
    simp only [if_true]
    rfl
  · subst he
    rw [ChangeMasterVol_m_pMiniDexed]
    simp only [reduceCtorEq, if_false, if_true]
    rfl

/-- What a volume step does besides setting the volume. When the overlay's text is
built for the new volume, the display receives the overlay's write, a timer
named by `m_TimerHandle` is cancelled and a fresh one is started, due 1500 ms
from now. When it is not built, the statements after the call of
`ViewMasterVol` are not reached: nothing is written and the timer is left as
it was. -/
theorem ChangeMasterVol_effect (cfg : CConfig) (s : CUIMain) (e : TMainEvent)
    (he : e = .MainEventPressAndStepDown ∨ e = .MainEventPressAndStepUp) :
    ((ViewMasterVolText cfg
        { s with m_pMiniDexed := (ChangeMasterVol cfg s e).m_pMiniDexed }).isSome = true →
      (ChangeMasterVol cfg s e).m_pUI = s.m_pUI.DisplayWriteMain .ViewMasterVol ∧
      (ChangeMasterVol cfg s e).m_TimerHandle =
        ((if s.m_TimerHandle ≠ 0 then s.Timer.CancelKernelTimer s.m_TimerHandle
          else s.Timer).StartKernelTimer (MSEC2HZ 1500)).1 ∧
      (ChangeMasterVol cfg s e).Timer =
        ((if s.m_TimerHandle ≠ 0 then s.Timer.CancelKernelTimer s.m_TimerHandle
          else s.Timer).StartKernelTimer (MSEC2HZ 1500)).2) ∧
    ((ViewMasterVolText cfg
        { s with m_pMiniDexed := (ChangeMasterVol cfg s e).m_pMiniDexed }).isSome = false →
      (ChangeMasterVol cfg s e).m_pUI = s.m_pUI ∧
      (ChangeMasterVol cfg s e).m_TimerHandle = s.m_TimerHandle ∧
      (ChangeMasterVol cfg s e).Timer = s.Timer) := by
  have hE := ChangeMasterVol_eq cfg s e he
  generalize (ChangeMasterVol cfg s e).m_pMiniDexed = m at hE ⊢
  constructor
  · intro h
    obtain ⟨T, hT⟩ := Option.isSome_iff_exists.mp h
    rw [hE, if_pos h]
    simp only [ViewMasterVol, hT, true_and]
  · intro h
    have hN : ViewMasterVolText cfg { s with m_pMiniDexed := m } = none := by
      cases hT : ViewMasterVolText cfg { s with m_pMiniDexed := m } with
      | none => rfl
      | some T => rw [hT] at h; cases h
    rw [hE, if_neg (by rw [h]; decide)]
    simp only [ViewMasterVol, hN, true_and]

theorem ChangeMasterVol_Written (cfg : CConfig) (s : CUIMain) (e : TMainEvent)
    (he : e = .MainEventPressAndStepDown ∨ e = .MainEventPressAndStepUp) :
    (ChangeMasterVol cfg s e).m_pUI.Written =
      s.m_pUI.Written ++
        (if (ViewMasterVolText cfg
            { s with m_pMiniDexed := (ChangeMasterVol cfg s e).m_pMiniDexed }).isSome then
          [.ViewMasterVol]
         else []) := by
  obtain ⟨h1, h2⟩ := ChangeMasterVol_effect cfg s e he
  cases hT : (ViewMasterVolText cfg
      { s with m_pMiniDexed := (ChangeMasterVol cfg s e).m_pMiniDexed }).isSome with
  | true =>
    rw [(h1 hT).1]
    simp [CUserInterface.DisplayWriteMain]
  | false =>
    rw [(h2 hT).1]
    simp

/-- The press-and-turn handler of the current item is the volume handler exactly
on the bank/voice and performance pages. -/
theorem currentItem_PressAndTurnHandler (s : CUIMain) (hv : Valid s) :
    ∃ Item, currentItem s = some Item ∧
      (Item.PressAndTurnHandler = some .ChangeMasterVol ↔ s.m_nCurrentMainScreen ≠ 2) := by
  rcases Valid.cases s hv with ⟨h1, h2⟩ | ⟨h1, h2⟩ | ⟨h1, h2⟩
  · have h3 : s.m_nCurrentSelection = 0 ∨ s.m_nCurrentSelection = 1 ∨
        s.m_nCurrentSelection = 2 := by omega
    rcases h3 with h3 | h3 | h3
    · exact ⟨_, currentItem_zero_zero s h1 h3, by simp [h1]⟩
    · exact ⟨_, currentItem_zero_one s h1 h3, by simp [h1]⟩
    · exact ⟨_, currentItem_zero_two s h1 h3, by simp [h1]⟩
  · exact ⟨_, currentItem_one s h1 h2, by simp [h1]⟩
  · exact ⟨_, currentItem_two s h1 h2, by simp [h1]⟩

/-- From a state with valid table indices, an event that does not reach the volume
handler ends in the call of the renderer of the page that is then current,
made on a state in which nothing has been written to the display yet. -/
theorem EventHandler_render (cfg : CConfig) (s : CUIMain) (e : TMainEvent) (hv : Valid s)
    (hne : ¬((e = .MainEventPressAndStepDown ∨ e = .MainEventPressAndStepUp) ∧
      s.m_nCurrentMainScreen ≠ 2)) :
    ∃ s0 Screen Page, EventHandler cfg s e = some (callScreen cfg Screen s0) ∧
      s0.m_pUI = s.m_pUI ∧
      s_MainScreens[s0.m_nCurrentMainScreen]? = some Page ∧
      Page.ScreenHandler = some Screen := by
  have hc := Valid.cases s hv
  have look0 : ∀ x : CUIMain, x.m_nCurrentMainScreen = 0 →
      ∃ Page, s_MainScreens[x.m_nCurrentMainScreen]? = some Page ∧
        Page.ScreenHandler = some .ViewBankVoice := by
    intro x hx; rw [hx]; exact ⟨_, rfl, rfl⟩
  have look1 : ∀ x : CUIMain, x.m_nCurrentMainScreen = 1 →
      ∃ Page, s_MainScreens[x.m_nCurrentMainScreen]? = some Page ∧
        Page.ScreenHandler = some .ViewPerformance := by
    intro x hx; rw [hx]; exact ⟨_, rfl, rfl⟩
  have look2 : ∀ x : CUIMain, x.m_nCurrentMainScreen = 2 →
      ∃ Page, s_MainScreens[x.m_nCurrentMainScreen]? = some Page ∧
        Page.ScreenHandler = some .ViewTGGroupMute := by
    intro x hx; rw [hx]; exact ⟨_, rfl, rfl⟩
  obtain ⟨s1, h1, hcase⟩ := EventHandler_cases cfg s e hv
  rcases hcase with ⟨_, Screen, h3⟩ | ⟨_, hp, h3⟩ | ⟨_, hp, h3⟩ | ⟨_, hp, h3⟩ |
    ⟨_, hp, _, h3⟩ | ⟨_, hp, _, h3⟩ | ⟨_, hp, _, h3⟩ | ⟨_, hp, h3⟩ | ⟨_, hp, h3⟩ |
    ⟨he, hp, h3⟩ | ⟨_, hp, h3⟩ | ⟨hother, Screen, h3⟩
  · -- NextScreen
    have hp3 : s.m_nCurrentMainScreen = 0 ∨ s.m_nCurrentMainScreen = 1 ∨
        s.m_nCurrentMainScreen = 2 := by
      rcases hc with ⟨h, _⟩ | ⟨h, _⟩ | ⟨h, _⟩ <;> omega
    subst ‹e = TMainEvent.MainEventNextScreen›
    have hE := EventHandler_NextScreen cfg s (by omega)
    rcases hp3 with hp | hp | hp
    · simp only [hp] at hE
      exact ⟨_, _, _, hE, rfl, rfl, rfl⟩
    · simp only [hp] at hE
      exact ⟨_, _, _, hE, rfl, rfl, rfl⟩
    · simp only [hp] at hE
      exact ⟨_, _, _, hE, rfl, rfl, rfl⟩
  · obtain ⟨Page, hP1, hP2⟩ := look0 { s with m_nCurrentSelection :=
      if s.m_nCurrentSelection + 1 = 3 then 0 else s.m_nCurrentSelection + 1 } hp
    exact ⟨{ s with m_nCurrentSelection :=
      if s.m_nCurrentSelection + 1 = 3 then 0 else s.m_nCurrentSelection + 1 }, _, Page,
      by rw [h1, h3]; rfl, rfl, hP1, hP2⟩
  · obtain ⟨m, hf⟩ := LoadPerf_fields s e
    obtain ⟨Page, hP1, hP2⟩ := look1 (LoadPerf s e) (by rw [hf]; exact hp)
    exact ⟨LoadPerf s e, _, Page, by rw [h1, h3]; rfl, by rw [hf], hP1, hP2⟩
  · obtain ⟨m, hf⟩ := MuteUnmuteTG_fields s e
    obtain ⟨Page, hP1, hP2⟩ := look2 (MuteUnmuteTG s e) (by rw [hf]; exact hp)
    exact ⟨MuteUnmuteTG s e, _, Page, by rw [h1, h3]; rfl, by rw [hf], hP1, hP2⟩
  · obtain ⟨m, hf⟩ := ChangeTG_fields cfg s e
    obtain ⟨Page, hP1, hP2⟩ := look0 (ChangeTG cfg s e) (by rw [hf]; exact hp)
    exact ⟨ChangeTG cfg s e, _, Page, by rw [h1, h3]; rfl, by rw [hf], hP1, hP2⟩
  · obtain ⟨m, hf⟩ := ChangeBank_fields cfg s e
    obtain ⟨Page, hP1, hP2⟩ := look0 (ChangeBank cfg s e) (by rw [hf]; exact hp)
    exact ⟨ChangeBank cfg s e, _, Page, by rw [h1, h3]; rfl, by rw [hf], hP1, hP2⟩
  · obtain ⟨m, hf⟩ := ChangeVoice_fields cfg s e
    obtain ⟨Page, hP1, hP2⟩ := look0 (ChangeVoice cfg s e) (by rw [hf]; exact hp)
    exact ⟨ChangeVoice cfg s e, _, Page, by rw [h1, h3]; rfl, by rw [hf], hP1, hP2⟩
  · obtain ⟨m, v, hf⟩ := SelectPerf_fields s e
    obtain ⟨Page, hP1, hP2⟩ := look1 (SelectPerf s e) (by rw [hf]; exact hp)
    exact ⟨SelectPerf s e, _, Page, by rw [h1, h3]; rfl, by rw [hf], hP1, hP2⟩
  · obtain ⟨m, hf⟩ := SelectTG_fields cfg s e
    obtain ⟨Page, hP1, hP2⟩ := look2 (SelectTG cfg s e) (by rw [hf]; exact hp)
    exact ⟨SelectTG cfg s e, _, Page, by rw [h1, h3]; rfl, by rw [hf], hP1, hP2⟩
  · exact absurd ⟨he, hp⟩ hne
  · obtain ⟨m, hf⟩ := EditGroup_fields s e
    obtain ⟨Page, hP1, hP2⟩ := look2 (EditGroup s e) (by rw [hf]; exact hp)
    exact ⟨EditGroup s e, _, Page, by rw [h1, h3]; rfl, by rw [hf], hP1, hP2⟩
  · -- render only
    have hd : EventHandler cfg s e = displayScreen cfg s := EventHandler_other cfg s e hother
    rcases hc with ⟨hp, _⟩ | ⟨hp, _⟩ | ⟨hp, _⟩
    · obtain ⟨Page, hP1, hP2⟩ := look0 s hp
      exact ⟨s, _, Page, by rw [hd, displayScreen_zero cfg s hp]; rfl, rfl, hP1, hP2⟩
    · obtain ⟨Page, hP1, hP2⟩ := look1 s hp
      exact ⟨s, _, Page, by rw [hd, displayScreen_one cfg s hp]; rfl, rfl, hP1, hP2⟩
    · obtain ⟨Page, hP1, hP2⟩ := look2 s hp
      exact ⟨s, _, Page, by rw [hd, displayScreen_two cfg s hp]; rfl, rfl, hP1, hP2⟩

/-- From a state with valid table indices every event is handled and the display
receives at most one write: that of one renderer `Screen`, called on a state
`s0` to which nothing had been written, and only when that renderer builds its
text. When the event is a press-and-turn and the current item's press-and-turn
handler is `ChangeMasterVol`, which is so on the bank/voice and performance
pages and only there, the result is what `ChangeMasterVol` returns and the
renderer is the volume overlay's, called after the volume is set; in every
other case the renderer is that of the page then current, called last. -/
theorem EventHandler_display_writes (cfg : CConfig) (s : CUIMain) (hv : Valid s)
    (e : TMainEvent) :
    ∃ s1 s0 Screen Item, EventHandler cfg s e = some s1 ∧
      s0.m_pUI = s.m_pUI ∧
      s1.m_pUI.Written =
        s.m_pUI.Written ++ (if (ScreenText cfg Screen s0).isSome then [Screen] else []) ∧
      currentItem s = some Item ∧
      (Item.PressAndTurnHandler = some .ChangeMasterVol ↔ s.m_nCurrentMainScreen ≠ 2) ∧
      ((e = .MainEventPressAndStepDown ∨ e = .MainEventPressAndStepUp) ∧
          Item.PressAndTurnHandler = some .ChangeMasterVol →
        Screen = .ViewMasterVol ∧ s1 = ChangeMasterVol cfg s e ∧
        s0 = { s with m_pMiniDexed := s1.m_pMiniDexed }) ∧
      (¬((e = .MainEventPressAndStepDown ∨ e = .MainEventPressAndStepUp) ∧
          Item.PressAndTurnHandler = some .ChangeMasterVol) →
        ∃ Page, s1 = callScreen cfg Screen s0 ∧
          s_MainScreens[s1.m_nCurrentMainScreen]? = some Page ∧
          Page.ScreenHandler = some Screen) := by
  obtain ⟨Item, hI, hiff⟩ := currentItem_PressAndTurnHandler s hv
  by_cases hvol : (e = .MainEventPressAndStepDown ∨ e = .MainEventPressAndStepUp) ∧
      s.m_nCurrentMainScreen ≠ 2
  · have hE := EventHandler_PressAndTurn_ChangeMasterVol cfg s e hvol.1 hv hvol.2
    refine ⟨_, { s with m_pMiniDexed := (ChangeMasterVol cfg s e).m_pMiniDexed },
      .ViewMasterVol, Item, hE, rfl, ChangeMasterVol_Written cfg s e hvol.1, hI, hiff, ?_, ?_⟩
    · intro _; exact ⟨rfl, rfl, rfl⟩
    · intro hn; exact absurd ⟨hvol.1, hiff.mpr hvol.2⟩ hn
  · obtain ⟨s0, Screen, Page, hE, h0, hP1, hP2⟩ := EventHandler_render cfg s e hv hvol
    refine ⟨_, s0, Screen, Item, hE, h0, ?_, hI, hiff, ?_, ?_⟩
    · rw [callScreen_Written, h0]
    · intro hn; exact absurd ⟨hn.1, hiff.mp hn.2⟩ hvol
    · intro _
      exact ⟨Page, rfl, by rw [callScreen_m_nCurrentMainScreen]; exact hP1, hP2⟩

/-- Claim C13, the failing input. After `Select` and `StepUp` the sample dispatcher
is on the bank/voice page with the bank item selected and tone generator 0 on
bank 2; two events have given two writes. The next `StepUp` is handled by
`ChangeBank`, which moves tone generator 0 to bank 3, whose name has eleven
characters, and the renderer of the page, `ViewBankVoice`, then builds no
text: this event adds no write to the display. -/
theorem C13_display_write_missing :
    ∃ s s1,
      handleEvents sampleConfig sampleUIMain [.MainEventSelect, .MainEventStepUp] = some s ∧
      s.m_nCurrentMainScreen = 0 ∧ s.m_nCurrentSelection = 1 ∧
      s.m_pUI.Written = [.ViewBankVoice, .ViewBankVoice] ∧
      EventHandler sampleConfig s .MainEventStepUp = some s1 ∧
      s1 = ViewBankVoice (ChangeBank sampleConfig s .MainEventStepUp) ∧
      s1.m_pMiniDexed.GetTGParameter .TGParameterVoiceBank s1.m_nCurrentTG = 3 ∧
      ViewBankVoiceText (ChangeBank sampleConfig s .MainEventStepUp) = none ∧
      s1.m_pUI.Written = s.m_pUI.Written :=
  ⟨_, _, rfl, rfl, rfl, rfl, rfl, rfl, rfl, rfl, rfl⟩

/-- From a state with valid table indices the `Update` event is handled; no handler
runs, the renderer of the current page is called, and the state afterwards is
the state before but for the display, which has one more write, that of this
renderer, when it builds its text and none otherwise. -/
theorem EventHandler_Update (cfg : CConfig) (s : CUIMain) (hv : Valid s) :
    ∃ Page Screen, s_MainScreens[s.m_nCurrentMainScreen]? = some Page ∧
      Page.ScreenHandler = some Screen ∧
      EventHandler cfg s .MainEventUpdate = some (callScreen cfg Screen s) ∧
      callScreen cfg Screen s = { s with m_pUI := (callScreen cfg Screen s).m_pUI } ∧
      (callScreen cfg Screen s).m_pUI.Written =
        s.m_pUI.Written ++ (if (ScreenText cfg Screen s).isSome then [Screen] else []) := by
  rw [EventHandler_other cfg s _ (Or.inl rfl)]
  rcases Valid.cases s hv with ⟨hp, _⟩ | ⟨hp, _⟩ | ⟨hp, _⟩
  · exact ⟨⟨some .ViewBankVoice, s_BankVoiceFunctions⟩, .ViewBankVoice, by rw [hp]; rfl, rfl,
      displayScreen_zero cfg s hp, callScreen_fields cfg _ s, callScreen_Written cfg _ s⟩
  · exact ⟨⟨some .ViewPerformance, s_PerformanceFunctions⟩, .ViewPerformance, by rw [hp]; rfl,
      rfl, displayScreen_one cfg s hp, callScreen_fields cfg _ s, callScreen_Written cfg _ s⟩
  · exact ⟨⟨some .ViewTGGroupMute, s_GroupsMuteFunctions⟩, .ViewTGGroupMute, by rw [hp]; rfl,
      rfl, displayScreen_two cfg s hp, callScreen_fields cfg _ s, callScreen_Written cfg _ s⟩

/-- Claim C16, the failing input. After `Select`, `StepUp`, `StepUp` the sample
dispatcher is on the bank/voice page with tone generator 0 on bank 3, whose
name has eleven characters. The `Update` event is handled there and changes
nothing at all: no handler runs, but `ViewBankVoice` builds no text, so the
display receives no write and the page is not rendered. -/
theorem C16_Update_render_fails :
    ∃ s,
      handleEvents sampleConfig sampleUIMain
        [.MainEventSelect, .MainEventStepUp, .MainEventStepUp] = some s ∧
      s.m_nCurrentMainScreen = 0 ∧
      s.m_pMiniDexed.GetTGParameter .TGParameterVoiceBank s.m_nCurrentTG = 3 ∧
      ViewBankVoiceText s = none ∧
      EventHandler sampleConfig s .MainEventUpdate = some (ViewBankVoice s) ∧
      (ViewBankVoice s).m_pUI.Written = s.m_pUI.Written :=
  ⟨_, rfl, rfl, rfl, rfl, rfl, rfl⟩

/-! ### Mute toggle -/

/-- C17: `MuteUnmuteTG` writes the enable flag of the selected tone generator, 0
when it was non-zero and 1 when it was 0, by one `SetTGParameter` call; every
other parameter of every tone generator and every field of the dispatcher
stay as they were; when the flag was 0 or 1, two calls restore every
parameter. On the group/mute page the dispatcher gives `Select` to this
handler and renders the page after it. -/
theorem C17_MuteUnmuteTG_toggle (cfg : CConfig) (s : CUIMain) (e : TMainEvent)
    (hp : s.m_nCurrentMainScreen = 2) (hs : s.m_nCurrentSelection = 0) :
    EventHandler cfg s .MainEventSelect =
      some (ViewTGGroupMute cfg (MuteUnmuteTG s .MainEventSelect)) ∧
    (MuteUnmuteTG s e).m_pMiniDexed.GetTGParameter .TGParameterTGEnable s.m_nSelectedTG =
      (if s.m_pMiniDexed.GetTGParameter .TGParameterTGEnable s.m_nSelectedTG ≠ 0 then 0
       else 1) ∧
    (∀ P n, ¬(P = TTGParameter.TGParameterTGEnable ∧ n = s.m_nSelectedTG) →
      (MuteUnmuteTG s e).m_pMiniDexed.GetTGParameter P n =
        s.m_pMiniDexed.GetTGParameter P n) ∧
    (MuteUnmuteTG s e).m_pMiniDexed.Calls =
      s.m_pMiniDexed.Calls ++
        [TSetCall.SetTGParameter .TGParameterTGEnable
          (if s.m_pMiniDexed.GetTGParameter .TGParameterTGEnable s.m_nSelectedTG ≠ 0 then 0
           else 1) s.m_nSelectedTG] ∧
    MuteUnmuteTG s e = { s with m_pMiniDexed := (MuteUnmuteTG s e).m_pMiniDexed } ∧
    (s.m_pMiniDexed.GetTGParameter .TGParameterTGEnable s.m_nSelectedTG = 0 ∨
      s.m_pMiniDexed.GetTGParameter .TGParameterTGEnable s.m_nSelectedTG = 1 →
      ∀ P n, (MuteUnmuteTG (MuteUnmuteTG s e) e).m_pMiniDexed.GetTGParameter P n =
        s.m_pMiniDexed.GetTGParameter P n) := by
  have hval : ∀ x : CUIMain, (MuteUnmuteTG x e).m_pMiniDexed =
      x.m_pMiniDexed.SetTGParameter .TGParameterTGEnable
        (if x.m_pMiniDexed.GetTGParameter .TGParameterTGEnable x.m_nSelectedTG ≠ 0 then 0
         else 1) x.m_nSelectedTG := by
    intro x
    simp only [MuteUnmuteTG]
    split <;> rfl
  refine ⟨EventHandler_Select_two cfg s hp hs, ?_, ?_, ?_, rfl, ?_⟩
  · rw [hval, GetTGParameter_SetTGParameter]; simp
  · intro P n hne
    rw [hval, GetTGParameter_SetTGParameter, if_neg hne]
  · rw [hval]; rfl
  · intro h01 P n
    rw [hval (MuteUnmuteTG s e)]
    have hsel : (MuteUnmuteTG s e).m_nSelectedTG = s.m_nSelectedTG := rfl
    rw [hsel, hval s]
    simp only [GetTGParameter_SetTGParameter]
    by_cases hPn : P = TTGParameter.TGParameterTGEnable ∧ n = s.m_nSelectedTG
    · obtain ⟨hP, hn⟩ := hPn
      subst hP hn
      rcases h01 with h0 | h1
      · simp [h0]
      · simp [h1]
    · simp [hPn]

/-- C17 at the sample dispatcher moved to the group/mute page: tone generator 0 is
enabled and gets muted. -/
theorem C17_MuteUnmuteTG_toggle_witness :
    ({ sampleUIMain with m_nCurrentMainScreen := 2 } : CUIMain).m_nCurrentMainScreen = 2 ∧
    ({ sampleUIMain with m_nCurrentMainScreen := 2 } : CUIMain).m_nCurrentSelection = 0 ∧
    (MuteUnmuteTG { sampleUIMain with m_nCurrentMainScreen := 2 }
      .MainEventSelect).m_pMiniDexed.GetTGParameter .TGParameterTGEnable 0 = 0 :=
  ⟨rfl, rfl,
   (C17_MuteUnmuteTG_toggle sampleConfig { sampleUIMain with m_nCurrentMainScreen := 2 }
      .MainEventSelect rfl rfl).2.1⟩

/-! ### The overlay timer -/

/-- The callback `TimerHandler` calls the renderer of the current page and nothing
else: it changes nothing but the display, and in particular it leaves
`m_TimerHandle` as it was. -/
theorem TimerHandler_fields (cfg : CConfig) (hTimer : Nat) (s : CUIMain) (hv : Valid s) :
    ∃ Page Screen, s_MainScreens[s.m_nCurrentMainScreen]? = some Page ∧
      Page.ScreenHandler = some Screen ∧
      TimerHandler cfg hTimer s = some (callScreen cfg Screen s) := by
  unfold TimerHandler
  obtain ⟨Page, Screen, h1, h2, h3, _⟩ := EventHandler_Update cfg s hv
  exact ⟨Page, Screen, h1, h2, h3⟩

/-- C14: the code at the failing input. The sample dispatcher takes a volume step,
which starts timer 1, due at tick 150; at tick 150 the timer expires and
`TimerHandler` runs; afterwards no timer is outstanding, yet `m_TimerHandle`
is still 1, and the next volume step calls `CancelKernelTimer` with the
handle 1 of the timer that has already elapsed. -/
theorem C14_TimerHandle_not_cleared :
    ∃ s1 s2 s3,
      EventHandler sampleConfig sampleUIMain .MainEventPressAndStepUp = some s1 ∧
      s1.m_TimerHandle = 1 ∧ s1.Timer.KernelTimers = [(1, 150)] ∧
      expireKernelTimer sampleConfig (elapse 150 s1) 1 = some s2 ∧
      s2.Timer.KernelTimers = [] ∧ s2.m_TimerHandle = 1 ∧
      EventHandler sampleConfig s2 .MainEventPressAndStepUp = some s3 ∧
      s3.Timer.Cancelled = [1] :=
  ⟨_, _, _, rfl, rfl, rfl, rfl, rfl, rfl, rfl, rfl⟩

theorem elapse_Valid (nTicks : Nat) (s : CUIMain) (hv : Valid s) : Valid (elapse nTicks s) := hv

theorem callScreen_Valid (cfg : CConfig) (Screen : TMainScreen) (s : CUIMain) (hv : Valid s) :
    Valid (callScreen cfg Screen s) := by
  unfold Valid
  rw [callScreen_m_nCurrentMainScreen, callScreen_m_nCurrentSelection]
  exact hv

/-- What the expiry of a timer does, from a state with valid table indices: the
timer was outstanding and due, it is taken off the list, and the renderer of
the page then current is called; nothing else changes. -/
theorem expireKernelTimer_fields (cfg : CConfig) (s s1 : CUIMain) (hTimer : Nat)
    (hv : Valid s) (h : expireKernelTimer cfg s hTimer = some s1) :
    (∃ nExpiry, (hTimer, nExpiry) ∈ s.Timer.KernelTimers ∧ nExpiry ≤ s.Timer.Ticks) ∧
    ∃ Page Screen, s_MainScreens[s.m_nCurrentMainScreen]? = some Page ∧
      Page.ScreenHandler = some Screen ∧
      s1 = callScreen cfg Screen { s with
        Timer := { s.Timer with
          KernelTimers := s.Timer.KernelTimers.filter (fun e => e.1 ≠ hTimer) } } := by
  unfold expireKernelTimer at h
  by_cases hany : s.Timer.KernelTimers.any (fun e => e.1 = hTimer ∧ e.2 ≤ s.Timer.Ticks) = true
  · rw [if_pos hany] at h
    refine ⟨?_, ?_⟩
    · rw [List.any_eq_true] at hany
      obtain ⟨⟨a, b⟩, hm, hab⟩ := hany
      simp only [decide_eq_true_eq] at hab
      exact ⟨b, by rw [← hab.1]; exact hm, hab.2⟩
    · obtain ⟨Page, Screen, h1, h2, h3⟩ := TimerHandler_fields cfg hTimer
        { s with Timer := { s.Timer with
            KernelTimers := s.Timer.KernelTimers.filter (fun e => e.1 ≠ hTimer) } } hv
      rw [h3] at h
      cases h
      exact ⟨Page, Screen, h1, h2, rfl⟩
  · rw [if_neg hany] at h
    cases h

theorem ReachableTimed.indices_valid (cfg : CConfig) (s : CUIMain) (h : ReachableTimed cfg s) :
    Valid s := by
  induction h with
  | init pUI pMiniDexed nTicks nLastHandle Cancelled => exact Valid.init _ _ _
  | event s s1 e _ hs ih =>
    obtain ⟨s2, h1, h2⟩ := EventHandler_valid cfg s e ih
    rw [hs] at h1
    cases h1
    exact h2
  | tick s nTicks _ ih => exact ih
  | expiry s s1 hTimer _ hs ih =>
    obtain ⟨_, Page, Screen, _, _, h3⟩ := expireKernelTimer_fields cfg s s1 hTimer ih hs
    rw [h3]
    exact callScreen_Valid cfg Screen _ ih

/-- After a volume step whose overlay is rendered, from a state in which at most the
timer named by `m_TimerHandle` is outstanding, exactly one timer is
outstanding: the new one, due 1500 ms after the step. -/
theorem ChangeMasterVol_OverlayTimer (cfg : CConfig) (s : CUIMain) (e : TMainEvent)
    (he : e = .MainEventPressAndStepDown ∨ e = .MainEventPressAndStepUp)
    (hi : OverlayTimerInv s)
    (hT : (ViewMasterVolText cfg
      { s with m_pMiniDexed := (ChangeMasterVol cfg s e).m_pMiniDexed }).isSome = true) :
    (ChangeMasterVol cfg s e).m_TimerHandle ≠ 0 ∧
    (ChangeMasterVol cfg s e).Timer.KernelTimers =
      [((ChangeMasterVol cfg s e).m_TimerHandle, s.Timer.Ticks + MSEC2HZ 1500)] ∧
    (ChangeMasterVol cfg s e).Timer.Ticks = s.Timer.Ticks := by
  obtain ⟨_, h1, h2⟩ := (ChangeMasterVol_effect cfg s e he).1 hT
  rw [h1, h2]
  rcases hi with hi | ⟨hne, x, hi⟩
  · by_cases h0 : s.m_TimerHandle ≠ 0
    · simp [h0, CTimer.StartKernelTimer, CTimer.CancelKernelTimer, hi]
    · simp [h0, CTimer.StartKernelTimer, hi]
  · simp [hne, CTimer.StartKernelTimer, CTimer.CancelKernelTimer, hi]

/-- A volume step keeps the overlay timer bookkeeping intact, whether the overlay is
rendered or not. -/
theorem ChangeMasterVol_OverlayTimerInv (cfg : CConfig) (s : CUIMain) (e : TMainEvent)
    (he : e = .MainEventPressAndStepDown ∨ e = .MainEventPressAndStepUp)
    (hi : OverlayTimerInv s) : OverlayTimerInv (ChangeMasterVol cfg s e) := by
  cases hT : (ViewMasterVolText cfg
      { s with m_pMiniDexed := (ChangeMasterVol cfg s e).m_pMiniDexed }).isSome with
  | true =>
    obtain ⟨h1, h2, _⟩ := ChangeMasterVol_OverlayTimer cfg s e he hi hT
    exact Or.inr ⟨h1, _, h2⟩
  | false =>
    obtain ⟨_, h1, h2⟩ := (ChangeMasterVol_effect cfg s e he).2 hT
    unfold OverlayTimerInv
    rw [h1, h2]
    exact hi

/-- One dispatched event keeps the overlay timer bookkeeping intact. -/
theorem EventHandler_OverlayTimerInv (cfg : CConfig) (s s1 : CUIMain) (e : TMainEvent)
    (hv : Valid s) (hi : OverlayTimerInv s) (h : EventHandler cfg s e = some s1) :
    OverlayTimerInv s1 := by
  by_cases hvol : (e = .MainEventPressAndStepDown ∨ e = .MainEventPressAndStepUp) ∧
      s.m_nCurrentMainScreen ≠ 2
  · rw [EventHandler_PressAndTurn_ChangeMasterVol cfg s e hvol.1 hv hvol.2] at h
    cases h
    exact ChangeMasterVol_OverlayTimerInv cfg s e hvol.1 hi
  · have keep : ∀ x : CUIMain, x.Timer = s.Timer → x.m_TimerHandle = s.m_TimerHandle →
        OverlayTimerInv x := by
      intro x hx1 hx2
      unfold OverlayTimerInv
      rw [hx1, hx2]
      exact hi
    obtain ⟨s2, h2, hcase⟩ := EventHandler_cases cfg s e hv
    rw [h] at h2
    cases h2
    rcases hcase with ⟨_, Screen, h3⟩ | ⟨_, hp, h3⟩ | ⟨_, hp, h3⟩ | ⟨_, hp, h3⟩ |
      ⟨_, hp, _, h3⟩ | ⟨_, hp, _, h3⟩ | ⟨_, hp, _, h3⟩ | ⟨_, hp, h3⟩ | ⟨_, hp, h3⟩ |
      ⟨he, hp, h3⟩ | ⟨_, hp, h3⟩ | ⟨_, Screen, h3⟩
    · rw [h3, callScreen_fields]; exact keep _ rfl rfl
    · rw [h3, ViewBankVoice_fields]; exact keep _ rfl rfl
    · obtain ⟨m, hf⟩ := LoadPerf_fields s e
      rw [h3, ViewPerformance_fields, hf]; exact keep _ rfl rfl
    · rw [h3, ViewTGGroupMute_fields]; exact keep _ rfl rfl
    · obtain ⟨m, hf⟩ := ChangeTG_fields cfg s e
      rw [h3, ViewBankVoice_fields, hf]; exact keep _ rfl rfl
    · obtain ⟨m, hf⟩ := ChangeBank_fields cfg s e
      rw [h3, ViewBankVoice_fields, hf]; exact keep _ rfl rfl
    · obtain ⟨m, hf⟩ := ChangeVoice_fields cfg s e
      rw [h3, ViewBankVoice_fields, hf]; exact keep _ rfl rfl
    · obtain ⟨m, v, hf⟩ := SelectPerf_fields s e
      rw [h3, ViewPerformance_fields, hf]; exact keep _ rfl rfl
    · obtain ⟨m, hf⟩ := SelectTG_fields cfg s e
      rw [h3, ViewTGGroupMute_fields, hf]; exact keep _ rfl rfl
    · exact absurd ⟨he, hp⟩ hvol
    · obtain ⟨m, hf⟩ := EditGroup_fields s e
      rw [h3, ViewTGGroupMute_fields, hf]; exact keep _ rfl rfl
    · rw [h3, callScreen_fields]; exact keep _ rfl rfl

theorem ReachableTimed.overlayTimer (cfg : CConfig) (s : CUIMain)
    (h : ReachableTimed cfg s) : OverlayTimerInv s := by
  induction h with
  | init pUI pMiniDexed nTicks nLastHandle Cancelled => exact Or.inl rfl
  | event s s1 e hr hs ih =>
    exact EventHandler_OverlayTimerInv cfg s s1 e (ReachableTimed.indices_valid cfg s hr) ih hs
  | tick s nTicks _ ih => exact ih
  | expiry s s1 hTimer hr hs ih =>
    obtain ⟨_, Page, Screen, _, _, h3⟩ :=
      expireKernelTimer_fields cfg s s1 hTimer (ReachableTimed.indices_valid cfg s hr) hs
    rw [h3, callScreen_fields]
    rcases ih with hi | ⟨hne, x, hi⟩
    · exact Or.inl (by simp [hi])
    · by_cases hh : s.m_TimerHandle = hTimer
      · exact Or.inl (by simp [hi, hh])
      · exact Or.inr ⟨hne, x, by simp [hi, hh]⟩

/-- With the timer facility an explicit list of outstanding (handle, expiry)
timers and time counted in ticks of 1/HZ seconds: in every state reachable by
events, passing time and timer expiries at most one timer is outstanding and
it is the one `m_TimerHandle` names; right after a volume step (a
press-and-turn on the bank/voice or performance page) whose overlay is
rendered exactly one is outstanding, due `MSEC2HZ 1500` ticks, that is
1500 ms, after the time of that step, whatever was outstanding before; and
when a timer expires the dispatcher ends with no timer outstanding, having
called the renderer of the current page, which is never the volume overlay and
which writes to the display once when it builds its text and not at all
otherwise. -/
theorem ReachableTimed.overlay (cfg : CConfig) (s : CUIMain) (h : ReachableTimed cfg s) :
    s.Timer.KernelTimers.length ≤ 1 ∧
    (∀ entry ∈ s.Timer.KernelTimers, entry.1 = s.m_TimerHandle) ∧
    (∀ e : TMainEvent, e = .MainEventPressAndStepDown ∨ e = .MainEventPressAndStepUp →
      s.m_nCurrentMainScreen ≠ 2 →
      EventHandler cfg s e = some (ChangeMasterVol cfg s e) ∧
      ((ViewMasterVolText cfg
          { s with m_pMiniDexed := (ChangeMasterVol cfg s e).m_pMiniDexed }).isSome = true →
        (ChangeMasterVol cfg s e).Timer.KernelTimers =
          [((ChangeMasterVol cfg s e).m_TimerHandle, s.Timer.Ticks + MSEC2HZ 1500)] ∧
        (ChangeMasterVol cfg s e).Timer.Ticks = s.Timer.Ticks)) ∧
    MSEC2HZ 1500 * 1000 = 1500 * HZ ∧
    (∀ (hTimer : Nat) (s1 : CUIMain), expireKernelTimer cfg s hTimer = some s1 →
      (∃ nExpiry, s.Timer.KernelTimers = [(hTimer, nExpiry)] ∧ nExpiry ≤ s.Timer.Ticks) ∧
      s1.Timer.KernelTimers = [] ∧
      ∃ Page Screen, s_MainScreens[s.m_nCurrentMainScreen]? = some Page ∧
        Page.ScreenHandler = some Screen ∧ Screen ≠ .ViewMasterVol ∧
        s1.m_pUI.Written =
          s.m_pUI.Written ++
            (if (ScreenText cfg Screen { s with
                Timer := { s.Timer with
                  KernelTimers := s.Timer.KernelTimers.filter (fun e => e.1 ≠ hTimer) } }).isSome
             then [Screen] else []) ∧
        s1.m_pMiniDexed = s.m_pMiniDexed ∧
        s1.m_nCurrentMainScreen = s.m_nCurrentMainScreen ∧
        s1.m_nCurrentSelection = s.m_nCurrentSelection) ∧
    (∀ hTimer nExpiry : Nat, s.Timer.KernelTimers = [(hTimer, nExpiry)] →
      nExpiry ≤ s.Timer.Ticks → ∃ s1, expireKernelTimer cfg s hTimer = some s1) := by
  have hv := ReachableTimed.indices_valid cfg s h
  have hi := ReachableTimed.overlayTimer cfg s h
  refine ⟨?_, ?_, ?_, by decide, ?_, ?_⟩
  · rcases hi with hi | ⟨_, x, hi⟩ <;> simp [hi]
  · intro entry hm
    rcases hi with hi | ⟨_, x, hi⟩
    · rw [hi] at hm; cases hm
    · rw [hi, List.mem_singleton] at hm
      rw [hm]
  · intro e he hp
    refine ⟨EventHandler_PressAndTurn_ChangeMasterVol cfg s e he hv hp, ?_⟩
    intro hT
    obtain ⟨_, h2, h3⟩ := ChangeMasterVol_OverlayTimer cfg s e he hi hT
    exact ⟨h2, h3⟩
  · intro hTimer s1 hexp
    obtain ⟨⟨x, hx1, hx2⟩, Page, Screen, hP1, hP2, h3⟩ :=
      expireKernelTimer_fields cfg s s1 hTimer hv hexp
    have hlist : s.Timer.KernelTimers = [(hTimer, x)] := by
      rcases hi with hi | ⟨_, y, hi⟩
      · rw [hi] at hx1; cases hx1
      · rw [hi, List.mem_singleton] at hx1
        rw [hi, hx1]
    refine ⟨⟨x, hlist, hx2⟩, ?_, Page, Screen, hP1, hP2, ?_, ?_, ?_, ?_, ?_⟩
    · rw [h3, callScreen_Timer]; simp [hlist]
    · rcases Valid.cases s hv with ⟨hp, _⟩ | ⟨hp, _⟩ | ⟨hp, _⟩ <;>
        · rw [hp] at hP1
          cases hP1
          cases hP2
          decide
    · rw [h3, callScreen_Written]
    · rw [h3, callScreen_m_pMiniDexed]
    · rw [h3, callScreen_m_nCurrentMainScreen]
    · rw [h3, callScreen_m_nCurrentSelection]
  · intro hTimer x hlist hdue
    have hany : s.Timer.KernelTimers.any
        (fun e => e.1 = hTimer ∧ e.2 ≤ s.Timer.Ticks) = true := by
      rw [hlist]; simp [hdue]
    obtain ⟨Page, Screen, _, _, h3⟩ := TimerHandler_fields cfg hTimer
      { s with Timer := { s.Timer with
          KernelTimers := s.Timer.KernelTimers.filter (fun e => e.1 ≠ hTimer) } } hv
    exact ⟨_, by unfold expireKernelTimer; rw [if_pos hany]; exact h3⟩

/-- Claim C15, the failing input. After `Select`, `StepUp`, `StepUp` the sample
dispatcher is on the bank/voice page with tone generator 0 on bank 3, whose
name has eleven characters. A volume step there writes the overlay and starts
timer 1, due at tick 150. At tick 150 the timer expires with no further volume
step; the `Update` it delivers calls `ViewBankVoice`, which builds no text: no
timer is outstanding, the display receives no write, and its last write is
still the volume overlay's. -/
theorem C15_overlay_not_reverted :
    ∃ s s1 s2,
      handleEvents sampleConfig sampleUIMain
        [.MainEventSelect, .MainEventStepUp, .MainEventStepUp] = some s ∧
      EventHandler sampleConfig s .MainEventPressAndStepUp = some s1 ∧
      s1.Timer.KernelTimers = [(1, 150)] ∧
      s1.m_pUI.Written = s.m_pUI.Written ++ [.ViewMasterVol] ∧
      ReachableTimed sampleConfig (elapse 150 s1) ∧
      expireKernelTimer sampleConfig (elapse 150 s1) 1 = some s2 ∧
      s2.Timer.KernelTimers = [] ∧
      s2.m_nCurrentMainScreen = 0 ∧
      ViewBankVoiceText s2 = none ∧
      s2.m_pUI.Written = s1.m_pUI.Written ∧
      s2.m_pUI.Written.getLast? = some .ViewMasterVol :=
  ⟨_, _, _, rfl, rfl, rfl, rfl,
    ReachableTimed.tick _ 150
      (ReachableTimed.event _ _ .MainEventPressAndStepUp
        (ReachableTimed.event _ _ .MainEventStepUp
          (ReachableTimed.event _ _ .MainEventStepUp
            (ReachableTimed.event sampleUIMain _ .MainEventSelect
              (ReachableTimed.init _ _ _ _ _) rfl) rfl) rfl) rfl),
    rfl, rfl, rfl, rfl, rfl, rfl⟩

/-! ### Text of the renderers -/

/-- When `PadString` produces a string, the source fits, the string has exactly
`nLength` characters, and it is the source with the padding after it or, when
`bPrependPadding` is set, before it. -/
theorem PadString_some (pSource : List Char) (nLength : Int) (PadChar : Char)
    (bPrependPadding : Bool) (Padded : List Char)
    (h : PadString pSource nLength PadChar bPrependPadding = some Padded) :
    ((c_str pSource).length : Int) ≤ nLength ∧
    (Padded.length : Int) = nLength ∧
    Padded =
      (if bPrependPadding then
        List.replicate (nLength - (c_str pSource).length).toNat PadChar ++ c_str pSource
       else
        c_str pSource ++ List.replicate (nLength - (c_str pSource).length).toNat PadChar) := by
  unfold PadString at h
  simp only at h
  split at h
  · cases h
  · rename_i hlt
    cases h
    have hle : ((c_str pSource).length : Int) ≤ nLength := by omega
    refine ⟨hle, ?_, ?_⟩
    · cases bPrependPadding <;>
        simp only [Bool.not_false, Bool.not_true, if_true, Bool.false_eq_true, if_false,
          List.nil_append, List.length_append, List.length_replicate, Nat.cast_add] <;>
        omega
    · cases bPrependPadding <;> simp

/-- A string longer than the width makes `PadString` fail. -/
theorem PadString_none (pSource : List Char) (nLength : Int) (PadChar : Char)
    (bPrependPadding : Bool) (h : nLength < ((c_str pSource).length : Int)) :
    PadString pSource nLength PadChar bPrependPadding = none := by
  unfold PadString
  simp only
  rw [if_pos (by omega)]

/-- Where the brackets stand in a field made of a three-character number, a bracket,
a ten-character name and a bracket. -/
theorem field_layout (Value Name : List Char) (x y : Char) (hV : Value.length = 3)
    (hN : Name.length = 10) :
    (Value ++ [x] ++ Name ++ [y]).length = 15 ∧
    (Value ++ [x] ++ Name ++ [y])[3]? = some x ∧
    (Value ++ [x] ++ Name ++ [y])[14]? = some y ∧
    (Value ++ [x] ++ Name ++ [y]).take 3 = Value ∧
    ((Value ++ [x] ++ Name ++ [y]).drop 4).take 10 = Name := by
  obtain ⟨a, b, c, rfl⟩ := List.length_eq_three.mp hV
  refine ⟨by simp [hN], by simp, ?_, by simp, ?_⟩
  · simp only [List.cons_append, List.nil_append, List.getElem?_cons_succ]
    rw [List.getElem?_append_right (by omega)]
    simp [hN]
  · simp only [List.cons_append, List.nil_append, List.drop_succ_cons, List.drop_zero]
    rw [List.take_append_of_le_length (by omega), List.take_of_length_le (by omega)]

/-- How the text of `ViewBankVoice` is put together, when it is produced. -/
theorem ViewBankVoiceText_some (s : CUIMain) (Bank TG Voice Midi : List Char)
    (h : ViewBankVoiceText s = some (Bank, TG, Voice, Midi)) :
    ∃ (Brackets : List Char × List Char × List Char × List Char)
      (BankValue BankName VoiceValue VoiceName : List Char),
      ViewBankVoiceBrackets s = some Brackets ∧
      PadString (to_string (s.m_pMiniDexed.GetTGParameter .TGParameterVoiceBank
        s.m_nCurrentTG + 1)) 3 '0' true = some BankValue ∧
      PadString (s.m_pMiniDexed.SysExFileLoader.GetBankName
        (s.m_pMiniDexed.GetTGParameter .TGParameterVoiceBank s.m_nCurrentTG))
        10 ' ' false = some BankName ∧
      PadString (to_string (s.m_pMiniDexed.GetTGParameter .TGParameterProgram
        s.m_nCurrentTG + 1)) 2 '0' true = some VoiceValue ∧
      PadString (s.m_pMiniDexed.GetVoiceName s.m_nCurrentTG) 10 ' ' false = some VoiceName ∧
      Bank = BankValue ++ Brackets.1 ++ BankName ++ Brackets.2.1 ∧
      Voice = [' '] ++ VoiceValue ++ Brackets.2.2.1 ++ VoiceName ++ Brackets.2.2.2 ∧
      TG = to_string (((s.m_nCurrentTG + 1) % UINT_RANGE : Nat) : Int) ∧
      Midi = [' '] := by
  unfold ViewBankVoiceText at h
  simp only [Option.bind_eq_bind, Option.bind_eq_some, Option.pure_def, Option.some.injEq,
    Prod.mk.injEq] at h
  obtain ⟨Brackets, h1, BankValue, h2, BankName, h3, VoiceValue, h4, VoiceName, h5, h6, h7,
    h8, h9⟩ := h
  exact ⟨Brackets, BankValue, BankName, VoiceValue, VoiceName, h1, h2, h3, h4, h5, h6.symm,
    h8.symm, h7.symm, h9.symm⟩

/-- The brackets `ViewBankVoice` chooses on the bank/voice page. -/
theorem ViewBankVoiceBrackets_zero (s : CUIMain) (hp : s.m_nCurrentMainScreen = 0)
    (hs : s.m_nCurrentSelection < 3) :
    ViewBankVoiceBrackets s =
      some (if s.m_nCurrentSelection = 1 then ['['] else [' '],
        if s.m_nCurrentSelection = 1 then [']'] else [' '],
        if s.m_nCurrentSelection = 2 then ['['] else [' '],
        if s.m_nCurrentSelection = 2 then [']'] else [' ']) := by
  have h3 : s.m_nCurrentSelection = 0 ∨ s.m_nCurrentSelection = 1 ∨
      s.m_nCurrentSelection = 2 := by omega
  unfold ViewBankVoiceBrackets
  rcases h3 with h3 | h3 | h3
  · rw [currentItem_zero_zero s hp h3, h3]; rfl
  · rw [currentItem_zero_one s hp h3, h3]; rfl
  · rw [currentItem_zero_two s hp h3, h3]; rfl

/-- The handler `ChangeBank` changes no parameter other than banks, for any event. -/
theorem ChangeBank_other_parameters (cfg : CConfig) (s : CUIMain) (e : TMainEvent)
    (P : TTGParameter) (n : Nat) (hP : P ≠ TTGParameter.TGParameterVoiceBank) :
    (ChangeBank cfg s e).m_pMiniDexed.GetTGParameter P n =
      s.m_pMiniDexed.GetTGParameter P n := by
  have key : ∀ v : Int,
      (if s.m_pMiniDexed.GetTGParameter .TGParameterTGGrouping s.m_nCurrentTG = 0 then
        s.m_pMiniDexed.SetTGParameter .TGParameterVoiceBank v s.m_nCurrentTG
      else
        List.foldl
          (fun m n =>
            if m.GetTGParameter .TGParameterTGGrouping n =
                s.m_pMiniDexed.GetTGParameter .TGParameterTGGrouping s.m_nCurrentTG then
              m.SetTGParameter .TGParameterVoiceBank v n
            else m)
          s.m_pMiniDexed (List.range cfg.ToneGenerators)).GetTGParameter P n =
        s.m_pMiniDexed.GetTGParameter P n := by
    intro v
    split
    · simp [GetTGParameter_SetTGParameter, hP]
    · exact (foldl_ChangeBank _ v _ (fun _ _ => rfl) _ _).1 P n hP
  cases e
  case MainEventStepDown =>
    simp only [ChangeBank]
    have h := key (s.m_pMiniDexed.SysExFileLoader.GetNextBankDown
      (s.m_pMiniDexed.GetTGParameter .TGParameterVoiceBank s.m_nCurrentTG))
    split at h <;> rename_i hg <;> simp only [hg, if_true, if_false] <;> exact h
  case MainEventStepUp =>
    simp only [ChangeBank]
    have h := key (s.m_pMiniDexed.SysExFileLoader.GetNextBankUp
      (s.m_pMiniDexed.GetTGParameter .TGParameterVoiceBank s.m_nCurrentTG))
    split at h <;> rename_i hg <;> simp only [hg, if_true, if_false] <;> exact h
  all_goals rfl

/-- C18: the code at the failing input. The name of bank 3 of the sample catalog
has eleven characters, so `PadString` asked to pad it to ten produces no
string; after `Select`, `StepUp`, `StepUp` the sample dispatcher is on the
bank/voice page with tone generator 0 on bank 3, and there `ViewBankVoice`
builds no text: it does not get as far as `DisplayWriteMain`. On bank 1, whose
name has three characters, both fields have 15 characters. -/
theorem C18_PadString_long_name :
    sampleLoader.GetBankName 3 = ['F', 'a', 'c', 't', 'o', 'r', 'y', ' ', 'p', 'r', 's'] ∧
    PadString (sampleLoader.GetBankName 3) 10 ' ' false = none ∧
    (∃ s1, handleEvents sampleConfig sampleUIMain
        [.MainEventSelect, .MainEventStepUp, .MainEventStepUp] = some s1 ∧
      s1.m_nCurrentMainScreen = 0 ∧
      s1.m_pMiniDexed.GetTGParameter .TGParameterVoiceBank s1.m_nCurrentTG = 3 ∧
      ViewBankVoiceText s1 = none) ∧
    ViewBankVoiceText sampleUIMain =
      some (['0', '0', '2', ' ', 'R', 'O', 'M', ' ', ' ', ' ', ' ', ' ', ' ', ' ', ' '], ['1'],
        [' ', '0', '1', ' ', 'B', 'R', 'A', 'S', 'S', ' ', ' ', ' ', '1', ' ', ' '], [' ']) :=
  ⟨rfl, rfl, ⟨_, rfl, rfl, rfl, rfl⟩, rfl⟩

theorem Reachable.handleEvents (cfg : CConfig) (es : List TMainEvent) :
    ∀ s s1 : CUIMain, Reachable cfg s → handleEvents cfg s es = some s1 →
      Reachable cfg s1 := by
  induction es with
  | nil =>
    intro s s1 hr h
    simp only [MiniDexed.handleEvents, Option.some.injEq] at h
    rw [← h]; exact hr
  | cons e es ih =>
    intro s s1 hr h
    unfold MiniDexed.handleEvents at h
    split at h
    · cases h
    · rename_i s2 h2
      exact ih s2 s1 (Reachable.step s s2 e hr h2) h

/-- C19, as stated, fails: after two `Select` events the sample dispatcher is on
the bank/voice page with the voice name bracketed and the bank name not, and
a `StepDown` there, at program 0, changes the bank of tone generator 0 from 1
to 0. -/
theorem C19_voice_step_changes_bank :
    ∃ s s1, handleEvents sampleConfig sampleUIMain [.MainEventSelect, .MainEventSelect] =
        some s ∧
      s.m_nCurrentMainScreen = 0 ∧ s.m_nCurrentSelection = 2 ∧
      ViewBankVoiceBrackets s = some ([' '], [' '], ['['], [']']) ∧
      EventHandler sampleConfig s .MainEventStepDown = some s1 ∧
      s.m_pMiniDexed.GetTGParameter .TGParameterVoiceBank 0 = 1 ∧
      s1.m_pMiniDexed.GetTGParameter .TGParameterVoiceBank 0 = 0 :=
  ⟨_, _, rfl, rfl, rfl, rfl, rfl, rfl, rfl⟩

/-- C19, amended: in every reachable state on the bank/voice page `ViewBankVoice`
chooses `[` and `]` for the bank name exactly when the selection is 1 and for
the voice name exactly when the selection is 2, and spaces otherwise, so never
for both; whenever it produces its text, both fields have 15 characters with
these brackets at positions 3 and 14 around the ten-character name. A
`StepDown` or `StepUp` there goes to `ChangeTG` at selection 0, changing only
the tone-generator cursor; to `ChangeBank` at selection 1, changing only bank
parameters; and to `ChangeVoice` at selection 2, changing only program and
bank parameters, and no bank unless the step rolls over or under the end of
the bank. -/
theorem C19_ViewBankVoice_brackets (cfg : CConfig) (s : CUIMain) (h : Reachable cfg s)
    (hp : s.m_nCurrentMainScreen = 0) :
    s.m_nCurrentSelection < 3 ∧
    ViewBankVoiceBrackets s =
      some (if s.m_nCurrentSelection = 1 then ['['] else [' '],
        if s.m_nCurrentSelection = 1 then [']'] else [' '],
        if s.m_nCurrentSelection = 2 then ['['] else [' '],
        if s.m_nCurrentSelection = 2 then [']'] else [' ']) ∧
    (∀ Bank TG Voice Midi : List Char, ViewBankVoiceText s = some (Bank, TG, Voice, Midi) →
      Bank.length = 15 ∧ Voice.length = 15 ∧
      Bank[3]? = some (if s.m_nCurrentSelection = 1 then '[' else ' ') ∧
      Bank[14]? = some (if s.m_nCurrentSelection = 1 then ']' else ' ') ∧
      Voice[3]? = some (if s.m_nCurrentSelection = 2 then '[' else ' ') ∧
      Voice[14]? = some (if s.m_nCurrentSelection = 2 then ']' else ' ')) ∧
    (∀ e : TMainEvent, e = .MainEventStepDown ∨ e = .MainEventStepUp →
      (s.m_nCurrentSelection = 0 →
        EventHandler cfg s e = some (ViewBankVoice (ChangeTG cfg s e)) ∧
        ChangeTG cfg s e = { s with m_nCurrentTG := (ChangeTG cfg s e).m_nCurrentTG }) ∧
      (s.m_nCurrentSelection = 1 →
        EventHandler cfg s e = some (ViewBankVoice (ChangeBank cfg s e)) ∧
        ChangeBank cfg s e = { s with m_pMiniDexed := (ChangeBank cfg s e).m_pMiniDexed } ∧
        ∀ P n, P ≠ TTGParameter.TGParameterVoiceBank →
          (ChangeBank cfg s e).m_pMiniDexed.GetTGParameter P n =
            s.m_pMiniDexed.GetTGParameter P n) ∧
      (s.m_nCurrentSelection = 2 →
        EventHandler cfg s e = some (ViewBankVoice (ChangeVoice cfg s e)) ∧
        ChangeVoice cfg s e = { s with m_pMiniDexed := (ChangeVoice cfg s e).m_pMiniDexed } ∧
        (∀ P n, P ≠ TTGParameter.TGParameterVoiceBank →
          P ≠ TTGParameter.TGParameterProgram →
          (ChangeVoice cfg s e).m_pMiniDexed.GetTGParameter P n =
            s.m_pMiniDexed.GetTGParameter P n) ∧
        ((e = .MainEventStepDown ∧
            0 < s.m_pMiniDexed.GetTGParameter .TGParameterProgram s.m_nCurrentTG) ∨
          (e = .MainEventStepUp ∧
            s.m_pMiniDexed.GetTGParameter .TGParameterProgram s.m_nCurrentTG + 1 ≤
              (s.m_pMiniDexed.SysExFileLoader.VoicesPerBank : Int) - 1) →
          ∀ n, (ChangeVoice cfg s e).m_pMiniDexed.GetTGParameter .TGParameterVoiceBank n =
            s.m_pMiniDexed.GetTGParameter .TGParameterVoiceBank n))) := by
  have hv := Reachable.valid cfg s h
  have hs : s.m_nCurrentSelection < 3 := by
    rcases Valid.cases s hv with ⟨_, h2⟩ | ⟨h1, _⟩ | ⟨h1, _⟩ <;> omega
  have hb := ViewBankVoiceBrackets_zero s hp hs
  refine ⟨hs, hb, ?_, ?_⟩
  · intro Bank TG Voice Midi ht
    obtain ⟨Brackets, BankValue, BankName, VoiceValue, VoiceName, h1, h2, h3, h4, h5, h6, h7,
      _, _⟩ := ViewBankVoiceText_some s Bank TG Voice Midi ht
    rw [hb] at h1
    cases h1
    have l2 := (PadString_some _ _ _ _ _ h2).2.1
    have l3 := (PadString_some _ _ _ _ _ h3).2.1
    have l4 := (PadString_some _ _ _ _ _ h4).2.1
    have l5 := (PadString_some _ _ _ _ _ h5).2.1
    have lV : ([' '] ++ VoiceValue).length = 3 := by
      simp only [List.singleton_append, List.length_cons]; omega
    have e1 : ∀ c : Prop, ∀ [Decidable c], ∀ x y : Char,
        (if c then [x] else [y]) = [if c then x else y] := by
      intro c _ x y; split <;> rfl
    simp only [e1] at h6 h7
    obtain ⟨a1, a2, a3, _, _⟩ := field_layout BankValue BankName _ _ (by omega) (by omega)
    obtain ⟨b1, b2, b3, _, _⟩ := field_layout ([' '] ++ VoiceValue) VoiceName _ _ lV
      (by omega)
    rw [h6, h7]
    exact ⟨a1, b1, a2, a3, b2, b3⟩
  · intro e he
    refine ⟨?_, ?_, ?_⟩
    · intro h0
      obtain ⟨v, hf⟩ := ChangeTG_fields cfg s e
      exact ⟨EventHandler_Encoder_ChangeTG cfg s e he hp h0, by rw [hf]⟩
    · intro h1
      obtain ⟨m, hf⟩ := ChangeBank_fields cfg s e
      exact ⟨EventHandler_Encoder_ChangeBank cfg s e he hp h1, by rw [hf],
        fun P n hP => ChangeBank_other_parameters cfg s e P n hP⟩
    · intro h2
      obtain ⟨m, hf⟩ := ChangeVoice_fields cfg s e
      obtain ⟨_, e2, e3, _⟩ := ChangeVoice_effect cfg s e he _ rfl
      refine ⟨EventHandler_Encoder_ChangeVoice cfg s e he hp h2, by rw [hf], e3, ?_⟩
      intro hroll n
      rw [e2 n]
      rcases hroll with ⟨he1, hv1⟩ | ⟨he1, hv1⟩
      · subst he1
        have hlt : ¬ (decInt (s.m_pMiniDexed.GetTGParameter .TGParameterProgram
            s.m_nCurrentTG) < 0) := by
          rw [decInt_eq _ (by omega)]; omega
        simp [hlt]
      · subst he1
        have hlt : ¬ (incInt (s.m_pMiniDexed.GetTGParameter .TGParameterProgram
            s.m_nCurrentTG) > (s.m_pMiniDexed.SysExFileLoader.VoicesPerBank : Int) - 1) := by
          unfold incInt INT_MIN INT_MAX
          split <;> omega
        simp [hlt]

/-- C19, amended, at the freshly constructed sample dispatcher, which is on the
bank/voice page with selection 0: no field is bracketed. -/
theorem C19_ViewBankVoice_brackets_witness :
    Reachable sampleConfig sampleUIMain ∧ sampleUIMain.m_nCurrentMainScreen = 0 ∧
    ViewBankVoiceBrackets sampleUIMain =
      some (if sampleUIMain.m_nCurrentSelection = 1 then ['['] else [' '],
        if sampleUIMain.m_nCurrentSelection = 1 then [']'] else [' '],
        if sampleUIMain.m_nCurrentSelection = 2 then ['['] else [' '],
        if sampleUIMain.m_nCurrentSelection = 2 then [']'] else [' ']) :=
  ⟨Reachable.init _ _ _, rfl,
   (C19_ViewBankVoice_brackets sampleConfig sampleUIMain (Reachable.init _ _ _) rfl).2.1⟩

/-! ### The group/mute overview -/

theorem to_string_digit (n : Nat) (h : n ≤ 9) : to_string (n : Int) = [Nat.digitChar n] := by
  interval_cases n <;> rfl

/-- The read of `m_GroupText` at a group id in `[0,4]`. -/
theorem GroupTextAt_range (g : Int) (h0 : 0 ≤ g) (h4 : g ≤ 4) :
    GroupTextAt g =
      some (if g = 0 then '.' else if g = 1 then 'A' else if g = 2 then 'B'
        else if g = 3 then 'C' else 'D') := by
  obtain ⟨k, rfl⟩ := Int.eq_ofNat_of_zero_le h0
  have hk : k ≤ 4 := by omega
  interval_cases k <;> rfl

/-- The loop of `ViewTGGroupMute`, with body `f`, over a list of tone generators
whose group glyphs can all be read: both lines grow by what each tone
generator contributes, in order. -/
theorem foldlM_ViewTGGroupMute (m : CMiniDexed)
    (f : List Char × List Char → Nat → Option (List Char × List Char))
    (hf : ∀ Lines n, f Lines n =
      (GroupTextAt (m.GetTGParameter .TGParameterTGGrouping n)).bind (fun Group =>
        some (Lines.1 ++ [Group],
          Lines.2 ++ (if m.GetTGParameter .TGParameterTGEnable n ≠ 0 then
            to_string (((n + 1) % UINT_RANGE : Nat) : Int) else ['-']))))
    (glyph tg : Nat → Char) (l : List Nat)
    (hglyph : ∀ n ∈ l, GroupTextAt (m.GetTGParameter .TGParameterTGGrouping n) =
      some (glyph n))
    (htg : ∀ n ∈ l, (if m.GetTGParameter .TGParameterTGEnable n ≠ 0 then
      to_string (((n + 1) % UINT_RANGE : Nat) : Int) else ['-']) = [tg n]) :
    ∀ Lines : List Char × List Char,
      l.foldlM f Lines = some (Lines.1 ++ l.map glyph, Lines.2 ++ l.map tg) := by
  induction l with
  | nil => intro Lines; simp
  | cons n l ih =>
    intro Lines
    rw [List.foldlM_cons, hf, hglyph n (List.mem_cons_self n l), htg n (List.mem_cons_self n l)]
    simp only [Option.some_bind, Option.bind_eq_bind]
    rw [ih (fun k hk => hglyph k (List.mem_cons_of_mem n hk))
      (fun k hk => htg k (List.mem_cons_of_mem n hk))]
    simp

/-- C20, as stated, fails: with ten tone generators, all enabled and all group ids
in `[0,4]`, the TG line has 17 characters, not 6 + 10: tone generator 10
contributes the two characters `1` and `0`. -/
theorem C20_ten_tone_generators :
    GroupsInRange { ToneGenerators := 10, LCDColumns := 16 } sampleUIMain.m_pMiniDexed ∧
    ∃ Groups TGs Cursor,
      ViewTGGroupMuteText { ToneGenerators := 10, LCDColumns := 16 } sampleUIMain =
        some (Groups, [], TGs, Cursor) ∧
      TGs = ['T', 'G', ' ', ' ', ' ', ' ', '1', '2', '3', '4', '5', '6', '7', '8', '9',
        '1', '0'] ∧
      TGs.length = 17 := by
  refine ⟨?_, _, _, _, rfl, rfl, rfl⟩
  intro n _
  simp only [sampleUIMain, CUIMain.init, sampleMiniDexed, CMiniDexed.GetTGParameter]
  split <;> decide

/-- C20, amended: with at most nine tone generators and every group id in `[0,4]`,
`ViewTGGroupMute` builds its text; both lines have 6 + N characters, the label
`Group ` or `TG    ` and then one character per tone generator: at index 6 + n
(column n + 7 counted from 1) the group line has the glyph `.`, `A`, `B`, `C`
or `D` of the group id of tone generator n, and the TG line has the digit
n + 1 when tone generator n is enabled and `-` when it is not; the second
field is empty and the cursor sequence is ESC `[?25h` ESC `[2;`, the decimal
number `m_nSelectedTG + 7` and `H`. -/
theorem C20_ViewTGGroupMute_layout (cfg : CConfig) (s : CUIMain)
    (hN : cfg.ToneGenerators ≤ 9) (hg : GroupsInRange cfg s.m_pMiniDexed) :
    ∃ Groups TGs Cursor : List Char,
      ViewTGGroupMuteText cfg s = some (Groups, [], TGs, Cursor) ∧
      Groups.length = 6 + cfg.ToneGenerators ∧
      TGs.length = 6 + cfg.ToneGenerators ∧
      Groups.take 6 = ['G', 'r', 'o', 'u', 'p', ' '] ∧
      TGs.take 6 = ['T', 'G', ' ', ' ', ' ', ' '] ∧
      (∀ n, n < cfg.ToneGenerators →
        Groups[6 + n]? =
          some (if s.m_pMiniDexed.GetTGParameter .TGParameterTGGrouping n = 0 then '.'
            else if s.m_pMiniDexed.GetTGParameter .TGParameterTGGrouping n = 1 then 'A'
            else if s.m_pMiniDexed.GetTGParameter .TGParameterTGGrouping n = 2 then 'B'
            else if s.m_pMiniDexed.GetTGParameter .TGParameterTGGrouping n = 3 then 'C'
            else 'D') ∧
        TGs[6 + n]? =
          some (if s.m_pMiniDexed.GetTGParameter .TGParameterTGEnable n ≠ 0 then
            Nat.digitChar (n + 1) else '-')) ∧
      Cursor = [ESC, '[', '?', '2', '5', 'h', ESC, '[', '2', ';'] ++
        to_string (((s.m_nSelectedTG + 7) % UINT_RANGE : Nat) : Int) ++ ['H'] ∧
      (s.m_nSelectedTG < cfg.ToneGenerators →
        (s.m_nSelectedTG + 7) % UINT_RANGE = s.m_nSelectedTG + 7) := by
  have hglyph : ∀ n ∈ List.range cfg.ToneGenerators,
      GroupTextAt (s.m_pMiniDexed.GetTGParameter .TGParameterTGGrouping n) =
        some ((fun n =>
          if s.m_pMiniDexed.GetTGParameter .TGParameterTGGrouping n = 0 then '.'
          else if s.m_pMiniDexed.GetTGParameter .TGParameterTGGrouping n = 1 then 'A'
          else if s.m_pMiniDexed.GetTGParameter .TGParameterTGGrouping n = 2 then 'B'
          else if s.m_pMiniDexed.GetTGParameter .TGParameterTGGrouping n = 3 then 'C'
          else 'D') n) := by
    intro n hn
    rw [List.mem_range] at hn
    exact GroupTextAt_range _ (hg n hn).1 (hg n hn).2
  have htg : ∀ n ∈ List.range cfg.ToneGenerators,
      (if s.m_pMiniDexed.GetTGParameter .TGParameterTGEnable n ≠ 0 then
        to_string (((n + 1) % UINT_RANGE : Nat) : Int) else ['-']) =
        [(fun n => if s.m_pMiniDexed.GetTGParameter .TGParameterTGEnable n ≠ 0 then
          Nat.digitChar (n + 1) else '-') n] := by
    intro n hn
    rw [List.mem_range] at hn
    have hmod : (n + 1) % UINT_RANGE = n + 1 := Nat.mod_eq_of_lt (by unfold UINT_RANGE; omega)
    rw [hmod, to_string_digit (n + 1) (by omega)]
    simp only
    split <;> rfl
  have hfold := foldlM_ViewTGGroupMute s.m_pMiniDexed _ (fun _ _ => rfl) _ _
    (List.range cfg.ToneGenerators) hglyph htg
    (['G', 'r', 'o', 'u', 'p', ' '], ['T', 'G', ' ', ' ', ' ', ' '])
  refine ⟨['G', 'r', 'o', 'u', 'p', ' '] ++ (List.range cfg.ToneGenerators).map (fun n =>
      if s.m_pMiniDexed.GetTGParameter .TGParameterTGGrouping n = 0 then '.'
      else if s.m_pMiniDexed.GetTGParameter .TGParameterTGGrouping n = 1 then 'A'
      else if s.m_pMiniDexed.GetTGParameter .TGParameterTGGrouping n = 2 then 'B'
      else if s.m_pMiniDexed.GetTGParameter .TGParameterTGGrouping n = 3 then 'C'
      else 'D'),
    ['T', 'G', ' ', ' ', ' ', ' '] ++ (List.range cfg.ToneGenerators).map (fun n =>
      if s.m_pMiniDexed.GetTGParameter .TGParameterTGEnable n ≠ 0 then
        Nat.digitChar (n + 1) else '-'),
    _, ?_, ?_, ?_, ?_, ?_, ?_, rfl, ?_⟩
  · exact congrArg (fun o : Option (List Char × List Char) => o.bind fun Lines =>
      some (Lines.1, [], Lines.2,
        [ESC, '[', '?', '2', '5', 'h', ESC, '[', '2', ';'] ++
          to_string (((s.m_nSelectedTG + 7) % UINT_RANGE : Nat) : Int) ++ ['H'])) hfold
  · simp only [List.cons_append, List.nil_append, List.length_cons, List.length_map,
      List.length_range]
    omega
  · simp only [List.cons_append, List.nil_append, List.length_cons, List.length_map,
      List.length_range]
    omega
  · simp
  · simp
  · intro n hn
    refine ⟨?_, ?_⟩
    · rw [List.getElem?_append_right (by simp)]
      simp [hn]
    · rw [List.getElem?_append_right (by simp)]
      simp [hn]
  · intro hsel
    exact Nat.mod_eq_of_lt (by unfold UINT_RANGE; omega)

/-- C20, amended, at the sample dispatcher with its four tone generators. -/
theorem C20_ViewTGGroupMute_layout_witness :
    sampleConfig.ToneGenerators ≤ 9 ∧
    GroupsInRange sampleConfig sampleUIMain.m_pMiniDexed ∧
    ∃ Groups TGs Cursor : List Char,
      ViewTGGroupMuteText sampleConfig sampleUIMain = some (Groups, [], TGs, Cursor) ∧
      Groups.length = 6 + sampleConfig.ToneGenerators ∧
      TGs.length = 6 + sampleConfig.ToneGenerators := by
  have hg : GroupsInRange sampleConfig sampleUIMain.m_pMiniDexed := by
    intro n _
    simp only [sampleUIMain, CUIMain.init, sampleMiniDexed, CMiniDexed.GetTGParameter]
    split <;> decide
  obtain ⟨Groups, TGs, Cursor, h1, h2, h3, _⟩ :=
    C20_ViewTGGroupMute_layout sampleConfig sampleUIMain (by decide) hg
  exact ⟨by decide, hg, Groups, TGs, Cursor, h1, h2, h3⟩

/-! ### The volume bar -/

theorem c_str_VolumeBar (k : Nat) : ∀ n : Nat, k < n →
    c_str ((List.replicate n BLOCK).set k NUL) = List.replicate k BLOCK := by
  induction k with
  | zero =>
    intro n hn
    obtain ⟨m, rfl⟩ : ∃ m, n = m + 1 := ⟨n - 1, by omega⟩
    simp [c_str, List.replicate_succ]
  | succ k ih =>
    intro n hn
    obtain ⟨m, rfl⟩ : ∃ m, n = m + 1 := ⟨n - 1, by omega⟩
    have hb : BLOCK ≠ NUL := by decide
    have h := ih m (by omega)
    unfold c_str at h ⊢
    simp only [List.replicate_succ, List.set_cons_succ]
    rw [List.takeWhile_cons_of_pos (by simpa using hb), h]

theorem ToVolume_MaxChars (cfg : CConfig) (hW : 6 ≤ cfg.LCDColumns)
    (hO : 100 * (cfg.LCDColumns - 6) < SIZE_RANGE) :
    ToVolume.MaxChars cfg = cfg.LCDColumns - 6 := by
  unfold ToVolume.MaxChars toUnsigned
  unfold SIZE_RANGE at hO
  omega

theorem ToVolume_nIndex (cfg : CConfig) (hW : 6 ≤ cfg.LCDColumns)
    (hO : 100 * (cfg.LCDColumns - 6) < SIZE_RANGE) (v : Nat) (hv : v ≤ 100) :
    ToVolume.nIndex cfg (v : Int) = v * (cfg.LCDColumns - 6) / 100 ∧
    v * (cfg.LCDColumns - 6) / 100 ≤ cfg.LCDColumns - 6 := by
  have h1 : v * (cfg.LCDColumns - 6) ≤ 100 * (cfg.LCDColumns - 6) :=
    Nat.mul_le_mul_right _ hv
  have hS : toSize (v : Int) = v := by
    unfold toSize SIZE_RANGE
    omega
  constructor
  · unfold ToVolume.nIndex
    rw [ToVolume_MaxChars cfg hW hO, hS, Nat.mod_eq_of_lt (by omega)]
  · exact Nat.div_le_of_le_mul h1

theorem ToVolume_eq (cfg : CConfig) (hW : 6 ≤ cfg.LCDColumns)
    (hO : 100 * (cfg.LCDColumns - 6) < SIZE_RANGE) (v : Nat) (hv : v ≤ 100) :
    ToVolume cfg (v : Int) =
      some (List.replicate (v * (cfg.LCDColumns - 6) / 100) BLOCK ++
        List.replicate (cfg.LCDColumns - 6 - v * (cfg.LCDColumns - 6) / 100) ' ') := by
  obtain ⟨hi, hle⟩ := ToVolume_nIndex cfg hW hO v hv
  have hM := ToVolume_MaxChars cfg hW hO
  have hT : toInt (cfg.LCDColumns - 6) = ((cfg.LCDColumns - 6 : Nat) : Int) := by
    unfold toInt
    unfold SIZE_RANGE at hO
    rw [if_pos (by omega)]
  have hP : PadString ((List.replicate (cfg.LCDColumns - 6 + 1) BLOCK).set
      (v * (cfg.LCDColumns - 6) / 100) NUL) ((cfg.LCDColumns - 6 : Nat) : Int) ' ' false =
      some (List.replicate (v * (cfg.LCDColumns - 6) / 100) BLOCK ++
        List.replicate (cfg.LCDColumns - 6 - v * (cfg.LCDColumns - 6) / 100) ' ') := by
    unfold PadString
    simp only [c_str_VolumeBar _ _ (Nat.lt_succ_of_le hle), List.length_replicate]
    rw [if_neg (by omega)]
    simp only [Bool.not_false, if_true, Bool.false_eq_true, if_false]
    have hk : (((cfg.LCDColumns - 6 : Nat) : Int) -
        ((v * (cfg.LCDColumns - 6) / 100 : Nat) : Int)).toNat =
        cfg.LCDColumns - 6 - v * (cfg.LCDColumns - 6) / 100 := by omega
    rw [hk]
  unfold ToVolume
  simp only [hi, hM, hT]
  rw [if_pos (by omega)]
  exact hP

theorem count_BLOCK_bar (k m : Nat) :
    (List.replicate k BLOCK ++ List.replicate m ' ').count BLOCK = k := by
  have hb : ¬ (' ' = BLOCK) := by decide
  simp [List.count_replicate, hb]

/-- Claim C21. With at least 6 display columns and a bar width `W = LCDColumns - 6`
small enough that `100 * W` fits a `size_t`, for all percentages `v ≤ v1` in
`[0,100]`: the index at which `ToVolume` writes the NUL is `v * W / 100` and
lies inside the array of `W + 1` elements; `ToVolume v` returns
`v * W / 100` block characters followed by spaces, `W` characters in all; the
number of block characters of `ToVolume v` is at most that of `ToVolume v1`;
`ToVolume 0` has no block character and `ToVolume 100` is `W` block
characters. -/
theorem C21_ToVolume_bar (cfg : CConfig) (hW : 6 ≤ cfg.LCDColumns)
    (hO : 100 * (cfg.LCDColumns - 6) < SIZE_RANGE) (v v1 : Nat) (hvv : v ≤ v1)
    (hv : v1 ≤ 100) :
    ToVolume.MaxChars cfg = cfg.LCDColumns - 6 ∧
    ToVolume.nIndex cfg (v : Int) = v * (cfg.LCDColumns - 6) / 100 ∧
    ToVolume.nIndex cfg (v : Int) < ToVolume.MaxChars cfg + 1 ∧
    (∃ Bar Bar1, ToVolume cfg (v : Int) = some Bar ∧ ToVolume cfg (v1 : Int) = some Bar1 ∧
      Bar.length = cfg.LCDColumns - 6 ∧
      Bar = List.replicate (v * (cfg.LCDColumns - 6) / 100) BLOCK ++
        List.replicate (cfg.LCDColumns - 6 - v * (cfg.LCDColumns - 6) / 100) ' ' ∧
      Bar.count BLOCK = v * (cfg.LCDColumns - 6) / 100 ∧
      Bar.count BLOCK ≤ Bar1.count BLOCK) ∧
    ToVolume cfg 0 = some (List.replicate (cfg.LCDColumns - 6) ' ') ∧
    ToVolume cfg 100 = some (List.replicate (cfg.LCDColumns - 6) BLOCK) := by
  have hM := ToVolume_MaxChars cfg hW hO
  obtain ⟨hi, hle⟩ := ToVolume_nIndex cfg hW hO v (by omega)
  refine ⟨hM, hi, by rw [hi, hM]; omega, ⟨_, _, ToVolume_eq cfg hW hO v (by omega),
    ToVolume_eq cfg hW hO v1 hv, ?_, rfl, count_BLOCK_bar _ _, ?_⟩, ?_, ?_⟩
  · simp only [List.length_append, List.length_replicate]
    omega
  · rw [count_BLOCK_bar, count_BLOCK_bar]
    exact Nat.div_le_div_right (Nat.mul_le_mul_right _ hvv)
  · have h := ToVolume_eq cfg hW hO 0 (by omega)
    simpa using h
  · have h := ToVolume_eq cfg hW hO 100 (by omega)
    simpa using h

theorem C21_ToVolume_bar_witness :
    ToVolume.nIndex sampleConfig 50 = 5 ∧
    (∃ Bar Bar1, ToVolume sampleConfig 50 = some Bar ∧ ToVolume sampleConfig 99 = some Bar1 ∧
      Bar.length = 10 ∧
      Bar = List.replicate 5 BLOCK ++ List.replicate 5 ' ' ∧
      Bar.count BLOCK = 5 ∧
      Bar.count BLOCK ≤ Bar1.count BLOCK) ∧
    ToVolume sampleConfig 0 = some (List.replicate 10 ' ') ∧
    ToVolume sampleConfig 100 = some (List.replicate 10 BLOCK) := by
  obtain ⟨_, h2, _, h4, h5, h6⟩ :=
    C21_ToVolume_bar sampleConfig (by decide) (by decide) 50 99 (by decide) (by decide)
  exact ⟨h2, h4, h5, h6⟩

/-- The text of the volume overlay for a percentage in `[0,100]`: the bar between
brackets, and the number. -/
theorem ViewMasterVolText_eq (cfg : CConfig) (hW : 6 ≤ cfg.LCDColumns)
    (hO : 100 * (cfg.LCDColumns - 6) < SIZE_RANGE) (s : CUIMain) (v : Nat) (hv : v ≤ 100)
    (hs : s.m_pMiniDexed.getMasterVolumePercent = (v : Int)) :
    ViewMasterVolText cfg s =
      some (['M', 'a', 's', 't', 'e', 'r', ' ', 'V', 'o', 'l', 'u', 'm', 'e'], [],
        ['['] ++ (List.replicate (v * (cfg.LCDColumns - 6) / 100) BLOCK ++
          List.replicate (cfg.LCDColumns - 6 - v * (cfg.LCDColumns - 6) / 100) ' ') ++ [']'],
        to_string (v : Int)) := by
  have h1 : toUnsigned (v : Int) = v := by
    unfold toUnsigned
    omega
  have h2 : toInt v = (v : Int) := by
    unfold toInt
    rw [if_pos (by omega)]
  unfold ViewMasterVolText
  rw [hs, h1]
  simp only [h2, ToVolume_eq cfg hW hO v hv]
  rfl

/-! ### The selected slot over an empty catalog -/

/-- With a last-slot count of at least 1, `StepUp` keeps a slot that is at most
`L - 1` at most `L - 1`. -/
theorem SelectPerf_StepUp_le (s : CUIMain)
    (hL : s.m_pMiniDexed.LastPerformance < UINT_RANGE)
    (hs : s.m_nSelectedPerformanceID < s.m_pMiniDexed.LastPerformance) :
    (SelectPerf s .MainEventStepUp).m_nSelectedPerformanceID ≤
      s.m_pMiniDexed.LastPerformance - 1 := by
  rw [(SelectPerf_StepUp s hL hs).1]
  exact Nat.min_le_right _ _

/-- With a last-slot count of 0 the bound `(unsigned) GetLastPerformance()-1` is
`2^32 - 1` and `StepUp` adds one to every slot below it. -/
theorem SelectPerf_StepUp_empty (s : CUIMain) (hL : s.m_pMiniDexed.LastPerformance = 0)
    (hs : s.m_nSelectedPerformanceID + 1 < UINT_RANGE) :
    (SelectPerf s .MainEventStepUp).m_nSelectedPerformanceID =
      s.m_nSelectedPerformanceID + 1 := by
  have h1 : (s.m_nSelectedPerformanceID + 1) % UINT_RANGE = s.m_nSelectedPerformanceID + 1 :=
    Nat.mod_eq_of_lt hs
  have h2 : (0 + UINT_RANGE - 1) % UINT_RANGE = UINT_RANGE - 1 := by decide
  have h3 : ¬ (s.m_nSelectedPerformanceID + 1 > UINT_RANGE - 1) := by omega
  unfold SelectPerf
  simp only [hL, h1, h2, if_neg h3]
  split <;> rfl

/-- Claim C22, the failing input. Over a subsystem whose last-slot count is 0, in
auto-load mode, the dispatcher opens the performance page with slot 0
selected, which is `max(L-1, 0)`; the next `StepUp` selects slot 1 and hands
slot 1 to `SetNewPerformance`, above `max(L-1, 0) = 0`. -/
theorem C22_SelectPerf_empty_catalog :
    ∃ s s1, EventHandler sampleConfig emptyCatalogUIMain .MainEventNextScreen = some s ∧
      s.m_nCurrentMainScreen = 1 ∧
      s.m_pMiniDexed.LastPerformance = 0 ∧
      s.m_pMiniDexed.PerformanceSelectToLoad = false ∧
      (s.m_nSelectedPerformanceID : Int) ≤ max ((s.m_pMiniDexed.LastPerformance : Int) - 1) 0 ∧
      EventHandler sampleConfig s .MainEventStepUp = some s1 ∧
      s1.m_nSelectedPerformanceID = 1 ∧
      s1.m_pMiniDexed.ActualPerformanceID = 1 ∧
      s1.m_pMiniDexed.Calls = [TSetCall.SetNewPerformance 1] ∧
      ¬ ((s1.m_nSelectedPerformanceID : Int) ≤
        max ((s.m_pMiniDexed.LastPerformance : Int) - 1) 0) :=
  ⟨_, _, rfl, rfl, rfl, rfl, by decide, rfl, rfl, rfl, rfl, by decide⟩

/-! ### The two tone-generator cursors -/

theorem callScreen_cursors (Screen : TMainScreen) (s : CUIMain) :
    (callScreen cfg Screen s).m_nCurrentTG = s.m_nCurrentTG ∧
    (callScreen cfg Screen s).m_nSelectedTG = s.m_nSelectedTG := by
  cases Screen <;> exact ⟨rfl, rfl⟩

theorem ChangeBank_ignores_SelectedTG (cfg : CConfig) (s : CUIMain) (e : TMainEvent)
    (x : Nat) :
    ChangeBank cfg { s with m_nSelectedTG := x } e =
      { ChangeBank cfg s e with m_nSelectedTG := x } := by
  unfold ChangeBank
  cases e <;> simp only [] <;> first
    | rfl
    | (split <;> rfl)

theorem ChangeVoice_ignores_SelectedTG (cfg : CConfig) (s : CUIMain) (e : TMainEvent)
    (x : Nat) :
    ChangeVoice cfg { s with m_nSelectedTG := x } e =
      { ChangeVoice cfg s e with m_nSelectedTG := x } := by
  unfold ChangeVoice
  cases e <;> simp only [] <;> first
    | rfl
    | (split <;> rfl)

theorem MuteUnmuteTG_ignores_CurrentTG (s : CUIMain) (e : TMainEvent) (x : Nat) :
    MuteUnmuteTG { s with m_nCurrentTG := x } e =
      { MuteUnmuteTG s e with m_nCurrentTG := x } := by
  cases e <;> rfl

theorem EditGroup_ignores_CurrentTG (s : CUIMain) (e : TMainEvent) (x : Nat) :
    EditGroup { s with m_nCurrentTG := x } e =
      { EditGroup s e with m_nCurrentTG := x } := by
  cases e <;> rfl

/-- Which events can move which cursor: `m_nCurrentTG` only moves on an encoder step
at item 0 of page 0, `m_nSelectedTG` only on an encoder step on page 2. -/
theorem EventHandler_cursor_frame (cfg : CConfig) (s : CUIMain) (e : TMainEvent)
    (hv : Valid s) :
    ∃ s1, EventHandler cfg s e = some s1 ∧
      (s1.m_nCurrentTG = s.m_nCurrentTG ∨
        (s.m_nCurrentMainScreen = 0 ∧ s.m_nCurrentSelection = 0 ∧
          (e = .MainEventStepDown ∨ e = .MainEventStepUp))) ∧
      (s1.m_nSelectedTG = s.m_nSelectedTG ∨
        (s.m_nCurrentMainScreen = 2 ∧ (e = .MainEventStepDown ∨ e = .MainEventStepUp))) := by
  obtain ⟨s1, h, hc⟩ := EventHandler_cases cfg s e hv
  refine ⟨s1, h, ?_⟩
  rcases hc with ⟨_, Screen, rfl⟩ | ⟨_, _, rfl⟩ | ⟨_, _, rfl⟩ | ⟨_, _, rfl⟩ |
    ⟨he, hp, hi, rfl⟩ | ⟨_, _, _, rfl⟩ | ⟨_, _, _, rfl⟩ | ⟨_, _, rfl⟩ | ⟨he, hp, rfl⟩ |
    ⟨_, _, rfl⟩ | ⟨_, _, rfl⟩ | ⟨_, Screen, rfl⟩
  · exact ⟨Or.inl (callScreen_cursors _ _).1, Or.inl (callScreen_cursors _ _).2⟩
  · exact ⟨Or.inl rfl, Or.inl rfl⟩
  · obtain ⟨m, hm⟩ := LoadPerf_fields s e
    rw [hm]
    exact ⟨Or.inl rfl, Or.inl rfl⟩
  · exact ⟨Or.inl rfl, Or.inl rfl⟩
  · obtain ⟨v, hm⟩ := ChangeTG_fields cfg s e
    rw [hm]
    exact ⟨Or.inr ⟨hp, hi, he⟩, Or.inl rfl⟩
  · obtain ⟨m, hm⟩ := ChangeBank_fields cfg s e
    rw [hm]
    exact ⟨Or.inl rfl, Or.inl rfl⟩
  · obtain ⟨m, hm⟩ := ChangeVoice_fields cfg s e
    rw [hm]
    exact ⟨Or.inl rfl, Or.inl rfl⟩
  · obtain ⟨m, v, hm⟩ := SelectPerf_fields s e
    rw [hm]
    exact ⟨Or.inl rfl, Or.inl rfl⟩
  · obtain ⟨v, hm⟩ := SelectTG_fields cfg s e
    rw [hm]
    exact ⟨Or.inl rfl, Or.inr ⟨hp, he⟩⟩
  · obtain ⟨ui, m, t, tm, hm⟩ := ChangeMasterVol_fields cfg s e
    rw [hm]
    exact ⟨Or.inl rfl, Or.inl rfl⟩
  · obtain ⟨m, hm⟩ := EditGroup_fields s e
    rw [hm]
    exact ⟨Or.inl rfl, Or.inl rfl⟩
  · exact ⟨Or.inl (callScreen_cursors _ _).1, Or.inl (callScreen_cursors _ _).2⟩

/-- Claim C23. From a state with valid table indices every event is handled, and the
new state has: the same `m_nSelectedTG` if page 0 (bank/voice) was current;
the same `m_nCurrentTG` if page 2 (group/mute) was current; both cursors
unchanged if page 1 (performance) was current or the event is `NextScreen`.
`ChangeBank` and `ChangeVoice` give the same result whatever `m_nSelectedTG`
holds, and `MuteUnmuteTG` and `EditGroup` give the same result whatever
`m_nCurrentTG` holds, apart from carrying that cursor along. -/
theorem C23_cursors_independent (cfg : CConfig) (s : CUIMain) (e : TMainEvent)
    (hv : Valid s) :
    (∃ s1, EventHandler cfg s e = some s1 ∧
      (s.m_nCurrentMainScreen = 0 → s1.m_nSelectedTG = s.m_nSelectedTG) ∧
      (s.m_nCurrentMainScreen = 2 → s1.m_nCurrentTG = s.m_nCurrentTG) ∧
      (s.m_nCurrentMainScreen = 1 ∨ e = .MainEventNextScreen →
        s1.m_nCurrentTG = s.m_nCurrentTG ∧ s1.m_nSelectedTG = s.m_nSelectedTG)) ∧
    (∀ x : Nat, ChangeBank cfg { s with m_nSelectedTG := x } e =
      { ChangeBank cfg s e with m_nSelectedTG := x }) ∧
    (∀ x : Nat, ChangeVoice cfg { s with m_nSelectedTG := x } e =
      { ChangeVoice cfg s e with m_nSelectedTG := x }) ∧
    (∀ x : Nat, MuteUnmuteTG { s with m_nCurrentTG := x } e =
      { MuteUnmuteTG s e with m_nCurrentTG := x }) ∧
    (∀ x : Nat, EditGroup { s with m_nCurrentTG := x } e =
      { EditGroup s e with m_nCurrentTG := x }) := by
  refine ⟨?_, ChangeBank_ignores_SelectedTG cfg s e, ChangeVoice_ignores_SelectedTG cfg s e,
    MuteUnmuteTG_ignores_CurrentTG s e, EditGroup_ignores_CurrentTG s e⟩
  obtain ⟨s1, h, hc, hs⟩ := EventHandler_cursor_frame cfg s e hv
  refine ⟨s1, h, ?_, ?_, ?_⟩
  · intro hp
    rcases hs with hs | ⟨hp2, _⟩
    · exact hs
    · omega
  · intro hp
    rcases hc with hc | ⟨hp0, _⟩
    · exact hc
    · omega
  · intro hp
    constructor
    · rcases hc with hc | ⟨hp0, _, he⟩
      · exact hc
      · rcases hp with hp | hp
        · omega
        · subst hp
          rcases he with he | he <;> cases he
    · rcases hs with hs | ⟨hp2, he⟩
      · exact hs
      · rcases hp with hp | hp
        · omega
        · subst hp
          rcases he with he | he <;> cases he

theorem C23_cursors_independent_witness :
    (∃ s1, EventHandler sampleConfig sampleUIMain .MainEventStepUp = some s1 ∧
      s1.m_nSelectedTG = sampleUIMain.m_nSelectedTG) ∧
    (∀ x : Nat, ChangeBank sampleConfig { sampleUIMain with m_nSelectedTG := x }
        .MainEventStepUp =
      { ChangeBank sampleConfig sampleUIMain .MainEventStepUp with m_nSelectedTG := x }) := by
  obtain ⟨⟨s1, h1, h2, _, _⟩, h3, _⟩ :=
    C23_cursors_independent sampleConfig sampleUIMain .MainEventStepUp (Valid.init _ _ _)
  exact ⟨⟨s1, h1, h2 rfl⟩, h3⟩

end MiniDexed
